import Mathlib

/-!
# Patient Management client: session, request and form contract

A shallow embedding of the browser client under `frontend/src`:

* `App.jsx` (the `apiCall` helper, `AuthPage`, `DashboardWrapper`, `App`),
* `components/PatientManager.jsx` (its own `apiCall` helper, the handlers of
  `PatientManager` and its statistics and prediction modals),
* `components/PatientForm.jsx` (the form, its population from a record and `handleSubmit`),
* `contexts/AuthContext.js` and `pages/LoginRegister.jsx`.

JavaScript values are a small inductive type with exact decimal numbers, asynchronous
handlers are programs in a state-and-exception monad over the client state, and every answer
of the outside world (the result of a `fetch`, of an axios call, of `window.confirm`) is an
explicit argument of the handler that consumes it. The risk scorer of the server is not
among the sources; its definitions follow the specification and say so.
-/

namespace PatientClient

/-! ## JavaScript values -/

/-- A JavaScript value as the client handles it: the JSON values, `undefined`, and the
numbers that are not integers. Numbers are exact decimals: `num` is an integer, `dec` a
number with a fractional part (sign, whole part, digits after the point, the last one not
zero), `nan` and `inf` the two kinds of non-finite number. There is no rounding to 64-bit
floating point, no overflow and no negative zero. -/
inductive Val where
  | undefined : Val
  | null : Val
  | bool (b : Bool) : Val
  | num (n : Int) : Val
  | str (s : String) : Val
  | arr (items : List Val) : Val
  | obj (props : List (String × Val)) : Val
  | nan : Val
  | inf (negative : Bool) : Val
  | dec (negative : Bool) (whole : Nat) (fraction : List Nat) : Val

/-- The own properties of an object, as the sequence of its property definitions: a later
definition of a key overrides an earlier one. -/
abbrev Props := List (String × Val)

/-- Looks a key up among property definitions; the last definition wins. -/
def Props.lookup : Props → String → Option Val
  | [], _ => none
  | (k, v) :: rest, key =>
    match Props.lookup rest key with
    | some w => some w
    | none => if k = key then some v else none

/-- Reads `o[key]` on a plain object: the property, or `undefined` when it has none. -/
def Props.get (o : Props) (key : String) : Val :=
  (o.lookup key).getD Val.undefined

/-- Defines one property, as the entry `key: v` of an object literal does. -/
def Props.set (o : Props) (key : String) (v : Val) : Props :=
  o ++ [(key, v)]

/-- Numbers the items of a sequence from `i` on, with the index written as a property key. -/
def indexed : Nat → List Val → Props
  | _, [] => []
  | i, v :: rest => (toString i, v) :: indexed (i + 1) rest

/-- The own enumerable properties that a spread `...v` copies: the properties of an object,
the indexed items of an array, the indexed characters of a string, nothing for any other
value. -/
def Val.ownProps : Val → Props
  | .obj props => props
  | .arr items => indexed 0 items
  | .str s => indexed 0 (s.toList.map fun c => Val.str (String.singleton c))
  | _ => []

/-- The spread `{...target, ...v}` inside an object literal. -/
def Props.spread (target : Props) (v : Val) : Props :=
  target ++ v.ownProps

/-- JavaScript truthiness (`ToBoolean`). -/
def Val.truthy : Val → Bool
  | .undefined => false
  | .null => false
  | .bool b => b
  | .num n => n != 0
  | .str s => s != ""
  | .arr _ => true
  | .obj _ => true
  | .nan => false
  | .inf _ => true
  | .dec _ whole fraction => whole != 0 || fraction.any (· != 0)

/-- The operator `a || b`. -/
def Val.or (a b : Val) : Val :=
  if a.truthy then a else b

/-- Whether a value is `null` or `undefined`. -/
def Val.nullish : Val → Bool
  | .undefined => true
  | .null => true
  | _ => false

/-- The operator `a ?? b`. -/
def Val.coalesce (a b : Val) : Val :=
  if a.nullish then b else a

/-- The text of a number with a fractional part: sign, whole part, point, digits. -/
def decimalText (negative : Bool) (whole : Nat) (fraction : List Nat) : String :=
  (if negative then "-" else "") ++ toString whole ++ "." ++ String.mk (fraction.map Nat.digitChar)

mutual
/-- String conversion `String(v)` (`ToString`). Numbers print in positional notation
(JavaScript switches to exponent notation from 1e21 on and below 1e-6). -/
def Val.toStr : Val → String
  | .undefined => "undefined"
  | .null => "null"
  | .bool true => "true"
  | .bool false => "false"
  | .num n => toString n
  | .str s => s
  | .arr items => Val.joinItems items
  | .obj _ => "[object Object]"
  | .nan => "NaN"
  | .inf true => "-Infinity"
  | .inf false => "Infinity"
  | .dec negative whole fraction => decimalText negative whole fraction
/-- The items of an array joined with commas, as `Array.prototype.join` does: `null` and
`undefined` items print as the empty string. -/
def Val.joinItems : List Val → String
  | [] => ""
  | [v] => if v.nullish then "" else v.toStr
  | v :: w :: rest => (if v.nullish then "" else v.toStr) ++ "," ++ Val.joinItems (w :: rest)
end

/-- Quotes a string as `JSON.stringify` does: the double quote (code 34), the backslash
(code 92) and the control characters are escaped. -/
def quoteJSON (s : String) : String :=
  let escape (c : Char) : String :=
    if c.toNat = 34 then "\x5c\x22"
    else if c.toNat = 92 then "\x5c\x5c"
    else if c.toNat = 10 then "\x5cn"
    else if c.toNat = 13 then "\x5cr"
    else if c.toNat = 9 then "\x5ct"
    else if c.toNat = 8 then "\x5cb"
    else if c.toNat = 12 then "\x5cf"
    else if c.toNat < 32 then
      "\x5cu00" ++ String.singleton (Nat.digitChar (c.toNat / 16))
        ++ String.singleton (Nat.digitChar (c.toNat % 16))
    else String.singleton c
  "\x22" ++ String.join (s.toList.map escape) ++ "\x22"

mutual
/-- The text `JSON.stringify(v)` produces, or `none` where it gives `undefined`. -/
def Val.stringify : Val → Option String
  | .undefined => none
  | .null => some "null"
  | .bool true => some "true"
  | .bool false => some "false"
  | .num n => some (toString n)
  | .str s => some (quoteJSON s)
  | .arr items => some ("[" ++ ",".intercalate (Val.stringifyItems items) ++ "]")
  | .obj props => some ("\x7b" ++ ",".intercalate (Val.stringifyProps props) ++ "\x7d")
  | .nan => some "null"
  | .inf _ => some "null"
  | .dec negative whole fraction => some (decimalText negative whole fraction)
/-- The items of an array in JSON; an item without a JSON text prints as `null`. -/
def Val.stringifyItems : List Val → List String
  | [] => []
  | v :: rest => (v.stringify).getD "null" :: Val.stringifyItems rest
/-- The members of an object in JSON: a definition overridden later in the sequence, or
whose value has no JSON text, is left out. -/
def Val.stringifyProps : List (String × Val) → List String
  | [] => []
  | (k, v) :: rest =>
    if (Props.lookup rest k).isSome then Val.stringifyProps rest
    else
      match v.stringify with
      | some text => (quoteJSON k ++ ":" ++ text) :: Val.stringifyProps rest
      | none => Val.stringifyProps rest
end

/-- The call `JSON.stringify(v)`. -/
def JSON.stringify (v : Val) : Val :=
  match v.stringify with
  | some text => .str text
  | none => .undefined

/-! ## Number conversion -/

/-- The white space and line terminator characters that `Number` strips from both ends of
a string. -/
def isStrWhiteSpace (c : Char) : Bool :=
  c.toNat = 9 || c.toNat = 10 || c.toNat = 11 || c.toNat = 12 || c.toNat = 13 ||
  c.toNat = 32 || c.toNat = 160 || c.toNat = 5760 || (8192 ≤ c.toNat && c.toNat ≤ 8202) ||
  c.toNat = 8232 || c.toNat = 8233 || c.toNat = 8239 || c.toNat = 8287 ||
  c.toNat = 12288 || c.toNat = 65279

/-- Strips white space from both ends. -/
def stripWhiteSpace (cs : List Char) : List Char :=
  ((cs.dropWhile isStrWhiteSpace).reverse.dropWhile isStrWhiteSpace).reverse

/-- The value of a decimal digit character. -/
def digitValue (c : Char) : Nat := c.toNat - 48

/-- The value of a sequence of decimal digit characters. -/
def natOfDigits (cs : List Char) : Nat :=
  cs.foldl (fun acc c => 10 * acc + digitValue c) 0

/-- The value of a hexadecimal digit character, if it is one. -/
def hexValue (c : Char) : Option Nat :=
  if 48 ≤ c.toNat && c.toNat ≤ 57 then some (c.toNat - 48)
  else if 97 ≤ c.toNat && c.toNat ≤ 102 then some (c.toNat - 87)
  else if 65 ≤ c.toNat && c.toNat ≤ 70 then some (c.toNat - 55)
  else none

/-- The value of a non-empty sequence of digits in base 2, 8 or 16, if every character is a
digit of that base. -/
def natOfRadix (base : Nat) (cs : List Char) : Option Nat :=
  if cs.isEmpty then none
  else cs.foldl
    (fun acc c =>
      match acc, hexValue c with
      | some a, some v => if v < base then some (base * a + v) else none
      | _, _ => none)
    (some 0)

/-- The exponent part of a decimal literal, after the mantissa: nothing, or `e` or `E`
followed by an optionally signed non-empty sequence of digits. -/
def scanExponent (cs : List Char) : Option Int :=
  match cs with
  | [] => some 0
  | e :: rest =>
    if e.toNat = 101 || e.toNat = 69 then
      match rest with
      | [] => none
      | sign :: digits =>
        if sign.toNat = 45 then
          if !digits.isEmpty && digits.all Char.isDigit then some (-(natOfDigits digits : Int))
          else none
        else if sign.toNat = 43 then
          if !digits.isEmpty && digits.all Char.isDigit then some (natOfDigits digits : Int)
          else none
        else if rest.all Char.isDigit then some (natOfDigits rest : Int)
        else none
    else none

/-- An unsigned decimal literal split into the digits of its mantissa before the point, the
digits after the point and its exponent: digits, optionally a point and digits, optionally
an exponent part, with at least one digit in the mantissa. -/
def scanDecimal (cs : List Char) : Option (List Char × List Char × Int) :=
  let whole := cs.takeWhile Char.isDigit
  let afterWhole := cs.dropWhile Char.isDigit
  let fraction :=
    match afterWhole with
    | point :: rest => if point.toNat = 46 then rest.takeWhile Char.isDigit else []
    | [] => []
  let afterFraction :=
    match afterWhole with
    | point :: rest => if point.toNat = 46 then rest.dropWhile Char.isDigit else afterWhole
    | [] => []
  if whole.isEmpty && fraction.isEmpty then none
  else
    match scanExponent afterFraction with
    | some exponent => some (whole, fraction, exponent)
    | none => none

/-- Drops the zeros at the end of a sequence of digits. -/
def dropTrailingZeros (digits : List Nat) : List Nat :=
  (digits.reverse.dropWhile (· == 0)).reverse

/-- The number with the given sign whose decimal digits are `digits`, with the point after
the first `point` of them (before the first one, with zeros in between, when `point` is
negative; zeros are appended when `point` is beyond the last one). -/
def decimalValue (negative : Bool) (digits : List Char) (point : Int) : Val :=
  let sign : Int := if negative then -1 else 1
  if digits.length ≤ point then
    .num (sign * (natOfDigits digits * 10 ^ (point - digits.length).toNat : Nat))
  else
    let whole := natOfDigits (digits.take point.toNat)
    let fraction := dropTrailingZeros
      (List.replicate (-point).toNat 0 ++ (digits.drop point.toNat).map digitValue)
    if fraction.isEmpty then .num (sign * (whole : Nat)) else .dec negative whole fraction

/-- The value of an unsigned decimal literal or of `Infinity`, with the sign given, or `NaN`
when the characters are neither. -/
def unsignedDecimal (negative : Bool) (cs : List Char) : Val :=
  if cs = "Infinity".toList then .inf negative
  else
    match scanDecimal cs with
    | some (whole, fraction, exponent) =>
      decimalValue negative (whole ++ fraction) (whole.length + exponent)
    | none => .nan

/-- The conversion of a string to a number (`StringToNumber`): white space is stripped; the
empty string is 0; a binary, octal or hexadecimal integer literal, an optionally signed
decimal literal and an optionally signed `Infinity` have their value; anything else is
`NaN`. -/
def stringToNumber (s : String) : Val :=
  match stripWhiteSpace s.toList with
  | [] => .num 0
  | c :: rest =>
    if c.toNat = 45 then unsignedDecimal true rest
    else if c.toNat = 43 then unsignedDecimal false rest
    else
      match rest with
      | x :: digits =>
        if c.toNat = 48 && (x.toNat = 120 || x.toNat = 88) then
          (match natOfRadix 16 digits with | some n => .num n | none => .nan)
        else if c.toNat = 48 && (x.toNat = 111 || x.toNat = 79) then
          (match natOfRadix 8 digits with | some n => .num n | none => .nan)
        else if c.toNat = 48 && (x.toNat = 98 || x.toNat = 66) then
          (match natOfRadix 2 digits with | some n => .num n | none => .nan)
        else unsignedDecimal false (c :: rest)
      | [] => unsignedDecimal false (c :: rest)

/-- The call `Number(v)` (`ToNumber`); an array or object is converted through its string. -/
def Val.toNumber : Val → Val
  | .undefined => .nan
  | .null => .num 0
  | .bool true => .num 1
  | .bool false => .num 0
  | .str s => stringToNumber s
  | .arr items => stringToNumber (Val.arr items).toStr
  | .obj props => stringToNumber (Val.obj props).toStr
  | v => v

/-- The test `typeof v === "number"`. -/
def Val.isNumber : Val → Bool
  | .num _ => true
  | .nan => true
  | .inf _ => true
  | .dec _ _ _ => true
  | _ => false

/-- Whether a value is a finite number in its one representation, as `JSON.parse` gives it:
an integer, or a number with a fractional part whose digits after the point are decimal
digits, at least one of them, the last one not zero. -/
def Val.isFiniteNumber : Val → Bool
  | .num _ => true
  | .dec _ _ fraction =>
    !fraction.isEmpty && fraction.all (· < 10) && fraction.getLast? != some 0
  | _ => false

/-! ## Exceptions and effects -/

/-- A thrown error object: its `name`, its `message`, and the `response` property that an
axios rejection carries (`undefined` on every other error). -/
structure Thrown where
  name : String
  message : String
  response : Val := .undefined

/-- The object `new Error(message)`: the argument is converted to a string. -/
def Thrown.Error (message : Val) : Thrown :=
  { name := "Error", message := message.toStr }

/-- The `TypeError` of a property read on `null` or `undefined` (in the wording of V8; the
program never inspects it). -/
def Thrown.nullRead (base : Val) (key : String) : Thrown :=
  { name := "TypeError"
    message := "Cannot read properties of " ++ base.toStr ++ " (reading \x27" ++ key ++ "\x27)" }

/-- A handler body: a computation over the client state `σ` that returns a value or throws,
and keeps the state changes made before a throw. -/
def Eff (σ α : Type) : Type := σ → Except Thrown α × σ

namespace Eff

/-- Returns a value without touching the state. -/
def pure {σ α : Type} (a : α) : Eff σ α := fun s => (.ok a, s)

/-- Sequencing (`await`, or the next statement): a throw skips the continuation. -/
def bind {σ α β : Type} (x : Eff σ α) (f : α → Eff σ β) : Eff σ β := fun s =>
  match x s with
  | (.ok a, s1) => f a s1
  | (.error e, s1) => (.error e, s1)

instance {σ : Type} : Monad (Eff σ) where
  pure := Eff.pure
  bind := Eff.bind

/-- The statement `throw e`. -/
def throw {σ α : Type} (e : Thrown) : Eff σ α := fun s => (.error e, s)

/-- A state update, such as a React state setter. -/
def modify {σ : Type} (f : σ → σ) : Eff σ Unit := fun s => (.ok (), f s)

/-- Reads the current state. -/
def get {σ : Type} : Eff σ σ := fun s => (.ok s, s)

/-- The statement `try body catch (err) handler`, and `promise.catch(handler)`. -/
def tryCatch {σ α : Type} (body : Eff σ α) (handler : Thrown → Eff σ α) : Eff σ α := fun s =>
  match body s with
  | (.ok a, s1) => (.ok a, s1)
  | (.error e, s1) => handler e s1

/-- The statement `try body finally cleanup`, and `promise.finally(cleanup)`: the cleanup
runs on both exits and the outcome of the body is kept unless the cleanup throws. -/
def tryFinally {σ α : Type} (body : Eff σ α) (cleanup : Eff σ Unit) : Eff σ α := fun s =>
  match body s with
  | (r, s1) =>
    match cleanup s1 with
    | (.ok _, s2) => (r, s2)
    | (.error e, s2) => (.error e, s2)

end Eff

/-- Property read `v.key`; it throws a `TypeError` on `null` and `undefined`. None of the
names read through it (`error`, `user`, `patients`, `total`, `data`, `success`, `_id`, the
fields of a patient, of a prediction and of the statistics) is a built-in property of a
string, an array, a number or a boolean, so on those it gives `undefined`. -/
def Val.getProp {σ : Type} (v : Val) (key : String) : Eff σ Val :=
  match v with
  | .undefined => Eff.throw (Thrown.nullRead v key)
  | .null => Eff.throw (Thrown.nullRead v key)
  | .obj props => Eff.pure (Props.get props key)
  | _ => Eff.pure .undefined

/-- Optional property read `v?.key`. -/
def Val.getPropOpt (v : Val) (key : String) : Val :=
  match v with
  | .obj props => Props.get props key
  | _ => .undefined

/-! ## Enumeration and rendering -/

/-- Property read `v.key` outside a handler: the value read, or the `TypeError` thrown on
`null` and `undefined`. -/
def Val.read (v : Val) (key : String) : Except Thrown Val :=
  match v with
  | .undefined => .error (Thrown.nullRead v key)
  | .null => .error (Thrown.nullRead v key)
  | .obj props => .ok (Props.get props key)
  | _ => .ok .undefined

/-- The keys of a sequence of property definitions, each once, in the order in which they
are first defined. -/
def Props.keys : Props → List String
  | [] => []
  | (k, _) :: rest => k :: (Props.keys rest).filter fun key => key != k

/-- The array index that a property key writes, if it writes one: decimal digits without a
leading zero that give a number below 4294967295. -/
def arrayIndex (key : String) : Option Nat :=
  if !key.toList.isEmpty && key.toList.all Char.isDigit
      && (key.toList.length == 1 || key.toList.head? != some (Char.ofNat 48)) then
    (if natOfDigits key.toList < 4294967295 then some (natOfDigits key.toList) else none)
  else none

/-- Inserts an array index with its key into a sequence ordered by index. -/
def insertIndex (entry : Nat × String) : List (Nat × String) → List (Nat × String)
  | [] => [entry]
  | head :: rest =>
    if entry.1 ≤ head.1 then entry :: head :: rest else head :: insertIndex entry rest

/-- The own property keys in the order in which JavaScript enumerates them: the array
indices in ascending order, then the other keys in the order of their definition. -/
def Props.ownKeys (props : Props) : List String :=
  (((Props.keys props).filterMap fun key => (arrayIndex key).map fun i => (i, key)).foldr
      insertIndex []).map Prod.snd
    ++ (Props.keys props).filter fun key => (arrayIndex key).isNone

/-- The call `Object.entries(v)`: a `TypeError` on `null` and `undefined`, otherwise the own
enumerable properties of the value as pairs of key and value (the items of an array and the
characters of a string under their indices, nothing for a number or a boolean). -/
def Val.entries (v : Val) : Except Thrown (List (String × Val)) :=
  match v with
  | .undefined =>
    .error { name := "TypeError", message := "Cannot convert undefined or null to object" }
  | .null =>
    .error { name := "TypeError", message := "Cannot convert undefined or null to object" }
  | _ => .ok ((Props.ownKeys v.ownProps).map fun key => (key, Props.get v.ownProps key))

/-- The receiver of a call `v.map(..)`, `expression` being the text of the callee: the items
of an array; a `TypeError` for any other value, which has no function `map` (`null` and
`undefined` have no properties, and a value parsed from JSON holds no function). -/
def Val.mapReceiver (v : Val) (expression : String) : Except Thrown (List Val) :=
  match v with
  | .arr items => .ok items
  | .undefined => .error (Thrown.nullRead v "map")
  | .null => .error (Thrown.nullRead v "map")
  | _ => .error { name := "TypeError", message := expression ++ " is not a function" }

/-- How a render fails: with an error thrown while the elements are built, or on a value
that React does not take as a child. -/
inductive RenderError where
  | thrown (error : Thrown)
  | invalidChild (child : Val)

mutual
/-- The text nodes that React makes of a child value: the text of a string that is not
empty and of a number, nothing for a boolean, `null`, `undefined` and the empty string, the
nodes of the items of an array in order; any other object is not valid as a child. -/
def renderChild : Val → Except RenderError (List String)
  | .undefined => .ok []
  | .null => .ok []
  | .bool _ => .ok []
  | .num n => .ok [(Val.num n).toStr]
  | .str s => .ok (if s = "" then [] else [s])
  | .arr items => renderChildren items
  | .obj props => .error (.invalidChild (.obj props))
  | .nan => .ok [Val.nan.toStr]
  | .inf negative => .ok [(Val.inf negative).toStr]
  | .dec negative whole fraction => .ok [(Val.dec negative whole fraction).toStr]
/-- The text nodes of a sequence of children. -/
def renderChildren : List Val → Except RenderError (List String)
  | [] => .ok []
  | v :: rest =>
    match renderChild v with
    | .error e => .error e
    | .ok nodes =>
      match renderChildren rest with
      | .error e => .error e
      | .ok others => .ok (nodes ++ others)
end

/-! ## The network -/

/-- A call of `fetch`: the URL and the init object. -/
structure Request where
  url : String
  init : Props

/-- A response as the client reads it: the status code and what `response.json()` settles
to, the parsed body or the message of the `SyntaxError` it rejects with. -/
structure Response where
  status : Nat
  json : Except String Val

/-- The getter `response.ok`: the status is in the range 200 to 299. -/
def Response.ok (r : Response) : Bool :=
  200 ≤ r.status && r.status ≤ 299

/-- What `response.json()` does inside a handler. -/
def Response.parse {σ : Type} (r : Response) : Eff σ Val :=
  match r.json with
  | .ok v => Eff.pure v
  | .error message => Eff.throw { name := "SyntaxError", message := message }

/-- What a `fetch` promise settles to: a response (of any status), or a rejection with the
message of its `TypeError` when the transport failed. -/
abbrev FetchResult := Except String Response

/-! ## Client state -/

/-- State of the `App` component (`App.jsx`). -/
structure AppState where
  user : Val := .null
  loading : Bool := true

/-- State of the `AuthPage` component (`App.jsx`). -/
structure AuthPageState where
  view : String := "login"
  username : String := ""
  password : String := ""
  error : String := ""
  success : String := ""

/-- State of the `PatientManager` component. -/
structure PatientManagerState where
  patients : Val := .arr []
  loading : Bool := true
  showForm : Bool := false
  editingPatient : Val := .null
  viewPatient : Val := .null
  success : String := ""
  error : String := ""
  page : Int := 1
  total : Val := .num 0
  sortField : String := "age"
  sortOrder : Int := 1
  prediction : Val := .null
  showPrediction : Bool := false
  predictionLoading : Bool := false
  statistics : Val := .null
  showStats : Bool := false

/-- State of the `AuthProvider` component (`contexts/AuthContext.js`). -/
structure AuthProviderState where
  user : Val := .null
  loading : Bool := true

/-- State of the `LoginRegister` page. -/
structure LoginRegisterState where
  username : String := ""
  password : String := ""
  isRegister : Bool := false
  error : Val := .str ""
  loading : Bool := false

/-- The fields of the form of `components/PatientForm.jsx`, in the order of the keys of
`emptyForm`. -/
inductive Field where
  | gender
  | age
  | hypertension
  | ever_married
  | work_type
  | residence_type
  | avg_glucose_level
  | bmi
  | smoking_status
  | stroke
  deriving DecidableEq, Repr

/-- The `form` object of `components/PatientForm.jsx`; its initial value is `emptyForm`,
every field the empty string. -/
structure Form where
  gender : Val := .str ""
  age : Val := .str ""
  hypertension : Val := .str ""
  ever_married : Val := .str ""
  work_type : Val := .str ""
  residence_type : Val := .str ""
  avg_glucose_level : Val := .str ""
  bmi : Val := .str ""
  smoking_status : Val := .str ""
  stroke : Val := .str ""

/-- The read `form[key]`. -/
def Form.get (form : Form) : Field → Val
  | .gender => form.gender
  | .age => form.age
  | .hypertension => form.hypertension
  | .ever_married => form.ever_married
  | .work_type => form.work_type
  | .residence_type => form.residence_type
  | .avg_glucose_level => form.avg_glucose_level
  | .bmi => form.bmi
  | .smoking_status => form.smoking_status
  | .stroke => form.stroke

/-- The object that spreads `form` and then sets the entry `key` to `value`. -/
def Form.set (form : Form) (key : Field) (value : Val) : Form :=
  match key with
  | .gender => { form with gender := value }
  | .age => { form with age := value }
  | .hypertension => { form with hypertension := value }
  | .ever_married => { form with ever_married := value }
  | .work_type => { form with work_type := value }
  | .residence_type => { form with residence_type := value }
  | .avg_glucose_level => { form with avg_glucose_level := value }
  | .bmi => { form with bmi := value }
  | .smoking_status => { form with smoking_status := value }
  | .stroke => { form with stroke := value }

/-- State of the `PatientForm` component (`components/PatientForm.jsx`). -/
structure PatientFormState where
  form : Form := {}
  error : String := ""
  loading : Bool := false

/-- The client: the state of its components, and the record of what it did to the outside
world, the `fetch` and axios calls issued and the `navigate` calls made, oldest first. -/
structure Client where
  requests : List Request := []
  navigations : List String := []
  app : AppState := {}
  authPage : AuthPageState := {}
  manager : PatientManagerState := {}
  auth : AuthProviderState := {}
  loginRegister : LoginRegisterState := {}
  patientForm : PatientFormState := {}

/-- The call `fetch(url, init)`, awaited: the request is issued, and the promise settles to
`result`. -/
def fetch (url : String) (init : Props) (result : FetchResult) : Eff Client Response := fun s =>
  let s1 := { s with requests := s.requests ++ [{ url := url, init := init }] }
  match result with
  | .ok response => (.ok response, s1)
  | .error message => (.error { name := "TypeError", message := message }, s1)

/-- The part of `fetch(url, init)` that runs at the call: the request is issued. -/
def fetchStart (url : String) (init : Props) : Eff Client Unit :=
  Eff.modify fun s => { s with requests := s.requests ++ [{ url := url, init := init }] }

/-- The `await` of a `fetch` promise that settles to `result`. -/
def fetchSettled (result : FetchResult) : Eff Client Response := fun s =>
  match result with
  | .ok response => (.ok response, s)
  | .error message => (.error { name := "TypeError", message := message }, s)

/-- The function `navigate` of `useNavigate()`. -/
def navigate (path : String) : Eff Client Unit :=
  Eff.modify fun s => { s with navigations := s.navigations ++ [path] }

/-- The expression `message || fallback` on a string. -/
def strOr (message fallback : String) : String :=
  if message != "" then message else fallback

/-! ## `App.jsx` -/

namespace App

/-- The constant `API_URL`. -/
def API_URL : String := "http://localhost:8000"

/-- The helper `apiCall(endpoint, options = {})`. -/
def apiCall (endpoint : String) (options : Props) (result : FetchResult) : Eff Client Val := do
  let response ← fetch (API_URL ++ endpoint)
    (((Props.spread [] (.obj options)).set "credentials" (.str "include")).set "headers"
      (.obj (Props.spread [("Content-Type", .str "application/json")] (options.get "headers"))))
    result
  if !response.ok then
    let error ← Eff.tryCatch response.parse
      (fun _ => pure (.obj [("error", .str "Request failed")]))
    Eff.throw (Thrown.Error ((← error.getProp "error").or (.str "Request failed")))
  response.parse

/-- The setter `setUser` of `App`, passed down to `AuthPage` and `DashboardWrapper`. -/
def setUser (v : Val) : Eff Client Unit :=
  Eff.modify fun s => { s with app.user := v }

/-- The setter `setLoading` of `App`. -/
def setLoading (b : Bool) : Eff Client Unit :=
  Eff.modify fun s => { s with app.loading := b }

namespace AuthPage

/-- The setter `setError` of `AuthPage`. -/
def setError (message : String) : Eff Client Unit :=
  Eff.modify fun s => { s with authPage.error := message }

/-- The setter `setSuccess` of `AuthPage`. -/
def setSuccess (message : String) : Eff Client Unit :=
  Eff.modify fun s => { s with authPage.success := message }

/-- The body of the login and register requests: `JSON.stringify` of the object with the
fields `username` and `password`. -/
def credentials (username password : String) : Val :=
  JSON.stringify (.obj [("username", .str username), ("password", .str password)])

/-- The handler `handleLogin`; its two requests settle to `loginResult` and
`currentUserResult`. -/
def handleLogin (loginResult currentUserResult : FetchResult) : Eff Client Unit := do
  let s ← Eff.get
  setError ""
  Eff.tryCatch
    (do
      let _ ← apiCall "/api/auth/login"
        [("method", .str "POST"), ("body", credentials s.authPage.username s.authPage.password)]
        loginResult
      let data ← apiCall "/api/auth/current_user" [] currentUserResult
      setUser (← data.getProp "user")
      setSuccess "Logged in successfully!")
    (fun err => setError err.message)

/-- The test `/^[A-Za-z0-9]+$/.test(username)`. -/
def usernamePattern (username : String) : Bool :=
  !username.toList.isEmpty &&
    username.toList.all fun c =>
      (65 ≤ c.toNat && c.toNat ≤ 90) || (97 ≤ c.toNat && c.toNat ≤ 122) ||
        (48 ≤ c.toNat && c.toNat ≤ 57)

/-- The handler `handleRegister`. -/
def handleRegister (registerResult currentUserResult : FetchResult) : Eff Client Unit := do
  let s ← Eff.get
  setError ""
  if !usernamePattern s.authPage.username then
    setError "Username can only contain letters and numbers"
  else
    Eff.tryCatch
      (do
        let _ ← apiCall "/api/auth/register"
          [("method", .str "POST"), ("body", credentials s.authPage.username s.authPage.password)]
          registerResult
        let data ← apiCall "/api/auth/current_user" [] currentUserResult
        setUser (← data.getProp "user")
        setSuccess "Registered successfully!")
      (fun err => setError err.message)

end AuthPage

namespace DashboardWrapper

/-- The handler `handleLogout`. -/
def handleLogout (logoutResult : FetchResult) : Eff Client Unit := do
  let _ ← fetch "http://localhost:8000/api/auth/logout"
    [("method", .str "POST"), ("credentials", .str "include")] logoutResult
  setUser .null
  navigate "/"

end DashboardWrapper

/-- The effect `App` runs once when it mounts: the `current_user` probe,
`apiCall(..).then(..).catch(..).finally(..)`. -/
def onMount (result : FetchResult) : Eff Client Unit :=
  Eff.tryFinally
    (Eff.tryCatch
      (do
        let data ← apiCall "/api/auth/current_user" [] result
        setUser (← data.getProp "user"))
      (fun _ => setUser .null))
    (setLoading false)

/-- What `App` puts on the screen. -/
inductive View where
  | loadingScreen
  | redirect (target : String)
  | authPage
  | dashboard
  | sessionExpired
  | blank
  deriving DecidableEq, Repr

/-- The path match that `Routes` makes for a route path without parameters (`matchPath`
with `end` set and `caseSensitive` not set): the route path is compiled to a pattern that
takes the path itself, the letters `A` to `Z` and `a` to `z` compared without regard to
their case, followed by any number of slashes (code 47), up to the end of the location. -/
def matchPath (pattern pathname : String) : Bool :=
  (pattern.toList.map Char.toLower).isPrefixOf (pathname.toList.map Char.toLower) &&
    (((pathname.toList.map Char.toLower).drop pattern.toList.length).all
      fun c => c.toNat == 47)

/-- The render of `App` at the location whose pathname, percent-decoded as the router
decodes it before matching, is `path` (the router takes `/` for an empty pathname): the
loading screen while the probe is pending, then the element of the route that matches the
pathname, and nothing when no route matches. The three route paths exclude one another, so
the order of the tests is immaterial. -/
def render (s : Client) (path : String) : View :=
  let pathname := if path = "" then "/" else path
  if s.app.loading then .loadingScreen
  else if matchPath "/" pathname then
    (if s.app.user.truthy then .redirect "/dashboard" else .authPage)
  else if matchPath "/dashboard" pathname then
    (if s.app.user.truthy then .dashboard else .redirect "/")
  else if matchPath "/session-expired" pathname then .sessionExpired
  else .blank

end App

/-! ## `components/PatientManager.jsx` -/

namespace PatientManager

/-- The constant `API_URL`. -/
def API_URL : String := "http://localhost:8000"

/-- The helper `apiCall(endpoint, options = {}, navigate = null)`; `navigate` is `none` for
`null` and the function otherwise. -/
def apiCall (endpoint : String) (options : Props)
    (navigate : Option (String → Eff Client Unit)) (result : FetchResult) : Eff Client Val := do
  let response ← fetch (API_URL ++ endpoint)
    (((Props.spread [] (.obj options)).set "credentials" (.str "include")).set "headers"
      (.obj (Props.spread [("Content-Type", .str "application/json")] (options.get "headers"))))
    result
  if response.status = 401 then
    if let some go := navigate then
      go "/session-expired"
    Eff.throw (Thrown.Error (.str "Session expired. Please login again."))
  if !response.ok then
    let error ← Eff.tryCatch response.parse
      (fun _ => pure (.obj [("error", .str "Request failed")]))
    Eff.throw (Thrown.Error ((← error.getProp "error").or (.str "Request failed")))
  response.parse

/-- The setter `setPatients`. -/
def setPatients (v : Val) : Eff Client Unit :=
  Eff.modify fun s => { s with manager.patients := v }

/-- The setter `setTotal`. -/
def setTotal (v : Val) : Eff Client Unit :=
  Eff.modify fun s => { s with manager.total := v }

/-- The setter `setLoading`. -/
def setLoading (b : Bool) : Eff Client Unit :=
  Eff.modify fun s => { s with manager.loading := b }

/-- The setter `setError`. -/
def setError (message : String) : Eff Client Unit :=
  Eff.modify fun s => { s with manager.error := message }

/-- The setter `setSuccess`. -/
def setSuccess (message : String) : Eff Client Unit :=
  Eff.modify fun s => { s with manager.success := message }

/-- The setter `setPrediction`. -/
def setPrediction (v : Val) : Eff Client Unit :=
  Eff.modify fun s => { s with manager.prediction := v }

/-- The setter `setShowPrediction`. -/
def setShowPrediction (b : Bool) : Eff Client Unit :=
  Eff.modify fun s => { s with manager.showPrediction := b }

/-- The setter `setPredictionLoading`. -/
def setPredictionLoading (b : Bool) : Eff Client Unit :=
  Eff.modify fun s => { s with manager.predictionLoading := b }

/-- The setter `setStatistics`. -/
def setStatistics (v : Val) : Eff Client Unit :=
  Eff.modify fun s => { s with manager.statistics := v }

/-- The setter `setShowStats`. -/
def setShowStats (b : Bool) : Eff Client Unit :=
  Eff.modify fun s => { s with manager.showStats := b }

/-- The setter `setViewPatient`. -/
def setViewPatient (v : Val) : Eff Client Unit :=
  Eff.modify fun s => { s with manager.viewPatient := v }

/-- The constant `perPage`. -/
def perPage : Int := 20

/-- The function `loadPatients`, with the page and sort state of the render it belongs to. -/
def loadPatients (result : FetchResult) : Eff Client Unit := do
  let s ← Eff.get
  setLoading true
  Eff.tryFinally
    (Eff.tryCatch
      (do
        let query := "/api/patients?page=" ++ toString s.manager.page
          ++ "&per_page=" ++ toString perPage
          ++ "&sort_field=" ++ s.manager.sortField
          ++ "&sort_order=" ++ toString s.manager.sortOrder
        let data ← apiCall query [] (some navigate) result
        setPatients (← data.getProp "patients")
        setTotal (← data.getProp "total"))
      (fun err => setError (strOr err.message "Failed to load patient data.")))
    (setLoading false)

/-- The handler `handleDelete(id)`; `confirmed` is the answer of `window.confirm`. The
reload it starts is not awaited; `loadPatients` handles its own errors, so running it in
sequence leaves the same state. -/
def handleDelete (id : Val) (confirmed : Bool) (deleteResult listResult : FetchResult) :
    Eff Client Unit := do
  if !confirmed then
    pure ()
  else
    Eff.tryCatch
      (do
        let _ ← apiCall ("/api/patients/" ++ id.toStr) [("method", .str "DELETE")]
          (some navigate) deleteResult
        setSuccess "Patient deleted successfully!"
        setError ""
        loadPatients listResult)
      (fun err => do
        setError (strOr err.message "Failed to delete patient.")
        setSuccess "")

/-- The handler `handlePredict(patient)`. -/
def handlePredict (patient : Val) (result : FetchResult) : Eff Client Unit := do
  setPredictionLoading true
  Eff.tryFinally
    (Eff.tryCatch
      (do
        let id ← patient.getProp "_id"
        let data ← apiCall ("/api/predict/patient/" ++ id.toStr) [] (some navigate) result
        setPrediction data
        setShowPrediction true)
      (fun err => setError (strOr err.message "Failed to get stroke prediction.")))
    (setPredictionLoading false)

/-- The handler `loadStatistics`. -/
def loadStatistics (result : FetchResult) : Eff Client Unit :=
  Eff.tryCatch
    (do
      let data ← apiCall "/api/predict/statistics" [] (some navigate) result
      setStatistics data
      setShowStats true)
    (fun err => setError (strOr err.message "Failed to load statistics."))

/-- The handler `handleViewPatient(patient)`. -/
def handleViewPatient (patient : Val) (result : FetchResult) : Eff Client Unit :=
  Eff.tryCatch
    (do
      let id ← patient.getProp "_id"
      let _ ← apiCall ("/api/patients/" ++ id.toStr) [] (some navigate) result
      setViewPatient patient)
    (fun err => setError (strOr err.message "Session expired. Please login again."))

end PatientManager

/-! ## `contexts/AuthContext.js` and `pages/LoginRegister.jsx` -/

namespace AuthContext

/-- The constant `API_BASE`. -/
def API_BASE : String := "http://127.0.0.1:8000/api"

/-- What an axios promise settles to: the response object, whose `data` is the body, or a
rejection with an error whose `response` property is the response received, if any. Which
statuses and bodies axios rejects is its own matter. -/
abbrev AxiosResult := Except Thrown Val

/-- How axios settles a response received with the status `status` and the body text
`body`, `json` being what `JSON.parse` makes of the body: the `data` of the response object
is the parsed body when the body is not empty and parses, and the body text otherwise (the
default `transformResponse`); a status from 200 to 299 resolves with the response object
and any other status rejects with an error that carries it (the default
`validateStatus`). -/
def settle (status : Nat) (body : String) (json : Except String Val) : AxiosResult :=
  if 200 ≤ status ∧ status < 300 then
    .ok (.obj [("data", if body = "" then .str "" else
        match json with
        | .ok data => data
        | .error _ => .str body),
      ("status", .num status)])
  else
    .error
      { name := "AxiosError"
        message := "Request failed with status code " ++ toString status
        response := .obj [("data", if body = "" then .str "" else
            match json with
            | .ok data => data
            | .error _ => .str body),
          ("status", .num status)] }

/-- The call `api.get(path)` on the instance created with `baseURL` and
`withCredentials: true`, awaited. -/
def api.get (path : String) (result : AxiosResult) : Eff Client Val := fun s =>
  let s1 := { s with requests := s.requests ++
    [{ url := API_BASE ++ path, init := [("method", .str "get"), ("withCredentials", .bool true)] }] }
  (result, s1)

/-- The call `api.post(path, data)`, awaited. -/
def api.post (path : String) (data : Val) (result : AxiosResult) : Eff Client Val := fun s =>
  let s1 := { s with requests := s.requests ++
    [{ url := API_BASE ++ path
       init := [("method", .str "post"), ("data", data), ("withCredentials", .bool true)] }] }
  (result, s1)

/-- The setter `setUser` of `AuthProvider`. -/
def setUser (v : Val) : Eff Client Unit :=
  Eff.modify fun s => { s with auth.user := v }

/-- The setter `setLoading` of `AuthProvider`. -/
def setLoading (b : Bool) : Eff Client Unit :=
  Eff.modify fun s => { s with auth.loading := b }

/-- The helper `checkAuth`, also run once when `AuthProvider` mounts. -/
def checkAuth (result : AxiosResult) : Eff Client Unit :=
  Eff.tryFinally
    (Eff.tryCatch
      (do
        let res ← api.get "/auth/current_user" result
        let data ← res.getProp "data"
        setUser (← data.getProp "user"))
      (fun _ => setUser .null))
    (setLoading false)

/-- The object with the fields `username` and `password` that `register` and `login`
post. -/
def credentials (username password : String) : Val :=
  .obj [("username", .str username), ("password", .str password)]

/-- The function `register(username, password)`. -/
def register (username password : String) (registerResult currentUserResult : AxiosResult) :
    Eff Client Val :=
  Eff.tryCatch
    (do
      let _ ← api.post "/auth/register" (credentials username password) registerResult
      checkAuth currentUserResult
      pure (.obj [("success", .bool true)]))
    (fun err => pure (.obj [("success", .bool false),
      ("error", (((err.response.getPropOpt "data").getPropOpt "error").or (.str "Register failed")))]))

/-- The function `login(username, password)`. -/
def login (username password : String) (loginResult currentUserResult : AxiosResult) :
    Eff Client Val :=
  Eff.tryCatch
    (do
      let _ ← api.post "/auth/login" (credentials username password) loginResult
      checkAuth currentUserResult
      pure (.obj [("success", .bool true)]))
    (fun err => pure (.obj [("success", .bool false),
      ("error", (((err.response.getPropOpt "data").getPropOpt "error").or (.str "Login failed")))]))

/-- The function `logout`. -/
def logout (result : AxiosResult) : Eff Client Unit :=
  Eff.tryFinally
    (do
      let _ ← api.post "/auth/logout" .undefined result
      pure ())
    (setUser .null)

end AuthContext

namespace LoginRegister

/-- The setter `setError` of `LoginRegister`. -/
def setError (v : Val) : Eff Client Unit :=
  Eff.modify fun s => { s with loginRegister.error := v }

/-- The setter `setLoading` of `LoginRegister`. -/
def setLoading (b : Bool) : Eff Client Unit :=
  Eff.modify fun s => { s with loginRegister.loading := b }

/-- The handler `handleSubmit` of the login and register form (`e.preventDefault()` has no
effect on the client state). -/
def handleSubmit (authResult currentUserResult : AuthContext.AxiosResult) : Eff Client Unit := do
  let s ← Eff.get
  setError (.str "")
  setLoading true
  let result ←
    if s.loginRegister.isRegister then
      AuthContext.register s.loginRegister.username s.loginRegister.password
        authResult currentUserResult
    else
      AuthContext.login s.loginRegister.username s.loginRegister.password
        authResult currentUserResult
  if (← result.getProp "success").truthy then
    navigate "/dashboard"
  else
    setError (← result.getProp "error")
  setLoading false

end LoginRegister

/-! ## `components/PatientForm.jsx` -/

namespace PatientForm

/-- The constant `API_URL`. -/
def API_URL : String := "http://localhost:8000"

/-- The constant `emptyForm`. -/
def emptyForm : Form := {}

/-- The setter `setForm`. -/
def setForm (form : Form) : Eff Client Unit :=
  Eff.modify fun s => { s with patientForm.form := form }

/-- The setter `setError`. -/
def setError (message : String) : Eff Client Unit :=
  Eff.modify fun s => { s with patientForm.error := message }

/-- The setter `setLoading`. -/
def setLoading (b : Bool) : Eff Client Unit :=
  Eff.modify fun s => { s with patientForm.loading := b }

/-- The form that the effect on `editingPatient` sets: the fields of the patient when there
is one, numbers converted to strings, and `emptyForm` otherwise. The reads are made on a
truthy value, so none of them can throw. -/
def populate (editingPatient : Val) : Form :=
  if editingPatient.truthy then
    { gender := (editingPatient.getPropOpt "gender").coalesce (.str "")
      age :=
        if !(editingPatient.getPropOpt "age").nullish
        then .str (editingPatient.getPropOpt "age").toStr else .str ""
      hypertension :=
        if !(editingPatient.getPropOpt "hypertension").nullish
        then .str (editingPatient.getPropOpt "hypertension").toStr else .str ""
      ever_married := (editingPatient.getPropOpt "ever_married").coalesce (.str "")
      work_type := (editingPatient.getPropOpt "work_type").coalesce (.str "")
      residence_type :=
        ((editingPatient.getPropOpt "Residence_type").coalesce
          (editingPatient.getPropOpt "residence_type")).coalesce (.str "")
      avg_glucose_level :=
        if !(editingPatient.getPropOpt "avg_glucose_level").nullish
        then .str (editingPatient.getPropOpt "avg_glucose_level").toStr else .str ""
      bmi :=
        if !(editingPatient.getPropOpt "bmi").nullish
        then .str (editingPatient.getPropOpt "bmi").toStr else .str ""
      smoking_status := (editingPatient.getPropOpt "smoking_status").coalesce (.str "")
      stroke :=
        if !(editingPatient.getPropOpt "stroke").nullish
        then .str (editingPatient.getPropOpt "stroke").toStr else .str "" }
  else emptyForm

/-- The effect that runs when `editingPatient` changes. -/
def onEditingPatient (editingPatient : Val) : Eff Client Unit :=
  setForm (populate editingPatient)

/-- The `onChange` handler of the control of field `key`: the value of the control replaces
that field. -/
def onChange (key : Field) (value : String) : Eff Client Unit := do
  let s ← Eff.get
  setForm (s.patientForm.form.set key (.str value))

/-- The options of the select control of a field, after the first option whose value is
the empty string; `none` for the fields that have a number input. -/
def options : Field → Option (List String)
  | .gender => some ["Male", "Female", "Other"]
  | .hypertension => some ["0", "1"]
  | .ever_married => some ["Yes", "No"]
  | .work_type => some ["children", "Govt_job", "Never_worked", "Private", "Self-employed"]
  | .residence_type => some ["Rural", "Urban"]
  | .smoking_status => some ["formerly smoked", "never smoked", "smokes", "Unknown"]
  | .stroke => some ["0", "1"]
  | .age => none
  | .avg_glucose_level => none
  | .bmi => none

/-- The bounds `min` and `max` given to the number input of a field. -/
def bounds : Field → Option (Int × Int)
  | .age => some (0, 120)
  | .avg_glucose_level => some (40, 600)
  | .bmi => some (10, 80)
  | _ => none

/-- The array `Object.keys(form)`. -/
def required : List Field :=
  [.gender, .age, .hypertension, .ever_married, .work_type, .residence_type,
   .avg_glucose_level, .bmi, .smoking_status, .stroke]

/-- The test `v === "" || v === null || v === undefined` of the required-field loop. -/
def isMissing : Val → Bool
  | .str s => s == ""
  | .null => true
  | .undefined => true
  | _ => false

/-- The object `payload` of `handleSubmit`. -/
def payload (form : Form) (editingPatient : Val) : Props :=
  [("gender", form.gender),
   ("age", form.age.toNumber),
   ("hypertension", form.hypertension.toNumber),
   ("heart_disease", (editingPatient.getPropOpt "heart_disease").coalesce (.num 0)),
   ("ever_married", form.ever_married),
   ("work_type", form.work_type),
   ("Residence_type", form.residence_type),
   ("avg_glucose_level", form.avg_glucose_level.toNumber),
   ("bmi", form.bmi.toNumber),
   ("smoking_status", form.smoking_status),
   ("stroke", form.stroke.toNumber)]

/-- The handler `handleSubmit`, with the props `editingPatient`, `refresh` (`none` when it is
not a function) and `onClose`. The loop over the required fields returns at the first
missing one; every missing field is handled the same way, so the loop is the test whether
any is missing. -/
def handleSubmit (editingPatient : Val) (refresh : Option (Eff Client Unit))
    (onClose : Eff Client Unit) (result : FetchResult) : Eff Client Unit := do
  let s ← Eff.get
  let form := s.patientForm.form
  setError ""
  setLoading true
  if required.any fun f => isMissing (form.get f) then
    setError "All fields are required"
    setLoading false
  else
    let method := if editingPatient.truthy then "PUT" else "POST"
    let url :=
      if editingPatient.truthy
      then API_URL ++ "/api/patients/" ++ (editingPatient.getPropOpt "_id").toStr
      else API_URL ++ "/api/patients"
    Eff.tryFinally
      (Eff.tryCatch
        (do
          let res ← fetch url
            [("method", .str method), ("credentials", .str "include"),
             ("headers", .obj [("Content-Type", .str "application/json")]),
             ("body", JSON.stringify (.obj (payload form editingPatient)))]
            result
          if !res.ok then
            let err ← Eff.tryCatch res.parse (fun _ => pure .null)
            Eff.throw (Thrown.Error
              ((if err.truthy then err.getPropOpt "error" else err).or (.str "Operation failed")))
          if let some callRefresh := refresh then
            callRefresh
          onClose)
        (fun err => setError (strOr err.message "Operation failed")))
      (setLoading false)

end PatientForm

/-! ## `PatientManager` and its form -/

namespace PatientManager

/-- The setter `setShowForm`. -/
def setShowForm (b : Bool) : Eff Client Unit :=
  Eff.modify fun s => { s with manager.showForm := b }

/-- The setter `setEditingPatient`. -/
def setEditingPatient (v : Val) : Eff Client Unit :=
  Eff.modify fun s => { s with manager.editingPatient := v }

/-- The function `handleSuccess(msg)`; the reload it starts is not awaited. -/
def handleSuccess (msg : String) (listResult : FetchResult) : Eff Client Unit := do
  setSuccess msg
  setError ""
  loadPatients listResult

/-- The buttons that open the form: `Add Patient` with `null`, `Edit` with the patient of
the row. The form mounts with its initial state and its effect populates it. -/
def openForm (patient : Val) : Eff Client Unit := do
  setEditingPatient patient
  setShowForm true
  Eff.modify fun s => { s with patientForm := {} }
  PatientForm.onEditingPatient patient

/-- The prop `onClose` that `PatientManager` gives to the form. -/
def formOnClose : Eff Client Unit :=
  setShowForm false

/-- The prop `refresh` that `PatientManager` gives to the form. -/
def formRefresh (listResult : FetchResult) : Eff Client Unit := do
  let s ← Eff.get
  handleSuccess
    (if s.manager.editingPatient.truthy then "Patient updated successfully!"
     else "Patient added successfully!")
    listResult

/-- The click on the `Create` or `Update` button of the form that `PatientManager` shows:
`handleSubmit` with the props of that element. -/
def submitForm (writeResult listResult : FetchResult) : Eff Client Unit := do
  let s ← Eff.get
  PatientForm.handleSubmit s.manager.editingPatient (some (formRefresh listResult))
    formOnClose writeResult

end PatientManager

namespace PatientManager

/-- The setter `setPage`. -/
def setPage (page : Int) : Eff Client Unit :=
  Eff.modify fun s => { s with manager.page := page }

/-- The helper `apiCall` from the point where its `fetch` promise has settled to `result`. -/
def apiCallSettled (navigate : Option (String → Eff Client Unit)) (result : FetchResult) :
    Eff Client Val := do
  let response ← fetchSettled result
  if response.status = 401 then
    if let some go := navigate then
      go "/session-expired"
    Eff.throw (Thrown.Error (.str "Session expired. Please login again."))
  if !response.ok then
    let error ← Eff.tryCatch response.parse
      (fun _ => pure (.obj [("error", .str "Request failed")]))
    Eff.throw (Thrown.Error ((← error.getProp "error").or (.str "Request failed")))
  response.parse

/-- The function `loadPatients` up to the `await` of its request: `loading` is set and the
request is issued. -/
def loadPatientsStart : Eff Client Unit := do
  let s ← Eff.get
  setLoading true
  fetchStart
    (API_URL ++ ("/api/patients?page=" ++ toString s.manager.page
      ++ "&per_page=" ++ toString perPage
      ++ "&sort_field=" ++ s.manager.sortField
      ++ "&sort_order=" ++ toString s.manager.sortOrder))
    (((Props.spread [] (.obj [])).set "credentials" (.str "include")).set "headers"
      (.obj (Props.spread [("Content-Type", .str "application/json")]
        (Props.get [] "headers"))))

/-- The function `loadPatients` from the point where its request has settled to `result`. -/
def loadPatientsSettled (result : FetchResult) : Eff Client Unit :=
  Eff.tryFinally
    (Eff.tryCatch
      (do
        let data ← apiCallSettled (some navigate) result
        setPatients (← data.getProp "patients")
        setTotal (← data.getProp "total"))
      (fun err => setError (strOr err.message "Failed to load patient data.")))
    (setLoading false)

/-- What the statistics modal shows below the stroke rate. -/
inductive SubgroupView where
  | rows (avgAge avgGlucose withHypertension withHeartDisease : Val)
  | text (content : String)
  | nothing

/-- The expression `statistics.stroke_patient_avg_age && (the four rows)` as React renders
it: the four rows when the average age is truthy; otherwise the falsy average age itself,
which React shows as text when it is a number and not at all when it is `false`, `null`,
`undefined` or the empty string. -/
def subgroupView (statistics : Val) : SubgroupView :=
  if (statistics.getPropOpt "stroke_patient_avg_age").truthy then
    .rows (statistics.getPropOpt "stroke_patient_avg_age")
      (statistics.getPropOpt "stroke_patient_avg_glucose")
      (statistics.getPropOpt "stroke_with_hypertension")
      (statistics.getPropOpt "stroke_with_heart_disease")
  else
    match statistics.getPropOpt "stroke_patient_avg_age" with
    | .num n => .text (Val.num n).toStr
    | .nan => .text "NaN"
    | .dec negative whole fraction => .text (Val.dec negative whole fraction).toStr
    | _ => .nothing

/-- The statistics modal: shown when `showStats && statistics`; the reads are made on a
truthy `statistics`, so none of them can throw. -/
def statisticsModal (s : Client) : Option SubgroupView :=
  if s.manager.showStats && s.manager.statistics.truthy then
    some (subgroupView s.manager.statistics)
  else none

/-- The function `getRiskColor(level)`. -/
def getRiskColor (level : Val) : String :=
  match level with
  | .str text =>
    if text = "HIGH" then "text-red-600 bg-red-100"
    else if text = "MODERATE" then "text-orange-600 bg-orange-100"
    else if text = "LOW" then "text-yellow-600 bg-yellow-100"
    else if text = "VERY LOW" then "text-green-600 bg-green-100"
    else "text-gray-600 bg-gray-100"
  | _ => "text-gray-600 bg-gray-100"

/-- The values that the elements of the prediction modal are built from, in the order in
which the render reads them. -/
structure PredictionParts where
  score : Val
  levelClass : String
  level : Val
  analysis : List (String × Val)
  riskFactors : List Val
  recommendation : Val

/-- The reads that build the elements of the prediction modal, made on a truthy
`prediction`: `prediction.prediction.risk_score`, `getRiskColor` of the level, the level,
`Object.entries(prediction.prediction.analysis)` with each key written with spaces for its
underscores (code 95 to code 32), `prediction.prediction.risk_factors.map(..)` and the
recommendation. -/
def predictionParts (prediction : Val) : Except Thrown PredictionParts := do
  let score ← (prediction.getPropOpt "prediction").read "risk_score"
  let level ← (prediction.getPropOpt "prediction").read "risk_level"
  let analysis ← ((prediction.getPropOpt "prediction").read "analysis").bind Val.entries
  let riskFactors ← ((prediction.getPropOpt "prediction").read "risk_factors").bind
    fun v => v.mapReceiver "prediction.prediction.risk_factors.map"
  let recommendation ← (prediction.getPropOpt "prediction").read "recommendation"
  pure
    { score := score, levelClass := getRiskColor level, level := level
      analysis := analysis.map fun entry =>
        (String.mk (entry.1.toList.map fun c => if c.toNat = 95 then Char.ofNat 32 else c),
          entry.2)
      riskFactors := riskFactors, recommendation := recommendation }

/-- What the prediction modal shows: the text nodes of the score, the class and the text
nodes of the level badge, the rows of the analysis (the label before the colon and the text
nodes after it), the text nodes of each risk factor, and those of the recommendation. -/
structure PredictionView where
  score : List String
  levelClass : String
  level : List String
  analysis : List (String × List String)
  riskFactors : List (List String)
  recommendation : List String

/-- The rows of the analysis: each value as a child, followed by the text ` pts`. -/
def analysisRows : List (String × Val) → Except RenderError (List (String × List String))
  | [] => .ok []
  | (label, value) :: rest =>
    match renderChild value with
    | .error e => .error e
    | .ok nodes =>
      match analysisRows rest with
      | .error e => .error e
      | .ok rows => .ok ((label, nodes ++ [" pts"]) :: rows)

/-- The list items of the risk factors: each factor as a child. -/
def factorItems : List Val → Except RenderError (List (List String))
  | [] => .ok []
  | factor :: rest =>
    match renderChild factor with
    | .error e => .error e
    | .ok nodes =>
      match factorItems rest with
      | .error e => .error e
      | .ok items => .ok (nodes :: items)

/-- The children of the elements of the prediction modal, in the order of the elements:
the score, the level followed by the text ` RISK`, the rows, the risk factors and the
recommendation. -/
def predictionChildren (parts : PredictionParts) : Except RenderError PredictionView := do
  let score ← renderChild parts.score
  let level ← renderChild parts.level
  let analysis ← analysisRows parts.analysis
  let riskFactors ← factorItems parts.riskFactors
  let recommendation ← renderChild parts.recommendation
  pure
    { score := score, levelClass := parts.levelClass, level := level ++ [" RISK"]
      analysis := analysis, riskFactors := riskFactors, recommendation := recommendation }

/-- The prediction modal: shown when `showPrediction && prediction`. Its elements are built
first, which throws when a read fails, and their children are rendered after that, which
fails on a child that is an object. -/
def predictionModal (s : Client) : Option (Except RenderError PredictionView) :=
  if s.manager.showPrediction && s.manager.prediction.truthy then
    some
      (match predictionParts s.manager.prediction with
       | .error e => .error (.thrown e)
       | .ok parts => predictionChildren parts)
  else none

end PatientManager

/-! ## The risk scorer -/

namespace RiskScorer

/-- Modelled from the spec: the risk scorer `assess` and its data are code of the server,
which is not among the sources. The record is the `PatientRecord` of the data model. -/
structure PatientRecord where
  gender : String
  age : ℚ
  hypertension : Bool
  heart_disease : Bool
  ever_married : String
  work_type : String
  residence_type : String
  avg_glucose_level : ℚ
  bmi : ℚ
  smoking_status : String
  stroke : Bool

/-- Modelled from the spec: the four risk levels. -/
inductive RiskLevel where
  | veryLow
  | low
  | moderate
  | high
  deriving DecidableEq, Repr

/-- Modelled from the spec: the point table that the spec leaves to the implementation, the
step functions of age, glucose and body-mass index, the fixed points of hypertension and
heart disease, the points of the smoking status and the optional minor adjustment, and the
three integer thresholds of the levels. -/
structure PointTable where
  age : ℚ → Int
  hypertension : Int
  heart_disease : Int
  glucose : ℚ → Int
  bmi : ℚ → Int
  smoking : String → Int
  adjustment : PatientRecord → Int
  lowThreshold : Int
  moderateThreshold : Int
  highThreshold : Int

/-- Modelled from the spec: the part of a `RiskAssessment` that is computed from numbers,
the clamped score, the level and the points per category. -/
structure RiskAssessment where
  risk_score : Int
  risk_level : RiskLevel
  analysis : List (String × Int)

/-- Modelled from the spec: the points per category, one entry per category, also when it
contributes nothing. -/
def contributions (table : PointTable) (record : PatientRecord) : List (String × Int) :=
  [("age", table.age record.age),
   ("hypertension", if record.hypertension then table.hypertension else 0),
   ("heart_disease", if record.heart_disease then table.heart_disease else 0),
   ("glucose", table.glucose record.avg_glucose_level),
   ("bmi", table.bmi record.bmi),
   ("smoking", table.smoking record.smoking_status),
   ("other", table.adjustment record)]

/-- Modelled from the spec: the clamp of a sum to the range 0 to 100. -/
def clamp (total : Int) : Int :=
  if total < 0 then 0 else if 100 < total then 100 else total

/-- Modelled from the spec: the level of a clamped score, by the fixed thresholds: at least
the high threshold is high, else at least the moderate threshold is moderate, else at least
the low threshold is low, else very low. -/
def levelOf (table : PointTable) (score : Int) : RiskLevel :=
  if table.highThreshold ≤ score then .high
  else if table.moderateThreshold ≤ score then .moderate
  else if table.lowThreshold ≤ score then .low
  else .veryLow

/-- Modelled from the spec: the function `assess`: sum all contributions, clamp to the
range 0 to 100, map the clamped score to its level. -/
def assess (table : PointTable) (record : PatientRecord) : RiskAssessment :=
  let score := clamp ((contributions table record).map Prod.snd).sum
  { risk_score := score, risk_level := levelOf table score,
    analysis := contributions table record }

end RiskScorer

/-! ## Sorting and paging of the patient list -/

namespace PatientManager

/-- The setter `setSortField`. -/
def setSortField (field : String) : Eff Client Unit :=
  Eff.modify fun s => { s with manager.sortField := field }

/-- The setter `setSortOrder`. -/
def setSortOrder (order : Int) : Eff Client Unit :=
  Eff.modify fun s => { s with manager.sortOrder := order }

/-- The function `toggleSort(field)`, with the sort state of the render it belongs to. -/
def toggleSort (field : String) : Eff Client Unit := do
  let s ← Eff.get
  if s.manager.sortField = field then
    setSortOrder (if s.manager.sortOrder = 1 then -1 else 1)
  else
    setSortField field
    setSortOrder 1

/-- The expression `Math.ceil(total / perPage)`: `total` is converted to a number; the
quotient of an integer is rounded up, the quotient of a number with a fractional part, which
is never an integer, lies strictly between two integers, and a non-finite number stays as
it is. -/
def totalPages (total : Val) : Val :=
  match total.toNumber with
  | .num n => .num (-((-n) / perPage))
  | .dec false whole _ => .num ((whole : Int) / perPage + 1)
  | .dec true whole _ => .num (-((whole : Int) / perPage))
  | .inf negative => .inf negative
  | _ => .nan

/-- The attribute `disabled` of the `Previous` button: `page === 1`. -/
def previousDisabled (s : Client) : Bool :=
  s.manager.page == 1

/-- The attribute `disabled` of the `Next` button:
`page === Math.ceil(total / perPage) || total === 0`. The strict equality of the page with a
number holds when that number is the same integer, and `total === 0` when `total` is the
number 0. -/
def nextDisabled (s : Client) : Bool :=
  (match totalPages s.manager.total with
   | .num last => s.manager.page == last
   | _ => false) ||
  (match s.manager.total with
   | .num n => n == 0
   | _ => false)

/-- A click on `Previous`: a disabled button does nothing, an enabled one runs
`setPage(page - 1)`. -/
def clickPrevious : Eff Client Unit := do
  let s ← Eff.get
  if previousDisabled s then pure () else setPage (s.manager.page - 1)

/-- A click on `Next`: a disabled button does nothing, an enabled one runs
`setPage(page + 1)`. -/
def clickNext : Eff Client Unit := do
  let s ← Eff.get
  if nextDisabled s then pure () else setPage (s.manager.page + 1)

end PatientManager

/-! ## Running handler bodies -/

section run
variable {σ α β : Type}

@[simp]
theorem Eff.pure_def (a : α) : (Pure.pure a : Eff σ α) = Eff.pure a := rfl

@[simp]
theorem Eff.bind_def (x : Eff σ α) (f : α → Eff σ β) : (x >>= f) = Eff.bind x f := rfl

@[simp]
theorem Eff.run_pure (a : α) (s : σ) : Eff.pure a s = (.ok a, s) := rfl

@[simp]
theorem Eff.run_throw (e : Thrown) (s : σ) : (Eff.throw e : Eff σ α) s = (.error e, s) := rfl

@[simp]
theorem Eff.run_modify (f : σ → σ) (s : σ) : Eff.modify f s = (.ok (), f s) := rfl

@[simp]
theorem Eff.run_get (s : σ) : (Eff.get : Eff σ σ) s = (.ok s, s) := rfl

@[simp]
theorem Eff.run_bind (x : Eff σ α) (f : α → Eff σ β) (s : σ) :
    Eff.bind x f s =
      match x s with
      | (.ok a, s1) => f a s1
      | (.error e, s1) => (.error e, s1) := rfl

@[simp]
theorem Eff.run_tryCatch (body : Eff σ α) (handler : Thrown → Eff σ α) (s : σ) :
    Eff.tryCatch body handler s =
      match body s with
      | (.ok a, s1) => (.ok a, s1)
      | (.error e, s1) => handler e s1 := rfl

@[simp]
theorem Eff.run_tryFinally (body : Eff σ α) (cleanup : Eff σ Unit) (s : σ) :
    Eff.tryFinally body cleanup s =
      match cleanup (body s).2 with
      | (.ok _, s2) => ((body s).1, s2)
      | (.error e, s2) => (.error e, s2) := rfl

end run

theorem Props.lookup_append (a b : List (String × Val)) (key : String) :
    Props.lookup (a ++ b) key =
      match Props.lookup b key with
      | some w => some w
      | none => Props.lookup a key := by
  induction a with
  | nil => cases h : Props.lookup b key <;> simp [Props.lookup, h]
  | cons p rest ih =>
    obtain ⟨k, v⟩ := p
    rw [List.cons_append, Props.lookup, ih]
    cases h : Props.lookup b key <;> simp [Props.lookup]


/-- A property read leaves the state alone; it throws on `null` and `undefined` and gives
the value of the optional read otherwise. -/
theorem Val.getProp_run {σ : Type} (v : Val) (key : String) (s : σ) :
    v.getProp key s =
      (if v.nullish then .error (Thrown.nullRead v key) else .ok (v.getPropOpt key), s) := by
  cases v <;> simp [Val.getProp, Val.nullish, Val.getPropOpt]

/-! ## The wrappers as state transformers -/

/-- The wrapper of `App.jsx` changes the client state by recording its request and nothing
else, and its outcome does not depend on the state. -/
theorem App.apiCall_run (endpoint : String) (options : Props) (result : FetchResult) :
    ∃ (out : Except Thrown Val) (r : Request), r.url = "http://localhost:8000" ++ endpoint ∧
      ∀ s : Client, App.apiCall endpoint options result s
        = (out, { s with requests := s.requests ++ [r] }) := by
  refine ⟨(App.apiCall endpoint options result {}).1,
    { url := "http://localhost:8000" ++ endpoint,
      init := ((Props.spread [] (.obj options)).set "credentials" (.str "include")).set
        "headers" (.obj (Props.spread [("Content-Type", .str "application/json")]
          (Props.get options "headers"))) },
    rfl, fun s => ?_⟩
  simp only [App.apiCall]
  cases result with
  | error m => simp [fetch, App.API_URL]
  | ok resp =>
    cases hj : resp.json with
    | error m =>
      cases hok : resp.ok <;> simp [fetch, hok, hj, Response.parse, Val.getProp, App.API_URL]
    | ok v =>
      cases hok : resp.ok <;> cases v <;>
        simp [fetch, hok, hj, Response.parse, Val.getProp, App.API_URL]

/-- The wrapper of `PatientManager.jsx`, called with `navigate`, records its request and, on
a 401 response only, one navigation to `/session-expired`; its outcome does not depend on
the state. -/
theorem PatientManager.apiCall_run_navigate (endpoint : String) (options : Props)
    (result : FetchResult) :
    ∃ (out : Except Thrown Val) (r : Request), r.url = "http://localhost:8000" ++ endpoint ∧
      ∀ s : Client, PatientManager.apiCall endpoint options (some navigate) result s
        = (out, { s with
            requests := s.requests ++ [r]
            navigations := s.navigations ++
              (match result with
               | .ok resp => if resp.status = 401 then ["/session-expired"] else []
               | .error _ => []) }) := by
  refine ⟨(PatientManager.apiCall endpoint options (some navigate) result {}).1,
    { url := "http://localhost:8000" ++ endpoint,
      init := ((Props.spread [] (.obj options)).set "credentials" (.str "include")).set
        "headers" (.obj (Props.spread [("Content-Type", .str "application/json")]
          (Props.get options "headers"))) },
    rfl, fun s => ?_⟩
  simp only [PatientManager.apiCall]
  cases result with
  | error m => simp [fetch, PatientManager.API_URL]
  | ok resp =>
    by_cases h401 : resp.status = 401
    · simp [fetch, h401, navigate, PatientManager.API_URL]
    · cases hj : resp.json with
      | error m =>
        cases hok : resp.ok <;>
          simp [fetch, h401, hok, hj, Response.parse, Val.getProp, PatientManager.API_URL]
      | ok v =>
        cases hok : resp.ok <;> cases v <;>
          simp [fetch, h401, hok, hj, Response.parse, Val.getProp, PatientManager.API_URL]

/-! ## The request wrappers -/

/-- C1: on a 401 response the `apiCall` of `PatientManager.jsx` raises the session-expired
error, whatever the endpoint, the options and the body are; with a `navigate` function it
records exactly one navigation, to `/session-expired`, and without one it records none. -/
theorem PatientManager.apiCall_unauthorized (endpoint : String) (options : Props)
    (resp : Response) (s : Client) (h401 : resp.status = 401) :
    (PatientManager.apiCall endpoint options (some navigate) (.ok resp) s).1
        = .error { name := "Error", message := "Session expired. Please login again." } ∧
    (PatientManager.apiCall endpoint options (some navigate) (.ok resp) s).2.navigations
        = s.navigations ++ ["/session-expired"] ∧
    (PatientManager.apiCall endpoint options none (.ok resp) s).1
        = .error { name := "Error", message := "Session expired. Please login again." } ∧
    (PatientManager.apiCall endpoint options none (.ok resp) s).2.navigations
        = s.navigations := by
  simp [PatientManager.apiCall, fetch, navigate, h401, Thrown.Error, Val.toStr]

/-- C1 at a 401 response that carries an error body. -/
theorem PatientManager.apiCall_unauthorized_witness :
    (401 : Nat) = 401 ∧
    (PatientManager.apiCall "/api/patients" [] (some navigate)
        (.ok { status := 401, json := .ok (.obj [("error", .str "Unauthorized")]) }) {}).1
      = .error { name := "Error", message := "Session expired. Please login again." } :=
  ⟨rfl, (PatientManager.apiCall_unauthorized "/api/patients" []
    { status := 401, json := .ok (.obj [("error", .str "Unauthorized")]) } {} rfl).1⟩

/-- C2: a 500 response whose body is the JSON text `null`: both wrappers read `error.error`
on the parsed `null` and raise the `TypeError` of that read, not an error with the message
`Request failed`. -/
theorem apiCall_null_body :
    (App.apiCall "/api/patients" [] (.ok { status := 500, json := .ok .null }) {}).1
      = .error { name := "TypeError"
                 message := "Cannot read properties of null (reading \x27error\x27)" } ∧
    (PatientManager.apiCall "/api/patients" [] (some navigate)
        (.ok { status := 500, json := .ok .null }) {}).1
      = .error { name := "TypeError"
                 message := "Cannot read properties of null (reading \x27error\x27)" } :=
  ⟨rfl, rfl⟩

/-- The request-failed path on an object body or an unparseable one: the message is the
`error` field of the body when that is truthy and `Request failed` otherwise. -/
theorem App.apiCall_requestFailed (endpoint : String) (options : Props) (resp : Response)
    (s : Client) (hfail : resp.ok = false) :
    (∀ props, resp.json = .ok (.obj props) →
      (App.apiCall endpoint options (.ok resp) s).1
        = .error (Thrown.Error ((Props.get props "error").or (.str "Request failed")))) ∧
    (∀ m, resp.json = .error m →
      (App.apiCall endpoint options (.ok resp) s).1
        = .error (Thrown.Error (.str "Request failed"))) := by
  constructor
  · intro props hj
    simp [App.apiCall, fetch, hfail, hj, Response.parse, Val.getProp]
  · intro m hj
    simp [App.apiCall, fetch, hfail, hj, Response.parse, Val.getProp, Props.get, Props.lookup,
      Val.or, Val.truthy]

/-- The same path in `PatientManager.jsx`, for a status other than 401. -/
theorem PatientManager.apiCall_failed_status (endpoint : String) (options : Props)
    (navigate : Option (String → Eff Client Unit)) (resp : Response) (s : Client)
    (hne : resp.status ≠ 401) (hfail : resp.ok = false) :
    (∀ props, resp.json = .ok (.obj props) →
      (PatientManager.apiCall endpoint options navigate (.ok resp) s).1
        = .error (Thrown.Error ((Props.get props "error").or (.str "Request failed")))) ∧
    (∀ m, resp.json = .error m →
      (PatientManager.apiCall endpoint options navigate (.ok resp) s).1
        = .error (Thrown.Error (.str "Request failed"))) := by
  constructor
  · intro props hj
    simp [PatientManager.apiCall, fetch, hne, hfail, hj, Response.parse, Val.getProp]
  · intro m hj
    simp [PatientManager.apiCall, fetch, hne, hfail, hj, Response.parse, Val.getProp, Props.get,
      Props.lookup, Val.or, Val.truthy]

/-- The request-failed path on a 500 response whose body is an object with the `error`
field `X`: the message raised is `X`. -/
theorem apiCall_error_field :
    (App.apiCall "/api/patients" [] (.ok { status := 500, json := .ok (.obj [("error", .str "X")]) })
        {}).1 = .error { name := "Error", message := "X" } ∧
    (PatientManager.apiCall "/api/patients" [] (some navigate)
        (.ok { status := 500, json := .ok (.obj [("error", .str "X")]) }) {}).1
      = .error { name := "Error", message := "X" } :=
  ⟨rfl, rfl⟩

/-- C4: whatever the endpoint and the options are, `apiCall` in `App.jsx` and `apiCall` in
`PatientManager.jsx` issue one request, to `API_URL + endpoint`, whose `credentials` option
is `include` (also when the options set it otherwise), whose other options apart from
`headers` are those of the caller, and whose `headers` are the headers of the caller on top of
the default `Content-Type: application/json`. -/
theorem apiCall_request_init (endpoint : String) (options : Props) (result : FetchResult)
    (s : Client) :
    ∃ r : Request,
      (App.apiCall endpoint options result s).2.requests = s.requests ++ [r] ∧
      (PatientManager.apiCall endpoint options (some navigate) result s).2.requests
        = s.requests ++ [r] ∧
      (PatientManager.apiCall endpoint options none result s).2.requests = s.requests ++ [r] ∧
      r.url = "http://localhost:8000" ++ endpoint ∧
      Props.get r.init "credentials" = .str "include" ∧
      (∀ key, key ≠ "credentials" → key ≠ "headers" →
        Props.lookup r.init key = Props.lookup options key) ∧
      ∃ headers : Props, Props.get r.init "headers" = .obj headers ∧
        ∀ key, Props.lookup headers key =
          match Props.lookup (Props.get options "headers").ownProps key with
          | some v => some v
          | none => if key = "Content-Type" then some (.str "application/json") else none := by
  refine ⟨{ url := "http://localhost:8000" ++ endpoint,
            init := ((Props.spread [] (.obj options)).set "credentials" (.str "include")).set
              "headers" (.obj (Props.spread [("Content-Type", .str "application/json")]
                (Props.get options "headers"))) }, ?_, ?_, ?_, rfl, ?_, ?_,
          Props.spread [("Content-Type", .str "application/json")] (Props.get options "headers"),
          ?_, ?_⟩
  · simp only [App.apiCall]
    cases result with
    | error m => simp [fetch, App.API_URL]
    | ok resp =>
      cases hj : resp.json with
      | error m =>
        cases hok : resp.ok <;> simp [fetch, hok, hj, Response.parse, Val.getProp, App.API_URL]
      | ok v =>
        cases hok : resp.ok <;> cases v <;>
          simp [fetch, hok, hj, Response.parse, Val.getProp, App.API_URL]
  · simp only [PatientManager.apiCall]
    cases result with
    | error m => simp [fetch, PatientManager.API_URL]
    | ok resp =>
      by_cases h401 : resp.status = 401
      · simp [fetch, h401, navigate, PatientManager.API_URL]
      · cases hj : resp.json with
        | error m =>
          cases hok : resp.ok <;>
            simp [fetch, h401, hok, hj, Response.parse, Val.getProp, PatientManager.API_URL]
        | ok v =>
          cases hok : resp.ok <;> cases v <;>
            simp [fetch, h401, hok, hj, Response.parse, Val.getProp, PatientManager.API_URL]
  · simp only [PatientManager.apiCall]
    cases result with
    | error m => simp [fetch, PatientManager.API_URL]
    | ok resp =>
      by_cases h401 : resp.status = 401
      · simp [fetch, h401, PatientManager.API_URL]
      · cases hj : resp.json with
        | error m =>
          cases hok : resp.ok <;>
            simp [fetch, h401, hok, hj, Response.parse, Val.getProp, PatientManager.API_URL]
        | ok v =>
          cases hok : resp.ok <;> cases v <;>
            simp [fetch, h401, hok, hj, Response.parse, Val.getProp, PatientManager.API_URL]
  · simp [Props.get, Props.set, Props.lookup_append, Props.lookup]
  · intro key hc hh
    simp [Props.set, Props.spread, Val.ownProps, Props.lookup_append, Props.lookup, hc, hh,
      Ne.symm hc, Ne.symm hh]
  · simp [Props.get, Props.set, Props.lookup_append, Props.lookup]
  · intro key
    simp only [Props.spread, Props.lookup_append]
    cases Props.lookup (Props.get options "headers").ownProps key <;> simp [Props.lookup, eq_comm]

/-- A success status is not 401. -/
theorem Response.status_ne_401_of_ok (resp : Response) (hok : resp.ok = true) :
    resp.status ≠ 401 := by
  simp only [Response.ok, Bool.and_eq_true, decide_eq_true_eq] at hok
  omega

/-- C5, as the code has it: on a 2xx response both wrappers make no navigation and settle as
`response.json()` does; they return the parsed body when the body parses, and raise the
`SyntaxError` of the parse when it does not. -/
theorem apiCall_success (endpoint : String) (options : Props)
    (go : Option (String → Eff Client Unit)) (resp : Response) (s : Client)
    (hok : resp.ok = true) :
    (App.apiCall endpoint options (.ok resp) s).1
      = (match resp.json with
         | .ok body => .ok body
         | .error m => .error { name := "SyntaxError", message := m }) ∧
    (App.apiCall endpoint options (.ok resp) s).2.navigations = s.navigations ∧
    (PatientManager.apiCall endpoint options go (.ok resp) s).1
      = (match resp.json with
         | .ok body => .ok body
         | .error m => .error { name := "SyntaxError", message := m }) ∧
    (PatientManager.apiCall endpoint options go (.ok resp) s).2.navigations = s.navigations := by
  have h401 := Response.status_ne_401_of_ok resp hok
  cases hj : resp.json <;>
    simp [App.apiCall, PatientManager.apiCall, fetch, hok, h401, hj, Response.parse]

/-- C5 at a 200 response with an object body. -/
theorem apiCall_success_witness :
    Response.ok { status := 200, json := .ok (.obj [("total", .num 0)]) } = true ∧
    (PatientManager.apiCall "/api/patients" [] (some navigate)
        (.ok { status := 200, json := .ok (.obj [("total", .num 0)]) }) {}).1
      = .ok (.obj [("total", .num 0)]) :=
  ⟨rfl, (apiCall_success "/api/patients" [] (some navigate)
    { status := 200, json := .ok (.obj [("total", .num 0)]) } {} rfl).2.2.1⟩

/-- C5, as stated, fails on a 204 response without a body: both wrappers raise the
`SyntaxError` of `response.json()`. -/
theorem apiCall_empty_body_raises :
    (App.apiCall "/api/patients/7" [("method", .str "DELETE")]
        (.ok { status := 204, json := .error "Unexpected end of JSON input" }) {}).1
      = .error { name := "SyntaxError", message := "Unexpected end of JSON input" } ∧
    (PatientManager.apiCall "/api/patients/7" [("method", .str "DELETE")] (some navigate)
        (.ok { status := 204, json := .error "Unexpected end of JSON input" }) {}).1
      = .error { name := "SyntaxError", message := "Unexpected end of JSON input" } :=
  ⟨rfl, rfl⟩

/-! ## Session expiry -/

/-- C3, as stated, fails for the wrapper of `App.jsx`: a 401 answer to the login request
makes no navigation and ends as an inline error of `AuthPage`. -/
theorem handleLogin_unauthorized_inline :
    (App.AuthPage.handleLogin
        (.ok { status := 401, json := .ok (.obj [("error", .str "Invalid credentials")]) })
        (.error "not issued") {}).2.navigations = [] ∧
    (App.AuthPage.handleLogin
        (.ok { status := 401, json := .ok (.obj [("error", .str "Invalid credentials")]) })
        (.error "not issued") {}).2.authPage.error = "Invalid credentials" :=
  ⟨rfl, rfl⟩

/-- The wrapper of `App.jsx` and its three call sites never navigate. -/
theorem App.navigations_unchanged (result other : FetchResult) (s : Client) :
    (∀ endpoint options, (App.apiCall endpoint options result s).2.navigations = s.navigations) ∧
    (App.AuthPage.handleLogin result other s).2.navigations = s.navigations ∧
    (App.AuthPage.handleRegister result other s).2.navigations = s.navigations ∧
    (App.onMount result s).2.navigations = s.navigations := by
  obtain ⟨out1, r1, -, h1⟩ := App.apiCall_run "/api/auth/current_user" [] result
  obtain ⟨out2, r2, -, h2⟩ := App.apiCall_run "/api/auth/current_user" [] other
  refine ⟨fun endpoint options => ?_, ?_, ?_, ?_⟩
  · obtain ⟨out, r, -, h⟩ := App.apiCall_run endpoint options result
    simp [h]
  · obtain ⟨out, r, -, h⟩ := App.apiCall_run "/api/auth/login" [("method", .str "POST"),
      ("body", App.AuthPage.credentials s.authPage.username s.authPage.password)] result
    simp only [App.AuthPage.handleLogin]
    simp only [Eff.pure_def, Eff.bind_def, Eff.run_bind, Eff.run_get, Eff.run_tryCatch,
      App.AuthPage.setError, App.setUser, App.AuthPage.setSuccess, Eff.run_modify, h, h2,
      Val.getProp_run]
    rcases out with e | a <;> rcases out2 with e2 | data <;> simp
    cases hn : data.nullish <;> simp [hn]
  · obtain ⟨out, r, -, h⟩ := App.apiCall_run "/api/auth/register" [("method", .str "POST"),
      ("body", App.AuthPage.credentials s.authPage.username s.authPage.password)] result
    simp only [App.AuthPage.handleRegister]
    cases hp : App.AuthPage.usernamePattern s.authPage.username
    · simp [hp, App.AuthPage.setError]
    · simp only [Eff.pure_def, Eff.bind_def, Eff.run_bind, Eff.run_get, Eff.run_tryCatch,
        App.AuthPage.setError, App.setUser, App.AuthPage.setSuccess, Eff.run_modify, h, h2,
        Val.getProp_run, hp, Bool.not_true, Bool.false_eq_true, if_false]
      rcases out with e | a <;> rcases out2 with e2 | data <;> simp
      cases hn : data.nullish <;> simp [hn]
  · simp only [App.onMount, Eff.pure_def, Eff.bind_def, Eff.run_bind, Eff.run_tryFinally,
      Eff.run_tryCatch, App.setUser, App.setLoading, Eff.run_modify, h1, Val.getProp_run]
    rcases out1 with e | data <;> simp
    cases hn : data.nullish <;> simp [hn]

/-- The wrapper of `PatientManager.jsx` on a 401 response, as a state transformer. -/
theorem PatientManager.apiCall_run_unauthorized (endpoint : String) (options : Props)
    (resp : Response) (h401 : resp.status = 401) :
    ∃ r : Request, r.url = "http://localhost:8000" ++ endpoint ∧
      ∀ s : Client, PatientManager.apiCall endpoint options (some navigate) (.ok resp) s
        = (.error { name := "Error", message := "Session expired. Please login again." },
           { s with
              requests := s.requests ++ [r]
              navigations := s.navigations ++ ["/session-expired"] }) := by
  refine ⟨
    { url := "http://localhost:8000" ++ endpoint,
      init := ((Props.spread [] (.obj options)).set "credentials" (.str "include")).set
        "headers" (.obj (Props.spread [("Content-Type", .str "application/json")]
          (Props.get options "headers"))) }, rfl, fun s => ?_⟩
  simp [PatientManager.apiCall, fetch, navigate, h401, Thrown.Error, Val.toStr,
    PatientManager.API_URL]

/-- The wrapper of `App.jsx` on a response without a success status: it raises an error. -/
theorem App.apiCall_run_failed (endpoint : String) (options : Props)
    (resp : Response) (hfail : resp.ok = false) :
    ∃ (e : Thrown) (r : Request), r.url = "http://localhost:8000" ++ endpoint ∧
      ∀ s : Client, App.apiCall endpoint options (.ok resp) s
        = (.error e, { s with requests := s.requests ++ [r] }) := by
  obtain ⟨out, r, hr, h⟩ := App.apiCall_run endpoint options (.ok resp)
  rcases out with e | v
  · exact ⟨e, r, hr, h⟩
  · exfalso
    have h0 := h {}
    simp only [App.apiCall] at h0
    cases hj : resp.json with
    | error m => simp [fetch, hfail, hj, Response.parse, Val.getProp] at h0
    | ok v => cases v <;> simp [fetch, hfail, hj, Response.parse, Val.getProp] at h0

/-- C3, as the code has it: a 401 answer to a request made through the wrapper of
`PatientManager.jsx` (list, delete, predict, statistics, view) navigates to
`/session-expired`; a 401 answer to a request made through the wrapper of `App.jsx` (login,
register, the `current_user` probe) makes no navigation: the login handler shows the
message of the error raised, and the probe leaves the user `null`. -/
theorem unauthorized_call_sites (resp : Response) (other : FetchResult) (id patient : Val)
    (s : Client) (h401 : resp.status = 401) (hpatient : patient.nullish = false) :
    (PatientManager.loadPatients (.ok resp) s).2.navigations
      = s.navigations ++ ["/session-expired"] ∧
    (PatientManager.handleDelete id true (.ok resp) other s).2.navigations
      = s.navigations ++ ["/session-expired"] ∧
    (PatientManager.handlePredict patient (.ok resp) s).2.navigations
      = s.navigations ++ ["/session-expired"] ∧
    (PatientManager.loadStatistics (.ok resp) s).2.navigations
      = s.navigations ++ ["/session-expired"] ∧
    (PatientManager.handleViewPatient patient (.ok resp) s).2.navigations
      = s.navigations ++ ["/session-expired"] ∧
    (App.AuthPage.handleLogin (.ok resp) other s).2.navigations = s.navigations ∧
    (∃ e, (App.apiCall "/api/auth/login" [("method", .str "POST"),
          ("body", App.AuthPage.credentials s.authPage.username s.authPage.password)]
          (.ok resp) s).1 = .error e ∧
      (App.AuthPage.handleLogin (.ok resp) other s).2.authPage.error = e.message) ∧
    (App.AuthPage.handleRegister (.ok resp) other s).2.navigations = s.navigations ∧
    (App.onMount (.ok resp) s).2.navigations = s.navigations ∧
    (App.onMount (.ok resp) s).2.app.user = .null := by
  have hfail : resp.ok = false := by simp [Response.ok, h401]
  refine ⟨?_, ?_, ?_, ?_, ?_, (App.navigations_unchanged (.ok resp) other s).2.1, ?_,
    (App.navigations_unchanged (.ok resp) other s).2.2.1,
    (App.navigations_unchanged (.ok resp) other s).2.2.2, ?_⟩
  · obtain ⟨r, -, h⟩ := PatientManager.apiCall_run_unauthorized
      ("/api/patients?page=" ++ toString s.manager.page
          ++ "&per_page=" ++ toString PatientManager.perPage
          ++ "&sort_field=" ++ s.manager.sortField
          ++ "&sort_order=" ++ toString s.manager.sortOrder) [] resp h401
    simp [PatientManager.loadPatients, h, PatientManager.setLoading, PatientManager.setError]
  · obtain ⟨r, -, h⟩ := PatientManager.apiCall_run_unauthorized
      ("/api/patients/" ++ id.toStr) [("method", .str "DELETE")] resp h401
    simp [PatientManager.handleDelete, h, PatientManager.setSuccess, PatientManager.setError]
  · obtain ⟨r, -, h⟩ := PatientManager.apiCall_run_unauthorized
      ("/api/predict/patient/" ++ (patient.getPropOpt "_id").toStr) [] resp h401
    simp [PatientManager.handlePredict, h, Val.getProp_run, hpatient,
      PatientManager.setPredictionLoading, PatientManager.setError]
  · obtain ⟨r, -, h⟩ := PatientManager.apiCall_run_unauthorized
      "/api/predict/statistics" [] resp h401
    simp [PatientManager.loadStatistics, h, PatientManager.setError]
  · obtain ⟨r, -, h⟩ := PatientManager.apiCall_run_unauthorized
      ("/api/patients/" ++ (patient.getPropOpt "_id").toStr) [] resp h401
    simp [PatientManager.handleViewPatient, h, Val.getProp_run, hpatient,
      PatientManager.setError]
  · obtain ⟨e, r, -, h⟩ := App.apiCall_run_failed "/api/auth/login" [("method", .str "POST"),
      ("body", App.AuthPage.credentials s.authPage.username s.authPage.password)] resp hfail
    refine ⟨e, by simp [h], ?_⟩
    simp [App.AuthPage.handleLogin, h, App.AuthPage.setError]
  · obtain ⟨e, r, -, h⟩ := App.apiCall_run_failed "/api/auth/current_user" [] resp hfail
    simp [App.onMount, h, App.setUser, App.setLoading]

/-- C3 at a 401 response, for a prediction request and for the startup probe. -/
theorem unauthorized_call_sites_witness :
    (401 : Nat) = 401 ∧ Val.nullish (.obj [("_id", .str "p1")]) = false ∧
    (PatientManager.handlePredict (.obj [("_id", .str "p1")])
        (.ok { status := 401, json := .ok (.obj [("error", .str "Unauthorized")]) }) {}).2.navigations
      = ["/session-expired"] ∧
    (App.onMount
        (.ok { status := 401, json := .ok (.obj [("error", .str "Unauthorized")]) }) {}).2.navigations
      = [] :=
  ⟨rfl, rfl,
    (unauthorized_call_sites { status := 401, json := .ok (.obj [("error", .str "Unauthorized")]) }
      (.error "Failed to fetch") (.str "p1") (.obj [("_id", .str "p1")]) {} rfl rfl).2.2.1,
    (unauthorized_call_sites { status := 401, json := .ok (.obj [("error", .str "Unauthorized")]) }
      (.error "Failed to fetch") (.str "p1") (.obj [("_id", .str "p1")]) {} rfl rfl).2.2.2.2.2.2.2.2.1⟩

/-- C6: when the patients-list request of `loadPatients` is answered with 401, the call
returns after one navigation to `/session-expired`; `patients` and `total` keep the values
they had, `loading` is `false` at the end, and once the routes are shown the location
`/session-expired` renders the session-expired page whatever `user` is. -/
theorem loadPatients_unauthorized (resp : Response) (s : Client) (h401 : resp.status = 401) :
    (PatientManager.loadPatients (.ok resp) s).1 = .ok () ∧
    (PatientManager.loadPatients (.ok resp) s).2.navigations
      = s.navigations ++ ["/session-expired"] ∧
    (PatientManager.loadPatients (.ok resp) s).2.manager.patients = s.manager.patients ∧
    (PatientManager.loadPatients (.ok resp) s).2.manager.total = s.manager.total ∧
    (PatientManager.loadPatients (.ok resp) s).2.manager.loading = false ∧
    ∀ user : Val,
      App.render { (PatientManager.loadPatients (.ok resp) s).2 with
        app := { user := user, loading := false } } "/session-expired" = .sessionExpired := by
  obtain ⟨r, -, h⟩ := PatientManager.apiCall_run_unauthorized
    ("/api/patients?page=" ++ toString s.manager.page
        ++ "&per_page=" ++ toString PatientManager.perPage
        ++ "&sort_field=" ++ s.manager.sortField
        ++ "&sort_order=" ++ toString s.manager.sortOrder) [] resp h401
  refine ⟨?_, ?_, ?_, ?_, ?_, fun user => ?_⟩
  · simp [PatientManager.loadPatients, h, PatientManager.setLoading, PatientManager.setError]
  · simp [PatientManager.loadPatients, h, PatientManager.setLoading, PatientManager.setError]
  · simp [PatientManager.loadPatients, h, PatientManager.setLoading, PatientManager.setError]
  · simp [PatientManager.loadPatients, h, PatientManager.setLoading, PatientManager.setError]
  · simp [PatientManager.loadPatients, h, PatientManager.setLoading, PatientManager.setError]
  · have h1 : App.matchPath "/" "/session-expired" = false := by decide
    have h2 : App.matchPath "/dashboard" "/session-expired" = false := by decide
    have h3 : App.matchPath "/session-expired" "/session-expired" = true := by decide
    simp [App.render, h1, h2, h3]

/-- C6 at a 401 response, with one patient on the screen before the call. -/
theorem loadPatients_unauthorized_witness :
    (401 : Nat) = 401 ∧
    (PatientManager.loadPatients (.ok { status := 401, json := .error "Unexpected token" })
        { manager := { patients := .arr [.obj [("_id", .str "p1")]], total := .num 1 } }
      ).2.manager.patients = .arr [.obj [("_id", .str "p1")]] :=
  ⟨rfl, (loadPatients_unauthorized { status := 401, json := .error "Unexpected token" }
    { manager := { patients := .arr [.obj [("_id", .str "p1")]], total := .num 1 } } rfl).2.2.1⟩

/-! ## Login, logout and the startup probe -/

/-- C7, as stated, fails for the probe of `AuthProvider` at an unparseable body: the
`current_user` request is answered with status 200 and a body that is not JSON; axios
resolves the call with the body text as data, and `checkAuth` sets `user` to
`res.data.user`, which is `undefined` and not `null`. -/
theorem checkAuth_unparseable_body :
    (AuthContext.checkAuth
        (AuthContext.settle 200 "<!doctype html>" (.error "Unexpected token <")) {}).2.auth
      = { user := .undefined, loading := false } ∧
    AuthContext.settle 200 "<!doctype html>" (.error "Unexpected token <")
      = .ok (.obj [("data", .str "<!doctype html>"), ("status", .num 200)]) ∧
    (App.onMount (.ok { status := 200, json := .error "Unexpected token <" }) {}).2.app
      = { user := .null, loading := false } :=
  ⟨rfl, rfl, rfl⟩

/-- C7, as the code has it: the client starts with `user = null` and `loading = true`, in
`App` and in `AuthProvider`, and the startup probe always settles and ends with
`loading = false`. The probe of `App` leaves `user` the `user` property of the answer when
the request succeeded and `null` in every other case (an error status such as 401, an
unparseable body, a failed transport, an answer that is `null`). The probe of
`AuthProvider` leaves `user` the property `res.data.user` when the axios call resolves and
`null` when it is rejected: an error status is rejected and gives `null`, while a success
status whose body does not parse resolves with the body text as data and gives
`undefined`. -/
theorem startup_probe (result : FetchResult) (axiosResult : AuthContext.AxiosResult)
    (s : Client) :
    ({} : Client).app.user = .null ∧ ({} : Client).app.loading = true ∧
    (App.onMount result s).1 = .ok () ∧
    (App.onMount result s).2.app.loading = false ∧
    (App.onMount result s).2.app.user
      = (match result with
         | .ok resp =>
           if resp.ok then
             (match resp.json with
              | .ok data => if data.nullish then .null else data.getPropOpt "user"
              | .error _ => .null)
           else .null
         | .error _ => .null) ∧
    ({} : Client).auth.user = .null ∧ ({} : Client).auth.loading = true ∧
    (AuthContext.checkAuth axiosResult s).1 = .ok () ∧
    (AuthContext.checkAuth axiosResult s).2.auth.loading = false ∧
    (AuthContext.checkAuth axiosResult s).2.auth.user
      = (match axiosResult with
         | .ok res =>
           if res.nullish then .null
           else if (res.getPropOpt "data").nullish then .null
           else (res.getPropOpt "data").getPropOpt "user"
         | .error _ => .null) ∧
    (∀ (status : Nat) (body : String) (json : Except String Val),
      ¬ (200 ≤ status ∧ status < 300) →
      (AuthContext.checkAuth (AuthContext.settle status body json) s).2.auth.user = .null) ∧
    (∀ (status : Nat) (body message : String), 200 ≤ status ∧ status < 300 →
      (AuthContext.checkAuth (AuthContext.settle status body (.error message)) s).2.auth.user
        = .undefined) ∧
    (∀ (status : Nat) (body : String) (data : Val), 200 ≤ status ∧ status < 300 →
      body ≠ "" → data.nullish = false →
      (AuthContext.checkAuth (AuthContext.settle status body (.ok data)) s).2.auth.user
        = data.getPropOpt "user") := by
  refine ⟨rfl, rfl, ?_, ?_, ?_, rfl, rfl, ?_, ?_, ?_, ?_, ?_, ?_⟩
  · obtain ⟨out, r, -, h⟩ := App.apiCall_run "/api/auth/current_user" [] result
    simp only [App.onMount, Eff.pure_def, Eff.bind_def, Eff.run_bind, Eff.run_tryFinally,
      Eff.run_tryCatch, App.setUser, App.setLoading, Eff.run_modify, h, Val.getProp_run]
    rcases out with e | data <;> simp
    cases hn : data.nullish <;> simp [hn]
  · obtain ⟨out, r, -, h⟩ := App.apiCall_run "/api/auth/current_user" [] result
    simp [App.onMount, h, App.setLoading]
  · rcases result with m | resp
    · simp [App.onMount, App.apiCall, fetch, App.setUser, App.setLoading]
    · cases hok : resp.ok
      · obtain ⟨e, r, -, h⟩ := App.apiCall_run_failed "/api/auth/current_user" [] resp hok
        simp [App.onMount, h, hok, App.setUser, App.setLoading]
      · cases hj : resp.json with
        | error m =>
          simp [App.onMount, App.apiCall, fetch, hok, hj, Response.parse, App.setUser,
            App.setLoading]
        | ok data =>
          cases hn : data.nullish <;>
            simp [App.onMount, App.apiCall, fetch, hok, hj, hn, Response.parse, App.setUser,
              App.setLoading, Val.getProp_run]
  · rcases axiosResult with e | res
    · simp [AuthContext.checkAuth, AuthContext.api.get, AuthContext.setUser,
        AuthContext.setLoading]
    · cases hn : res.nullish <;> cases hd : (res.getPropOpt "data").nullish <;>
        simp [AuthContext.checkAuth, AuthContext.api.get, AuthContext.setUser,
          AuthContext.setLoading, Val.getProp_run, hn, hd]
  · simp [AuthContext.checkAuth, AuthContext.setLoading]
  · rcases axiosResult with e | res
    · simp [AuthContext.checkAuth, AuthContext.api.get, AuthContext.setUser,
        AuthContext.setLoading]
    · cases hn : res.nullish <;> cases hd : (res.getPropOpt "data").nullish <;>
        simp [AuthContext.checkAuth, AuthContext.api.get, AuthContext.setUser,
          AuthContext.setLoading, Val.getProp_run, hn, hd]
  · intro status body json hstatus
    simp [AuthContext.settle, hstatus, AuthContext.checkAuth, AuthContext.api.get,
      AuthContext.setUser, AuthContext.setLoading]
  · intro status body message hstatus
    by_cases hbody : body = "" <;>
      simp [AuthContext.settle, hstatus, hbody, AuthContext.checkAuth, AuthContext.api.get,
        AuthContext.setUser, AuthContext.setLoading, Val.getProp_run, Val.nullish,
        Val.getPropOpt, Props.get, Props.lookup]
  · intro status body data hstatus hbody hdata
    have hres : (Val.obj [("data", data), ("status", .num status)]).nullish = false := rfl
    have hget : (Val.obj [("data", data), ("status", .num status)]).getPropOpt "data"
        = data := by
      simp [Val.getPropOpt, Props.get, Props.lookup]
    simp [AuthContext.settle, hstatus, hbody, hdata, AuthContext.checkAuth,
      AuthContext.api.get, AuthContext.setUser, AuthContext.setLoading, Val.getProp_run,
      hres, hget]

/-- C8: when the login request is answered without a success status, `handleLogin` issues
that one request and no other, leaves `user` and `success` as they were and sets `error`
to the message of the error the wrapper raised. When the axios login call is rejected,
`login` of `AuthContext` leaves `user` as it was, issues no other request and returns
`success: false` with `error` the `error` field of the response data when that is truthy
and `Login failed` otherwise. -/
theorem login_rejected (resp : Response) (other : FetchResult) (username password : String)
    (err : Thrown) (axiosOther : AuthContext.AxiosResult) (s : Client)
    (hfail : resp.ok = false) :
    (App.AuthPage.handleLogin (.ok resp) other s).2.app.user = s.app.user ∧
    (∃ r : Request, r.url = "http://localhost:8000/api/auth/login" ∧
      (App.AuthPage.handleLogin (.ok resp) other s).2.requests = s.requests ++ [r]) ∧
    (App.AuthPage.handleLogin (.ok resp) other s).2.authPage.success = s.authPage.success ∧
    (∃ e, (App.apiCall "/api/auth/login" [("method", .str "POST"),
          ("body", App.AuthPage.credentials s.authPage.username s.authPage.password)]
          (.ok resp) s).1 = .error e ∧
      (App.AuthPage.handleLogin (.ok resp) other s).2.authPage.error = e.message) ∧
    (AuthContext.login username password (.error err) axiosOther s).1
      = .ok (.obj [("success", .bool false),
          ("error",
            if ((err.response.getPropOpt "data").getPropOpt "error").truthy
            then (err.response.getPropOpt "data").getPropOpt "error"
            else .str "Login failed")]) ∧
    (AuthContext.login username password (.error err) axiosOther s).2.auth.user = s.auth.user ∧
    (∃ r : Request, r.url = "http://127.0.0.1:8000/api/auth/login" ∧
      (AuthContext.login username password (.error err) axiosOther s).2.requests
        = s.requests ++ [r]) := by
  obtain ⟨e, r, hr, h⟩ := App.apiCall_run_failed "/api/auth/login" [("method", .str "POST"),
    ("body", App.AuthPage.credentials s.authPage.username s.authPage.password)] resp hfail
  refine ⟨?_, ⟨r, hr, ?_⟩, ?_, ⟨e, by simp [h], ?_⟩, ?_, ?_,
    ⟨{ url := "http://127.0.0.1:8000/api/auth/login",
       init := [("method", .str "post"),
         ("data", AuthContext.credentials username password),
         ("withCredentials", .bool true)] }, rfl, ?_⟩⟩
  · simp [App.AuthPage.handleLogin, h, App.AuthPage.setError]
  · simp [App.AuthPage.handleLogin, h, App.AuthPage.setError]
  · simp [App.AuthPage.handleLogin, h, App.AuthPage.setError]
  · simp [App.AuthPage.handleLogin, h, App.AuthPage.setError]
  · simp [AuthContext.login, AuthContext.api.post, Val.or]
  · simp [AuthContext.login, AuthContext.api.post]
  · simp [AuthContext.login, AuthContext.api.post]
    rfl

/-- C8 at a 401 answer to the login request. -/
theorem login_rejected_witness :
    Response.ok { status := 401, json := .ok (.obj [("error", .str "Invalid credentials")]) }
      = false ∧
    (App.AuthPage.handleLogin
        (.ok { status := 401, json := .ok (.obj [("error", .str "Invalid credentials")]) })
        (.error "not issued") {}).2.app.user = .null :=
  ⟨rfl, (login_rejected
    { status := 401, json := .ok (.obj [("error", .str "Invalid credentials")]) }
    (.error "not issued") "alice" "secret" { name := "AxiosError", message := "Network Error" }
    (.error { name := "AxiosError", message := "Network Error" }) {} rfl).1⟩

/-- C9: the login call is accepted and the `current_user` call that follows is rejected:
`login` of `AuthContext` still returns `success: true` while `user` is `null`, and
`handleSubmit` of `LoginRegister` navigates to `/dashboard`. -/
theorem login_success_without_user :
    (AuthContext.login "alice" "secret"
        (.ok (.obj [("data", .obj [("message", .str "Logged in")])]))
        (.error { name := "AxiosError", message := "Request failed with status code 401",
                  response := .obj [("status", .num 401)] }) {}).1
      = .ok (.obj [("success", .bool true)]) ∧
    (AuthContext.login "alice" "secret"
        (.ok (.obj [("data", .obj [("message", .str "Logged in")])]))
        (.error { name := "AxiosError", message := "Request failed with status code 401",
                  response := .obj [("status", .num 401)] }) {}).2.auth.user = .null ∧
    (LoginRegister.handleSubmit
        (.ok (.obj [("data", .obj [("message", .str "Logged in")])]))
        (.error { name := "AxiosError", message := "Request failed with status code 401",
                  response := .obj [("status", .num 401)] }) {}).2.navigations = ["/dashboard"] ∧
    (LoginRegister.handleSubmit
        (.ok (.obj [("data", .obj [("message", .str "Logged in")])]))
        (.error { name := "AxiosError", message := "Request failed with status code 401",
                  response := .obj [("status", .num 401)] }) {}).2.auth.user = .null :=
  ⟨rfl, rfl, rfl, rfl⟩

/-- When the logout request gets a response, of any status, `handleLogout` ends with
`user = null` after one navigation to `/`. -/
theorem App.DashboardWrapper.handleLogout_response (resp : Response) (s : Client) :
    (App.DashboardWrapper.handleLogout (.ok resp) s).1 = .ok () ∧
    (App.DashboardWrapper.handleLogout (.ok resp) s).2.app.user = .null ∧
    (App.DashboardWrapper.handleLogout (.ok resp) s).2.navigations = s.navigations ++ ["/"] := by
  simp [App.DashboardWrapper.handleLogout, fetch, App.setUser, navigate]

/-- In `AuthContext`, `logout` ends with `user = null` on every outcome of its request. -/
theorem AuthContext.logout_user (result : AuthContext.AxiosResult) (s : Client) :
    (AuthContext.logout result s).2.auth.user = .null := by
  rcases result with e | res <;>
    simp [AuthContext.logout, AuthContext.api.post, AuthContext.setUser]

/-- C10: the transport of the logout request fails: `handleLogout` of `DashboardWrapper`
stops at the rejection of `fetch`, with the user still set and no navigation made. -/
theorem handleLogout_transport_failure :
    (App.DashboardWrapper.handleLogout (.error "Failed to fetch")
        { app := { user := .obj [("username", .str "alice")], loading := false } }).1
      = .error { name := "TypeError", message := "Failed to fetch" } ∧
    (App.DashboardWrapper.handleLogout (.error "Failed to fetch")
        { app := { user := .obj [("username", .str "alice")], loading := false } }).2.app.user
      = .obj [("username", .str "alice")] ∧
    (App.DashboardWrapper.handleLogout (.error "Failed to fetch")
        { app := { user := .obj [("username", .str "alice")], loading := false } }).2.navigations
      = [] :=
  ⟨rfl, rfl, rfl⟩

/-! ## Registration -/

/-- The character class of the username pattern is the class of the ASCII letters and
digits. -/
theorem usernamePattern_iff (username : String) :
    App.AuthPage.usernamePattern username = true ↔
      username ≠ "" ∧ ∀ c ∈ username.toList, c.isAlphanum = true := by
  have hne : username ≠ "" ↔ username.toList ≠ [] := by
    constructor
    · intro h h2
      apply h
      cases username
      simp_all [String.toList]
    · intro h h2
      subst h2
      simp at h
  rw [hne]
  simp only [App.AuthPage.usernamePattern, Bool.and_eq_true, Bool.not_eq_true',
    List.isEmpty_eq_false, List.all_eq_true]
  constructor
  · rintro ⟨h1, h2⟩
    refine ⟨h1, fun c hc => ?_⟩
    have := h2 c hc
    simp only [Bool.or_eq_true, Bool.and_eq_true, decide_eq_true_eq] at this
    simp only [Char.isAlphanum, Char.isAlpha, Char.isUpper, Char.isLower, Char.isDigit,
      Bool.or_eq_true, Bool.and_eq_true, decide_eq_true_eq, UInt32.le_def, Fin.le_def]
    simp only [Char.toNat, UInt32.toNat] at this
    rcases this with (h | h) | h
    · exact Or.inl (Or.inl h)
    · exact Or.inl (Or.inr h)
    · exact Or.inr h
  · rintro ⟨h1, h2⟩
    refine ⟨h1, fun c hc => ?_⟩
    have := h2 c hc
    simp only [Char.isAlphanum, Char.isAlpha, Char.isUpper, Char.isLower, Char.isDigit,
      Bool.or_eq_true, Bool.and_eq_true, decide_eq_true_eq, UInt32.le_def, Fin.le_def] at this
    simp only [Bool.or_eq_true, Bool.and_eq_true, decide_eq_true_eq, Char.toNat, UInt32.toNat]
    rcases this with (h | h) | h
    · exact Or.inl (Or.inl h)
    · exact Or.inl (Or.inr h)
    · exact Or.inr h

/-- The username pattern on sample names: the empty name and names with a space, a hyphen, a
final line feed or a letter outside ASCII fail; a name of ASCII letters and digits passes. -/
theorem usernamePattern_samples :
    App.AuthPage.usernamePattern "" = false ∧
    App.AuthPage.usernamePattern "bob smith" = false ∧
    App.AuthPage.usernamePattern "bob-smith" = false ∧
    App.AuthPage.usernamePattern "bob\n" = false ∧
    App.AuthPage.usernamePattern "zoé" = false ∧
    App.AuthPage.usernamePattern "Bob42" = true := by
  decide

/-- C11: `handleRegister` sends the register request exactly when the username is not empty
and all its characters are ASCII letters or digits; for every other username it issues no
request, leaves the user as it was and sets the error to
`Username can only contain letters and numbers`. -/
theorem handleRegister_username (registerResult currentUserResult : FetchResult)
    (s : Client) :
    ((s.authPage.username ≠ "" ∧ ∀ c ∈ s.authPage.username.toList, c.isAlphanum = true) →
      ∃ (r : Request) (rest : List Request),
        r.url = "http://localhost:8000/api/auth/register" ∧
        (App.AuthPage.handleRegister registerResult currentUserResult s).2.requests
          = s.requests ++ r :: rest) ∧
    (¬ (s.authPage.username ≠ "" ∧ ∀ c ∈ s.authPage.username.toList, c.isAlphanum = true) →
      (App.AuthPage.handleRegister registerResult currentUserResult s).2.requests = s.requests ∧
      (App.AuthPage.handleRegister registerResult currentUserResult s).2.app.user = s.app.user ∧
      (App.AuthPage.handleRegister registerResult currentUserResult s).2.authPage.error
        = "Username can only contain letters and numbers") := by
  rw [← usernamePattern_iff]
  constructor
  · intro hp
    obtain ⟨out, r, hr, h⟩ := App.apiCall_run "/api/auth/register" [("method", .str "POST"),
      ("body", App.AuthPage.credentials s.authPage.username s.authPage.password)] registerResult
    obtain ⟨out2, r2, -, h2⟩ := App.apiCall_run "/api/auth/current_user" [] currentUserResult
    simp only [App.AuthPage.handleRegister, Eff.pure_def, Eff.bind_def, Eff.run_bind,
      Eff.run_get, Eff.run_tryCatch, App.AuthPage.setError, App.setUser,
      App.AuthPage.setSuccess, Eff.run_modify, h, h2, Val.getProp_run, hp, Bool.not_true,
      Bool.false_eq_true, if_false]
    rcases out with e | a
    · exact ⟨r, [], hr, by simp⟩
    · rcases out2 with e2 | data
      · exact ⟨r, [r2], hr, by simp⟩
      · refine ⟨r, [r2], hr, ?_⟩
        cases hn : data.nullish <;> simp [hn]
  · intro hp
    have hp2 : App.AuthPage.usernamePattern s.authPage.username = false := by
      simpa using hp
    simp [App.AuthPage.handleRegister, hp2, App.AuthPage.setError]

/-- C11 at the valid username `Bob42` and at the username `bob smith`, which has a space. -/
theorem handleRegister_username_witness :
    (∃ (r : Request) (rest : List Request),
        r.url = "http://localhost:8000/api/auth/register" ∧
        (App.AuthPage.handleRegister (.error "Failed to fetch") (.error "Failed to fetch")
            { authPage := { username := "Bob42" } }).2.requests = [] ++ r :: rest) ∧
    (App.AuthPage.handleRegister (.error "Failed to fetch") (.error "Failed to fetch")
        { authPage := { username := "bob smith" } }).2.authPage.error
      = "Username can only contain letters and numbers" :=
  ⟨(handleRegister_username (.error "Failed to fetch") (.error "Failed to fetch")
      { authPage := { username := "Bob42" } }).1 (by decide),
   ((handleRegister_username (.error "Failed to fetch") (.error "Failed to fetch")
      { authPage := { username := "bob smith" } }).2 (by decide)).2.2⟩

/-! ## The patient form -/

/-- The required-field test of `handleSubmit` holds of the empty string, `null` and
`undefined` and of nothing else. -/
theorem PatientForm.isMissing_iff (v : Val) :
    PatientForm.isMissing v = true ↔ v = .str "" ∨ v = .null ∨ v = .undefined := by
  cases v <;> simp [PatientForm.isMissing]

/-- Every field is among the keys of the form. -/
theorem PatientForm.mem_required (f : Field) : f ∈ PatientForm.required := by
  cases f <;> simp [PatientForm.required]

/-- The loop over the required fields finds a missing field exactly when some field of the
form is the empty string, `null` or `undefined`. -/
theorem PatientForm.any_missing_iff (form : Form) :
    (PatientForm.required.any fun f => PatientForm.isMissing (form.get f)) = true ↔
      ∃ f : Field, form.get f = .str "" ∨ form.get f = .null ∨ form.get f = .undefined := by
  simp only [List.any_eq_true, PatientForm.isMissing_iff]
  constructor
  · rintro ⟨f, -, h⟩
    exact ⟨f, h⟩
  · rintro ⟨f, h⟩
    exact ⟨f, PatientForm.mem_required f, h⟩

/-- With a missing field `handleSubmit` stops after the required-field test: it sets the
error and resets `loading`, and nothing else happens. -/
theorem PatientForm.handleSubmit_missing (editingPatient : Val)
    (refresh : Option (Eff Client Unit)) (onClose : Eff Client Unit) (result : FetchResult)
    (s : Client)
    (h : (PatientForm.required.any fun f => PatientForm.isMissing (s.patientForm.form.get f))
      = true) :
    PatientForm.handleSubmit editingPatient refresh onClose result s
      = (.ok (), { s with
          patientForm := { s.patientForm with error := "All fields are required", loading := false } }) := by
  simp only [PatientForm.handleSubmit, Eff.pure_def, Eff.bind_def, Eff.run_bind, Eff.run_get,
    PatientForm.setError, PatientForm.setLoading, Eff.run_modify]
  simp only [h, if_true, Eff.run_bind, Eff.run_modify]

/-- With no field missing, the first request that the form of `PatientManager` issues on
submit is the write request. -/
theorem PatientManager.submitForm_requests (writeResult listResult : FetchResult) (s : Client)
    (h : (PatientForm.required.any fun f => PatientForm.isMissing (s.patientForm.form.get f))
      = false) :
    ∃ rest : List Request,
      (PatientManager.submitForm writeResult listResult s).2.requests
        = s.requests ++
          { url :=
              if s.manager.editingPatient.truthy
              then "http://localhost:8000/api/patients/"
                ++ (s.manager.editingPatient.getPropOpt "_id").toStr
              else "http://localhost:8000/api/patients",
            init :=
              [("method", .str (if s.manager.editingPatient.truthy then "PUT" else "POST")),
               ("credentials", .str "include"),
               ("headers", .obj [("Content-Type", .str "application/json")]),
               ("body", JSON.stringify
                 (.obj (PatientForm.payload s.patientForm.form s.manager.editingPatient)))] }
          :: rest := by
  obtain ⟨out, r, -, hl⟩ := PatientManager.apiCall_run_navigate
    ("/api/patients?page=" ++ toString s.manager.page
        ++ "&per_page=" ++ toString PatientManager.perPage
        ++ "&sort_field=" ++ s.manager.sortField
        ++ "&sort_order=" ++ toString s.manager.sortOrder) [] listResult
  simp only [PatientManager.submitForm, PatientForm.handleSubmit, Eff.pure_def, Eff.bind_def,
    Eff.run_bind, Eff.run_get, PatientForm.setError, PatientForm.setLoading, Eff.run_modify]
  simp only [h, Bool.false_eq_true, if_false]
  rcases writeResult with m | resp
  · exact ⟨[], by simp [fetch, PatientForm.API_URL, PatientForm.setError, PatientForm.setLoading]⟩
  · cases hok : resp.ok
    · refine ⟨[], ?_⟩
      cases hj : resp.json <;>
        simp [fetch, PatientForm.API_URL, PatientForm.setError, PatientForm.setLoading, hok, hj,
          Response.parse]
    · refine ⟨[r], ?_⟩
      simp only [PatientManager.formRefresh, PatientManager.handleSuccess,
        PatientManager.loadPatients, PatientManager.formOnClose, PatientManager.setShowForm,
        PatientManager.setSuccess, PatientManager.setError, PatientManager.setLoading,
        PatientManager.setPatients, PatientManager.setTotal,
        fetch, PatientForm.API_URL, PatientForm.setError, PatientForm.setLoading, hok,
        Eff.pure_def, Eff.bind_def, Eff.run_bind, Eff.run_get, Eff.run_modify,
        Eff.run_tryCatch, Eff.run_tryFinally, Eff.run_pure, hl, Val.getProp_run,
        Bool.not_true, Bool.false_eq_true, if_false]
      rcases out with e | data
      · simp
      · cases hn : data.nullish <;> simp [hn]

/-- The value of a decimal literal is a number. -/
theorem decimalValue_isNumber (negative : Bool) (digits : List Char) (point : Int) :
    (decimalValue negative digits point).isNumber = true := by
  simp only [decimalValue]
  split
  · rfl
  · split <;> rfl

/-- The conversion of a string gives a number. -/
theorem stringToNumber_isNumber (s : String) : (stringToNumber s).isNumber = true := by
  have hu : ∀ negative cs, (unsignedDecimal negative cs).isNumber = true := by
    intro negative cs
    simp only [unsignedDecimal]
    split
    · rfl
    · split
      · exact decimalValue_isNumber _ _ _
      · rfl
  simp only [stringToNumber]
  split
  · rfl
  · split
    · exact hu _ _
    · split
      · exact hu _ _
      · split
        · split
          · split <;> rfl
          · split
            · split <;> rfl
            · split
              · split <;> rfl
              · exact hu _ _
        · exact hu _ _

/-- The call `Number(v)` gives a number, whatever `v` is. -/
theorem Val.toNumber_isNumber (v : Val) : v.toNumber.isNumber = true := by
  cases v with
  | bool b => cases b <;> rfl
  | str s => exact stringToNumber_isNumber s
  | arr items => simp only [Val.toNumber, stringToNumber_isNumber]
  | obj props => simp only [Val.toNumber, stringToNumber_isNumber]
  | _ => rfl

/-- Every value other than `undefined` has a JSON text. -/
theorem Val.stringify_isSome (v : Val) (h : v ≠ .undefined) : v.stringify.isSome = true := by
  cases v with
  | undefined => exact absurd rfl h
  | bool b => cases b <;> simp [Val.stringify]
  | _ => simp [Val.stringify]

/-- A number has a JSON text. -/
theorem Val.stringify_isSome_of_isNumber (v : Val) (h : v.isNumber = true) :
    v.stringify.isSome = true := by
  cases v <;> simp [Val.isNumber] at h <;> simp [Val.stringify]

/-- C12: when some field of the form is the empty string, `null` or `undefined`,
`handleSubmit` ends with the error `All fields are required` and `loading` reset, and does
nothing else: no request is issued and neither `refresh` nor `onClose` runs, whatever they
are. When no field is, the form of `PatientManager` issues a write request. -/
theorem handleSubmit_required (editingPatient : Val) (refresh : Option (Eff Client Unit))
    (onClose : Eff Client Unit) (writeResult listResult : FetchResult) (s : Client) :
    ((∃ f : Field, s.patientForm.form.get f = .str "" ∨ s.patientForm.form.get f = .null ∨
        s.patientForm.form.get f = .undefined) →
      PatientForm.handleSubmit editingPatient refresh onClose writeResult s
        = (.ok (), { s with
            patientForm :=
              { s.patientForm with error := "All fields are required", loading := false } }) ∧
      (PatientManager.submitForm writeResult listResult s).2.requests = s.requests ∧
      (PatientManager.submitForm writeResult listResult s).2.manager.showForm
        = s.manager.showForm ∧
      (PatientManager.submitForm writeResult listResult s).2.manager.success
        = s.manager.success) ∧
    ((¬ ∃ f : Field, s.patientForm.form.get f = .str "" ∨ s.patientForm.form.get f = .null ∨
        s.patientForm.form.get f = .undefined) →
      ∃ (write : Request) (rest : List Request),
        (PatientManager.submitForm writeResult listResult s).2.requests
          = s.requests ++ write :: rest ∧
        (Props.get write.init "method" = .str "POST" ∨
          Props.get write.init "method" = .str "PUT") ∧
        Props.get write.init "credentials" = .str "include") := by
  rw [← PatientForm.any_missing_iff]
  constructor
  · intro h
    refine ⟨PatientForm.handleSubmit_missing _ _ _ _ _ h, ?_, ?_, ?_⟩ <;>
      simp [PatientManager.submitForm, PatientForm.handleSubmit_missing _ _ _ _ _ h]
  · intro h
    have h2 : (PatientForm.required.any fun f => PatientForm.isMissing (s.patientForm.form.get f))
        = false := by simpa using h
    obtain ⟨rest, hrest⟩ := PatientManager.submitForm_requests writeResult listResult s h2
    refine ⟨_, rest, hrest, ?_, ?_⟩
    · cases s.manager.editingPatient.truthy <;> simp [Props.get, Props.lookup]
    · simp [Props.get, Props.lookup]

/-- C12 at a form whose `bmi` is empty and at a completely filled form. -/
theorem handleSubmit_required_witness :
    (PatientManager.submitForm (.error "Failed to fetch") (.error "Failed to fetch")
        { patientForm := { form :=
            { gender := .str "Male", age := .str "40", hypertension := .str "0",
              ever_married := .str "Yes", work_type := .str "Private",
              residence_type := .str "Urban", avg_glucose_level := .str "100",
              smoking_status := .str "smokes", stroke := .str "0" } } }).2.requests = [] ∧
    (∃ (write : Request) (rest : List Request),
        (PatientManager.submitForm (.error "Failed to fetch") (.error "Failed to fetch")
          { patientForm := { form :=
              { gender := .str "Male", age := .str "40", hypertension := .str "0",
                ever_married := .str "Yes", work_type := .str "Private",
                residence_type := .str "Urban", avg_glucose_level := .str "100",
                bmi := .str "25", smoking_status := .str "smokes",
                stroke := .str "0" } } }).2.requests = [] ++ write :: rest ∧
        (Props.get write.init "method" = .str "POST" ∨
          Props.get write.init "method" = .str "PUT") ∧
        Props.get write.init "credentials" = .str "include") :=
  ⟨((handleSubmit_required .null none (Eff.pure ()) (.error "Failed to fetch")
      (.error "Failed to fetch")
      { patientForm := { form :=
          { gender := .str "Male", age := .str "40", hypertension := .str "0",
            ever_married := .str "Yes", work_type := .str "Private",
            residence_type := .str "Urban", avg_glucose_level := .str "100",
            smoking_status := .str "smokes", stroke := .str "0" } } }).1
      ⟨.bmi, Or.inl rfl⟩).2.1,
   (handleSubmit_required .null none (Eff.pure ()) (.error "Failed to fetch")
      (.error "Failed to fetch")
      { patientForm := { form :=
          { gender := .str "Male", age := .str "40", hypertension := .str "0",
            ever_married := .str "Yes", work_type := .str "Private",
            residence_type := .str "Urban", avg_glucose_level := .str "100",
            bmi := .str "25", smoking_status := .str "smokes", stroke := .str "0" } } }).2
      (by
        rintro ⟨f, h⟩
        cases f <;> simp [Form.get] at h)⟩

/-- C13: a new-patient form with age 150, glucose 1000 and body-mass index 5, all outside
the ranges that the inputs announce: `handleSubmit` reports no validation error and posts
the payload with these values. -/
theorem handleSubmit_out_of_range :
    ((PatientManager.submitForm
        (.ok { status := 201, json := .ok (.obj [("message", .str "created")]) })
        (.error "Failed to fetch")
        { patientForm := { form :=
            { gender := .str "Male", age := .str "150", hypertension := .str "0",
              ever_married := .str "Yes", work_type := .str "Private",
              residence_type := .str "Urban", avg_glucose_level := .str "1000",
              bmi := .str "5", smoking_status := .str "smokes",
              stroke := .str "0" } } }).2.requests.map
        fun r => (r.url, Props.get r.init "method", Props.get r.init "body")).head?
      = some ("http://localhost:8000/api/patients", .str "POST",
          .str ("\x7b\x22gender\x22:\x22Male\x22,\x22age\x22:150,\x22hypertension\x22:0,"
            ++ "\x22heart_disease\x22:0,\x22ever_married\x22:\x22Yes\x22,"
            ++ "\x22work_type\x22:\x22Private\x22,\x22Residence_type\x22:\x22Urban\x22,"
            ++ "\x22avg_glucose_level\x22:1000,\x22bmi\x22:5,"
            ++ "\x22smoking_status\x22:\x22smokes\x22,\x22stroke\x22:0\x7d")) ∧
    (PatientManager.submitForm
        (.ok { status := 201, json := .ok (.obj [("message", .str "created")]) })
        (.error "Failed to fetch")
        { patientForm := { form :=
            { gender := .str "Male", age := .str "150", hypertension := .str "0",
              ever_married := .str "Yes", work_type := .str "Private",
              residence_type := .str "Urban", avg_glucose_level := .str "1000",
              bmi := .str "5", smoking_status := .str "smokes",
              stroke := .str "0" } } }).2.patientForm.error = "" ∧
    PatientForm.bounds .age = some (0, 120) ∧
    PatientForm.bounds .avg_glucose_level = some (40, 600) ∧
    PatientForm.bounds .bmi = some (10, 80) :=
  ⟨rfl, rfl, rfl, rfl, rfl⟩

/-- C15: the `heart_disease` of the payload does not depend on the form: it is the
`heart_disease` of the patient being edited when that is neither `null` nor `undefined`,
and 0 otherwise, in particular when no patient is being edited. With no field missing, the
payload is the body of the write request that the form of `PatientManager` issues. -/
theorem payload_heart_disease (form : Form) (editingPatient : Val)
    (writeResult listResult : FetchResult) (s : Client) :
    Props.get (PatientForm.payload form editingPatient) "heart_disease"
      = (if (editingPatient.getPropOpt "heart_disease").nullish then .num 0
         else editingPatient.getPropOpt "heart_disease") ∧
    (editingPatient.nullish = true →
      Props.get (PatientForm.payload form editingPatient) "heart_disease" = .num 0) ∧
    ((¬ ∃ f : Field, s.patientForm.form.get f = .str "" ∨ s.patientForm.form.get f = .null ∨
        s.patientForm.form.get f = .undefined) →
      ∃ (write : Request) (rest : List Request),
        (PatientManager.submitForm writeResult listResult s).2.requests
          = s.requests ++ write :: rest ∧
        Props.get write.init "body" = JSON.stringify
          (.obj (PatientForm.payload s.patientForm.form s.manager.editingPatient))) := by
  refine ⟨?_, ?_, ?_⟩
  · simp [PatientForm.payload, Props.get, Props.lookup, Val.coalesce]
  · intro h
    cases editingPatient <;> simp [Val.nullish] at h <;>
      simp [PatientForm.payload, Props.get, Props.lookup, Val.coalesce, Val.getPropOpt,
        Val.nullish]
  · rw [← PatientForm.any_missing_iff]
    intro h
    have h2 : (PatientForm.required.any fun f => PatientForm.isMissing (s.patientForm.form.get f))
        = false := by simpa using h
    obtain ⟨rest, hrest⟩ := PatientManager.submitForm_requests writeResult listResult s h2
    exact ⟨_, rest, hrest, by simp [Props.get, Props.lookup]⟩

/-- C15 at an edit of a patient with heart disease and at a new patient. -/
theorem payload_heart_disease_witness :
    Props.get (PatientForm.payload { gender := .str "Male" }
        (.obj [("_id", .str "p1"), ("heart_disease", .num 1)])) "heart_disease" = .num 1 ∧
    Props.get (PatientForm.payload { gender := .str "Male" } .null) "heart_disease" = .num 0 :=
  ⟨(payload_heart_disease { gender := .str "Male" }
      (.obj [("_id", .str "p1"), ("heart_disease", .num 1)])
      (.error "Failed to fetch") (.error "Failed to fetch") {}).1,
   (payload_heart_disease { gender := .str "Male" } .null
      (.error "Failed to fetch") (.error "Failed to fetch") {}).2.1 rfl⟩

/-- C16: with no field missing, the form of `PatientManager` sends `PUT` to
`/api/patients/` followed by the `_id` of the patient when one is being edited, and `POST`
to `/api/patients` otherwise; the body is the JSON text of the payload, whose keys are the
eleven record fields, each with a value that has a JSON text, and not `_id`. -/
theorem submitForm_write_request (writeResult listResult : FetchResult) (s : Client)
    (hvalid : ¬ ∃ f : Field, s.patientForm.form.get f = .str "" ∨
      s.patientForm.form.get f = .null ∨ s.patientForm.form.get f = .undefined) :
    ∃ (write : Request) (rest : List Request),
      (PatientManager.submitForm writeResult listResult s).2.requests
        = s.requests ++ write :: rest ∧
      (s.manager.editingPatient.truthy = true →
        Props.get write.init "method" = .str "PUT" ∧
        write.url = "http://localhost:8000/api/patients/"
          ++ (s.manager.editingPatient.getPropOpt "_id").toStr) ∧
      (s.manager.editingPatient.truthy = false →
        Props.get write.init "method" = .str "POST" ∧
        write.url = "http://localhost:8000/api/patients") ∧
      Props.get write.init "body" = JSON.stringify
        (.obj (PatientForm.payload s.patientForm.form s.manager.editingPatient)) ∧
      (PatientForm.payload s.patientForm.form s.manager.editingPatient).map Prod.fst
        = ["gender", "age", "hypertension", "heart_disease", "ever_married", "work_type",
           "Residence_type", "avg_glucose_level", "bmi", "smoking_status", "stroke"] ∧
      ∀ entry ∈ PatientForm.payload s.patientForm.form s.manager.editingPatient,
        entry.2.stringify.isSome = true := by
  rw [← PatientForm.any_missing_iff] at hvalid
  have h2 : (PatientForm.required.any fun f => PatientForm.isMissing (s.patientForm.form.get f))
      = false := by simpa using hvalid
  obtain ⟨rest, hrest⟩ := PatientManager.submitForm_requests writeResult listResult s h2
  refine ⟨_, rest, hrest, ?_, ?_, ?_, ?_, ?_⟩
  · intro ht
    simp [ht, Props.get, Props.lookup]
  · intro ht
    simp [ht, Props.get, Props.lookup]
  · simp [Props.get, Props.lookup]
  · simp [PatientForm.payload]
  · have hform : ∀ f : Field, (s.patientForm.form.get f).stringify.isSome = true := by
      intro f
      have hf : PatientForm.isMissing (s.patientForm.form.get f) = false := by
        have := List.any_eq_false.mp h2 f (PatientForm.mem_required f)
        simpa using this
      apply Val.stringify_isSome
      intro hu
      simp [hu, PatientForm.isMissing] at hf
    have hnum : ∀ v : Val, v.toNumber.stringify.isSome = true := fun v =>
      Val.stringify_isSome_of_isNumber _ (Val.toNumber_isNumber v)
    intro entry hentry
    simp only [PatientForm.payload, List.mem_cons, List.mem_singleton, List.not_mem_nil,
      or_false] at hentry
    rcases hentry with h | h | h | h | h | h | h | h | h | h | h <;> subst h
    · exact hform .gender
    · exact hnum _
    · exact hnum _
    · apply Val.stringify_isSome
      cases hh : s.manager.editingPatient.getPropOpt "heart_disease" <;>
        simp [Val.coalesce, Val.nullish]
    · exact hform .ever_married
    · exact hform .work_type
    · exact hform .residence_type
    · exact hnum _
    · exact hnum _
    · exact hform .smoking_status
    · exact hnum _

/-- C16 at the edit of the patient `p1`. -/
theorem submitForm_write_request_witness :
    ∃ (write : Request) (rest : List Request),
      (PatientManager.submitForm (.error "Failed to fetch") (.error "Failed to fetch")
        { manager := { editingPatient := .obj [("_id", .str "p1")] },
          patientForm := { form :=
            { gender := .str "Male", age := .str "40", hypertension := .str "0",
              ever_married := .str "Yes", work_type := .str "Private",
              residence_type := .str "Urban", avg_glucose_level := .str "100",
              bmi := .str "25", smoking_status := .str "smokes",
              stroke := .str "0" } } }).2.requests = [] ++ write :: rest ∧
      Props.get write.init "method" = .str "PUT" ∧
      write.url = "http://localhost:8000/api/patients/p1" :=
  match submitForm_write_request (.error "Failed to fetch") (.error "Failed to fetch")
      { manager := { editingPatient := .obj [("_id", .str "p1")] },
        patientForm := { form :=
          { gender := .str "Male", age := .str "40", hypertension := .str "0",
            ever_married := .str "Yes", work_type := .str "Private",
            residence_type := .str "Urban", avg_glucose_level := .str "100",
            bmi := .str "25", smoking_status := .str "smokes", stroke := .str "0" } } }
      (by
        rintro ⟨f, h⟩
        cases f <;> simp [Form.get] at h) with
  | ⟨write, rest, h1, h2, _⟩ => ⟨write, rest, h1, (h2 rfl).1, (h2 rfl).2⟩

/-- Reading a field after the spread that sets one. -/
theorem Form.get_set (form : Form) (key f : Field) (value : Val) :
    (form.set key value).get f = if f = key then value else form.get f := by
  cases key <;> cases f <;> simp [Form.set, Form.get]

/-- The `onChange` handler replaces the field of its control and nothing else. -/
theorem PatientForm.onChange_run (key : Field) (value : String) (s : Client) :
    (PatientForm.onChange key value s).2
      = { s with patientForm := { s.patientForm with
            form := s.patientForm.form.set key (.str value) } } := by
  simp [PatientForm.onChange, PatientForm.setForm]

/-! ## Printing and reading numbers -/

/-- A digit character is not white space. -/
theorem isStrWhiteSpace_of_isDigit (c : Char) (h : c.isDigit = true) :
    isStrWhiteSpace c = false := by
  simp only [Char.isDigit, Bool.and_eq_true, decide_eq_true_eq, UInt32.le_def, Fin.le_def] at h
  have h1 : 48 ≤ c.toNat := h.1
  have h2 : c.toNat ≤ 57 := h.2
  simp only [isStrWhiteSpace, Bool.or_eq_false_iff, Bool.and_eq_false_iff, decide_eq_false_iff_not]
  omega

/-- The character of a digit is a digit character with that value. -/
theorem digitChar_spec (k : Nat) (h : k < 10) :
    (Nat.digitChar k).isDigit = true ∧ digitValue (Nat.digitChar k) = k := by
  interval_cases k <;> exact ⟨by decide, by decide⟩

/-- The digits that `Nat.toDigitsCore` puts in front of its accumulator are digit
characters whose value is the number printed. -/
theorem toDigitsCore_spec (fuel : Nat) :
    ∀ (n : Nat) (ds : List Char), n < fuel →
      ∃ pre : List Char, Nat.toDigitsCore 10 fuel n ds = pre ++ ds ∧ pre ≠ [] ∧
        (∀ c ∈ pre, c.isDigit = true) ∧
        ∀ acc : Nat, pre.foldl (fun a c => 10 * a + digitValue c) acc
          = acc * 10 ^ pre.length + n := by
  induction fuel with
  | zero => intro n ds h; omega
  | succ fuel ih =>
    intro n ds h
    have hd := digitChar_spec (n % 10) (Nat.mod_lt _ (by decide))
    simp only [Nat.toDigitsCore]
    by_cases h0 : n / 10 = 0
    · refine ⟨[Nat.digitChar (n % 10)], by simp [h0], by simp, by simpa using hd.1, ?_⟩
      intro acc
      have hn : n % 10 = n := by omega
      simp only [List.foldl_cons, List.foldl_nil, hd.2, List.length_singleton, pow_one]
      omega
    · obtain ⟨pre, hpre, -, hdig, hval⟩ := ih (n / 10) (Nat.digitChar (n % 10) :: ds) (by omega)
      refine ⟨pre ++ [Nat.digitChar (n % 10)], by simp [h0, hpre], by simp, ?_, ?_⟩
      · intro c hc
        rcases List.mem_append.mp hc with hc | hc
        · exact hdig c hc
        · simp only [List.mem_singleton] at hc
          rw [hc]
          exact hd.1
      · intro acc
        simp only [List.foldl_append, List.foldl_cons, List.foldl_nil, hval, hd.2,
          List.length_append, List.length_singleton, pow_succ]
        have := Nat.div_add_mod n 10
        nlinarith [this]

/-- The decimal digits of a natural number: not empty, all digit characters, and their value
is the number. -/
theorem toDigits_spec (n : Nat) :
    Nat.toDigits 10 n ≠ [] ∧ (∀ c ∈ Nat.toDigits 10 n, c.isDigit = true) ∧
      natOfDigits (Nat.toDigits 10 n) = n := by
  obtain ⟨pre, hpre, hne, hdig, hval⟩ := toDigitsCore_spec (n + 1) n [] (by omega)
  simp only [List.append_nil] at hpre
  simp only [Nat.toDigits, hpre]
  exact ⟨hne, hdig, by simpa [natOfDigits] using hval 0⟩

/-- Stripping white space leaves alone a sequence that neither starts nor ends with it. -/
theorem stripWhiteSpace_eq_self (front : List Char) (first last : Char)
    (hfirst : isStrWhiteSpace first = false) (hlast : isStrWhiteSpace last = false) :
    stripWhiteSpace (first :: (front ++ [last])) = first :: (front ++ [last]) ∧
    stripWhiteSpace [last] = [last] := by
  constructor
  · simp only [stripWhiteSpace]
    rw [List.dropWhile_cons_of_neg (by simp [hfirst])]
    have hrev : (first :: (front ++ [last])).reverse = last :: (front.reverse ++ [first]) := by
      simp
    rw [hrev, List.dropWhile_cons_of_neg (by simp [hlast])]
    simp
  · simp only [stripWhiteSpace]
    rw [List.dropWhile_cons_of_neg (by simp [hlast])]
    simp [hlast]

/-- Stripping white space leaves a non-empty sequence of digits alone, also after a minus
sign. -/
theorem stripWhiteSpace_digits (ds : List Char) (hne : ds ≠ [])
    (hdig : ∀ c ∈ ds, c.isDigit = true) :
    stripWhiteSpace ds = ds ∧ stripWhiteSpace (Char.ofNat 45 :: ds) = Char.ofNat 45 :: ds := by
  obtain ⟨front, last, rfl⟩ : ∃ front last, ds = front ++ [last] :=
    ⟨ds.dropLast, ds.getLast hne, (List.dropLast_append_getLast hne).symm⟩
  have hlast : isStrWhiteSpace last = false :=
    isStrWhiteSpace_of_isDigit last (hdig last (by simp))
  constructor
  · cases front with
    | nil => exact (stripWhiteSpace_eq_self [] last last hlast hlast).2
    | cons first rest =>
      exact (stripWhiteSpace_eq_self rest first last
        (isStrWhiteSpace_of_isDigit first (hdig first (by simp))) hlast).1
  · exact (stripWhiteSpace_eq_self front (Char.ofNat 45) last (by decide) hlast).1

/-- A non-empty sequence of digits, read as an unsigned decimal literal, has the value of
its digits with the sign given. -/
theorem unsignedDecimal_digits (negative : Bool) (ds : List Char) (hne : ds ≠ [])
    (hdig : ∀ c ∈ ds, c.isDigit = true) :
    unsignedDecimal negative ds
      = .num ((if negative then -1 else 1) * ((natOfDigits ds : Nat) : Int)) := by
  have hinf : ds ≠ "Infinity".toList := by
    intro h
    have := hdig (Char.ofNat 73) (by rw [h]; decide)
    exact absurd this (by decide)
  have htake : ds.takeWhile Char.isDigit = ds := List.takeWhile_eq_self_iff.mpr hdig
  have hdrop : ds.dropWhile Char.isDigit = [] := List.dropWhile_eq_nil_iff.mpr hdig
  have hempty : ds.isEmpty = false := by cases ds <;> simp_all
  simp only [unsignedDecimal, hinf, if_false, scanDecimal, htake, hdrop, hempty,
    Bool.false_and, Bool.false_eq_true, scanExponent, List.append_nil, decimalValue]
  simp

/-- The number read from a non-empty sequence of digits, plain or after a minus sign. -/
theorem stringToNumber_digits (ds : List Char) (hne : ds ≠ [])
    (hdig : ∀ c ∈ ds, c.isDigit = true) :
    stringToNumber (String.mk ds) = .num (natOfDigits ds : Nat) ∧
    stringToNumber (String.mk (Char.ofNat 45 :: ds)) = .num (-((natOfDigits ds : Nat) : Int)) := by
  have hstrip := stripWhiteSpace_digits ds hne hdig
  have hrange : ∀ c ∈ ds, 48 ≤ c.toNat ∧ c.toNat ≤ 57 := by
    intro c hc
    have h := hdig c hc
    simp only [Char.isDigit, Bool.and_eq_true, decide_eq_true_eq, UInt32.le_def,
      Fin.le_def] at h
    exact h
  constructor
  · simp only [stringToNumber, String.toList, hstrip.1]
    cases ds with
    | nil => exact absurd rfl hne
    | cons c rest =>
      have hc := hrange c (by simp)
      have h45 : ¬ c.toNat = 45 := by omega
      have h43 : ¬ c.toNat = 43 := by omega
      simp only [h45, h43, decide_False, Bool.false_eq_true, if_false]
      cases rest with
      | nil => simpa using unsignedDecimal_digits false [c] (by simp) hdig
      | cons x digits =>
        have hx := hrange x (by simp)
        have h1 : ¬ x.toNat = 120 := by omega
        have h2 : ¬ x.toNat = 88 := by omega
        have h3 : ¬ x.toNat = 111 := by omega
        have h4 : ¬ x.toNat = 79 := by omega
        have h5 : ¬ x.toNat = 98 := by omega
        have h6 : ¬ x.toNat = 66 := by omega
        simp only [h1, h2, h3, h4, h5, h6, decide_False, Bool.or_self, Bool.and_false,
          Bool.false_eq_true, if_false]
        simpa using unsignedDecimal_digits false (c :: x :: digits) (by simp) hdig
  · simp only [stringToNumber, String.toList, hstrip.2]
    have h45 : (Char.ofNat 45).toNat = 45 := by decide
    simp only [h45, decide_True, if_true]
    simpa using unsignedDecimal_digits true ds hne hdig

/-- Printing an integer and reading the text back gives the integer. -/
theorem toNumber_toStr_num (n : Int) : (Val.str (Val.num n).toStr).toNumber = .num n := by
  simp only [Val.toNumber, Val.toStr]
  cases n with
  | ofNat m =>
    obtain ⟨hne, hdig, hval⟩ := toDigits_spec m
    have := (stringToNumber_digits _ hne hdig).1
    simp only [hval] at this
    simpa [toString, Nat.repr, List.asString] using this
  | negSucc m =>
    obtain ⟨hne, hdig, hval⟩ := toDigits_spec (m + 1)
    have := (stringToNumber_digits _ hne hdig).2
    simp only [hval] at this
    have htext : toString (Int.negSucc m) = String.mk (Char.ofNat 45 :: Nat.toDigits 10 (m + 1)) := by
      rfl
    rw [htext, this]
    rfl

/-- The text of an integer is not empty. -/
theorem toStr_num_ne_empty (n : Int) : (Val.num n).toStr ≠ "" := by
  simp only [Val.toStr]
  cases n with
  | ofNat m =>
    obtain ⟨hne, -, -⟩ := toDigits_spec m
    intro h
    apply hne
    have : (toString (Int.ofNat m)).data = Nat.toDigits 10 m := rfl
    rw [← this, h]
  | negSucc m =>
    intro h
    have : (toString (Int.negSucc m)).data = Char.ofNat 45 :: Nat.toDigits 10 (m + 1) := rfl
    rw [h] at this
    simp at this

/-- Printing a number with a fractional part and reading the text back gives the number. -/
theorem toNumber_toStr_dec (negative : Bool) (whole : Nat) (fraction : List Nat)
    (h : (Val.dec negative whole fraction).isFiniteNumber = true) :
    (Val.str (Val.dec negative whole fraction).toStr).toNumber
      = .dec negative whole fraction := by
  simp only [Val.isFiniteNumber, Bool.and_eq_true, Bool.not_eq_true', List.isEmpty_eq_false,
    List.all_eq_true, decide_eq_true_eq, bne_iff_ne, ne_eq] at h
  obtain ⟨⟨hne, hlt⟩, hlast⟩ := h
  obtain ⟨init, last, rfl⟩ : ∃ init last, fraction = init ++ [last] :=
    ⟨fraction.dropLast, fraction.getLast hne, (List.dropLast_append_getLast hne).symm⟩
  have hlast0 : last ≠ 0 := by
    intro h0
    apply hlast
    simp [h0]
  obtain ⟨hwne, hwdig, hwval⟩ := toDigits_spec whole
  have hfd : ∀ c ∈ (init ++ [last]).map Nat.digitChar, c.isDigit = true := by
    intro c hc
    obtain ⟨k, hk, rfl⟩ := List.mem_map.mp hc
    exact (digitChar_spec k (hlt k hk)).1
  have hfv : ((init ++ [last]).map Nat.digitChar).map digitValue = init ++ [last] := by
    rw [List.map_map]
    conv_rhs => rw [← List.map_id (init ++ [last])]
    apply List.map_congr_left
    intro k hk
    exact (digitChar_spec k (hlt k hk)).2
  have hpoint : (Char.ofNat 46).isDigit = false := by decide
  have hunsigned : unsignedDecimal negative
      (Nat.toDigits 10 whole ++ Char.ofNat 46 :: (init ++ [last]).map Nat.digitChar)
        = .dec negative whole (init ++ [last]) := by
    have hinf : (Nat.toDigits 10 whole ++ Char.ofNat 46 :: (init ++ [last]).map Nat.digitChar)
        ≠ "Infinity".toList := by
      intro heq
      cases hw : Nat.toDigits 10 whole with
      | nil => exact hwne hw
      | cons c rest =>
        rw [hw] at heq
        have hc := hwdig c (by rw [hw]; simp)
        simp only [List.cons_append] at heq
        have : c = Char.ofNat 73 := by
          have := congrArg List.head? heq
          simpa using this
        rw [this] at hc
        exact absurd hc (by decide)
    have htake : (Nat.toDigits 10 whole ++ Char.ofNat 46 :: (init ++ [last]).map Nat.digitChar).takeWhile
        Char.isDigit = Nat.toDigits 10 whole := by
      rw [List.takeWhile_append_of_pos hwdig]
      simp [List.takeWhile_cons, hpoint]
    have hdrop : (Nat.toDigits 10 whole ++ Char.ofNat 46 :: (init ++ [last]).map Nat.digitChar).dropWhile
        Char.isDigit = Char.ofNat 46 :: (init ++ [last]).map Nat.digitChar := by
      rw [List.dropWhile_append_of_pos hwdig]
      simp [List.dropWhile_cons, hpoint]
    have htake2 : ((init ++ [last]).map Nat.digitChar).takeWhile Char.isDigit
        = (init ++ [last]).map Nat.digitChar := List.takeWhile_eq_self_iff.mpr hfd
    have hdrop2 : ((init ++ [last]).map Nat.digitChar).dropWhile Char.isDigit = [] :=
      List.dropWhile_eq_nil_iff.mpr hfd
    have h46 : (Char.ofNat 46).toNat = 46 := by decide
    have hwempty : (Nat.toDigits 10 whole).isEmpty = false := by
      cases hw : Nat.toDigits 10 whole with
      | nil => exact absurd hw hwne
      | cons c rest => rfl
    simp only [unsignedDecimal, hinf, if_false, scanDecimal, htake, hdrop, h46, decide_True,
      if_true, htake2, hdrop2, hwempty, Bool.false_and, Bool.false_eq_true, scanExponent,
      decimalValue]
    have hlen : ¬ ((Nat.toDigits 10 whole ++ (init ++ [last]).map Nat.digitChar).length : Int)
        ≤ ((Nat.toDigits 10 whole).length : Int) + 0 := by
      simp
    simp only [hlen, if_false]
    have htoNat : (((Nat.toDigits 10 whole).length : Int) + 0).toNat
        = (Nat.toDigits 10 whole).length := by simp
    have hneg : (-(((Nat.toDigits 10 whole).length : Int) + 0)).toNat = 0 := by simp
    simp only [htoNat, hneg, List.replicate_zero, List.nil_append, List.take_left',
      List.drop_left', hwval, hfv]
    have hdz : dropTrailingZeros (init ++ [last]) = init ++ [last] := by
      simp only [dropTrailingZeros, List.reverse_append, List.reverse_cons, List.reverse_nil,
        List.nil_append, List.singleton_append]
      rw [List.dropWhile_cons_of_neg (by simpa using hlast0)]
      simp
    simp [hdz, List.take_left', List.drop_left']
  have hlastws : isStrWhiteSpace (Nat.digitChar last) = false :=
    isStrWhiteSpace_of_isDigit _ (hfd _ (by simp))
  have htext : (Val.dec negative whole (init ++ [last])).toStr.toList
      = (if negative then [Char.ofNat 45] else [])
        ++ (Nat.toDigits 10 whole ++ Char.ofNat 46 :: (init ++ [last]).map Nat.digitChar) := by
    cases negative <;>
      simp [Val.toStr, decimalText, toString, Nat.repr, List.asString, String.toList]
  simp only [Val.toNumber, stringToNumber, htext]
  cases negative with
  | true =>
    have hstrip := (stripWhiteSpace_eq_self
      (Nat.toDigits 10 whole ++ Char.ofNat 46 :: init.map Nat.digitChar) (Char.ofNat 45)
      (Nat.digitChar last) (by decide) hlastws).1
    have hshape : (Nat.toDigits 10 whole ++ Char.ofNat 46 :: init.map Nat.digitChar)
        ++ [Nat.digitChar last]
        = Nat.toDigits 10 whole ++ Char.ofNat 46 :: (init ++ [last]).map Nat.digitChar := by
      simp
    rw [hshape] at hstrip
    have h45 : (Char.ofNat 45).toNat = 45 := by decide
    simp only [if_true, List.singleton_append, hstrip, h45, decide_True]
    exact hunsigned
  | false =>
    cases hw : Nat.toDigits 10 whole with
    | nil => exact absurd hw hwne
    | cons c rest =>
      have hc := hwdig c (by rw [hw]; simp)
      have hstrip := (stripWhiteSpace_eq_self
        (rest ++ Char.ofNat 46 :: init.map Nat.digitChar) c
        (Nat.digitChar last) (isStrWhiteSpace_of_isDigit c hc) hlastws).1
      have hshape : c :: ((rest ++ Char.ofNat 46 :: init.map Nat.digitChar)
          ++ [Nat.digitChar last])
          = c :: (rest ++ Char.ofNat 46 :: (init ++ [last]).map Nat.digitChar) := by
        simp
      rw [hshape] at hstrip
      rw [hw] at hunsigned
      have hcr : 48 ≤ c.toNat ∧ c.toNat ≤ 57 := by
        simp only [Char.isDigit, Bool.and_eq_true, decide_eq_true_eq, UInt32.le_def,
          Fin.le_def] at hc
        exact hc
      have h45 : ¬ c.toNat = 45 := by omega
      have h43 : ¬ c.toNat = 43 := by omega
      simp only [Bool.false_eq_true, if_false, List.nil_append, List.cons_append, hstrip, h45,
        h43, decide_False]
      cases rest with
      | nil =>
        have h46 : (Char.ofNat 46).toNat = 46 := by decide
        simp only [List.nil_append, h46]
        simpa using hunsigned
      | cons x digits =>
        have hx := hwdig x (by rw [hw]; simp)
        have hxr : 48 ≤ x.toNat ∧ x.toNat ≤ 57 := by
          simp only [Char.isDigit, Bool.and_eq_true, decide_eq_true_eq, UInt32.le_def,
            Fin.le_def] at hx
          exact hx
        have h1 : ¬ x.toNat = 120 := by omega
        have h2 : ¬ x.toNat = 88 := by omega
        have h3 : ¬ x.toNat = 111 := by omega
        have h4 : ¬ x.toNat = 79 := by omega
        have h5 : ¬ x.toNat = 98 := by omega
        have h6 : ¬ x.toNat = 66 := by omega
        simp only [List.cons_append, h1, h2, h3, h4, h5, h6, decide_False, Bool.or_self,
          Bool.and_false, Bool.false_eq_true, if_false]
        simpa using hunsigned


/-- A finite number is printed as a non-empty text from which `Number` reads it back. -/
theorem toNumber_toStr_finite (v : Val) (h : v.isFiniteNumber = true) :
    (Val.str v.toStr).toNumber = v ∧ v.toStr ≠ "" ∧ v.nullish = false := by
  cases v with
  | num n => exact ⟨toNumber_toStr_num n, toStr_num_ne_empty n, rfl⟩
  | dec negative whole fraction =>
    refine ⟨toNumber_toStr_dec negative whole fraction h, ?_, rfl⟩
    intro hempty
    have := toNumber_toStr_dec negative whole fraction h
    rw [hempty] at this
    exact absurd this (by simp [Val.toNumber, stringToNumber, stripWhiteSpace])
  | _ => simp [Val.isFiniteNumber] at h

/-! ## The fields of the payload -/

/-- C14, as stated, fails for an edit, in both of its parts: a record whose gender is `male`,
which is not one of the options, and whose age is the text `abc`, which is not a number, is
opened in the form and submitted untouched; the body of the request carries that gender,
and `null` for the age. -/
theorem submitForm_record_outside_sets :
    ((PatientManager.submitForm
        (.ok { status := 200, json := .ok (.obj [("message", .str "updated")]) })
        (.error "Failed to fetch")
        (PatientManager.openForm
          (.obj [("_id", .str "p1"), ("gender", .str "male"), ("age", .str "abc"),
            ("hypertension", .num 0), ("heart_disease", .num 0), ("ever_married", .str "Yes"),
            ("work_type", .str "Private"), ("Residence_type", .str "Urban"),
            ("avg_glucose_level", .num 100), ("bmi", .num 25),
            ("smoking_status", .str "smokes"), ("stroke", .num 0)]) {}).2).2.requests.map
        fun r => (r.url, Props.get r.init "method", Props.get r.init "body")).head?
      = some ("http://localhost:8000/api/patients/p1", .str "PUT",
          .str ("\x7b\x22gender\x22:\x22male\x22,\x22age\x22:null,\x22hypertension\x22:0,"
            ++ "\x22heart_disease\x22:0,\x22ever_married\x22:\x22Yes\x22,"
            ++ "\x22work_type\x22:\x22Private\x22,\x22Residence_type\x22:\x22Urban\x22,"
            ++ "\x22avg_glucose_level\x22:100,\x22bmi\x22:25,"
            ++ "\x22smoking_status\x22:\x22smokes\x22,\x22stroke\x22:0\x7d")) ∧
    PatientForm.options .gender = some ["Male", "Female", "Other"] ∧
    Props.get (PatientForm.payload
      (PatientManager.openForm
        (.obj [("_id", .str "p1"), ("gender", .str "male"), ("age", .str "abc"),
          ("hypertension", .num 0), ("heart_disease", .num 0), ("ever_married", .str "Yes"),
          ("work_type", .str "Private"), ("Residence_type", .str "Urban"),
          ("avg_glucose_level", .num 100), ("bmi", .num 25),
          ("smoking_status", .str "smokes"), ("stroke", .num 0)]) {}).2.patientForm.form
      (.obj [("_id", .str "p1")])) "age" = .nan :=
  ⟨rfl, rfl, rfl⟩

/-- While every control is changed only to the empty string or to a value that is good for
its field, every field holds the empty string or a good value. -/
theorem PatientForm.control_invariant (good : Field → String → Prop)
    (events : List (Field × String))
    (hevents : ∀ e ∈ events, e.2 = "" ∨ good e.1 e.2)
    (s : Client)
    (hs : ∀ f, ∃ v, s.patientForm.form.get f = .str v ∧ (v = "" ∨ good f v)) :
    ∀ f, ∃ v,
      (events.foldl (fun st e => (PatientForm.onChange e.1 e.2 st).2) s).patientForm.form.get f
        = .str v ∧ (v = "" ∨ good f v) := by
  induction events generalizing s with
  | nil => simpa using hs
  | cons e rest ih =>
    simp only [List.foldl_cons]
    apply ih
    · intro e2 he2
      exact hevents e2 (List.mem_cons_of_mem _ he2)
    · intro f
      rw [PatientForm.onChange_run]
      simp only [Form.get_set]
      by_cases hfe : f = e.1
      · subst hfe
        exact ⟨e.2, by simp, hevents e (List.mem_cons_self _ _)⟩
      · simpa [hfe] using hs f

/-- C14, as the code has it. The payload carries the five choice fields of the form
unchanged and the five numeric fields as `Number` of the form field; where the form field
is the text of a finite number, as it is after populating from a record whose field is that
number, the payload carries that number. For a new patient, whose form starts empty, whose
select controls are changed only to their options and whose number inputs only to the text
of a finite number, a form that passes the required-field test has its five choice fields
inside their closed sets, hypertension and stroke 0 or 1, and age, glucose level and
body-mass index finite numbers. -/
theorem payload_fields (form : Form) (editingPatient : Val) (events : List (Field × String))
    (s : Client)
    (hnew : s.patientForm.form = PatientForm.emptyForm)
    (hevents : ∀ e ∈ events, ∀ opts, PatientForm.options e.1 = some opts →
      e.2 = "" ∨ e.2 ∈ opts)
    (hinputs : ∀ e ∈ events, PatientForm.options e.1 = none →
      e.2 = "" ∨ ∃ v : Val, v.isFiniteNumber = true ∧ e.2 = v.toStr)
    (hvalid : ¬ ∃ f : Field,
      (events.foldl (fun st e => (PatientForm.onChange e.1 e.2 st).2) s).patientForm.form.get f
          = .str "" ∨
      (events.foldl (fun st e => (PatientForm.onChange e.1 e.2 st).2) s).patientForm.form.get f
          = .null ∨
      (events.foldl (fun st e => (PatientForm.onChange e.1 e.2 st).2) s).patientForm.form.get f
          = .undefined) :
    (Props.get (PatientForm.payload form editingPatient) "gender" = form.gender ∧
     Props.get (PatientForm.payload form editingPatient) "ever_married" = form.ever_married ∧
     Props.get (PatientForm.payload form editingPatient) "work_type" = form.work_type ∧
     Props.get (PatientForm.payload form editingPatient) "Residence_type"
       = form.residence_type ∧
     Props.get (PatientForm.payload form editingPatient) "smoking_status"
       = form.smoking_status) ∧
    (Props.get (PatientForm.payload form editingPatient) "age" = form.age.toNumber ∧
     Props.get (PatientForm.payload form editingPatient) "hypertension"
       = form.hypertension.toNumber ∧
     Props.get (PatientForm.payload form editingPatient) "avg_glucose_level"
       = form.avg_glucose_level.toNumber ∧
     Props.get (PatientForm.payload form editingPatient) "bmi" = form.bmi.toNumber ∧
     Props.get (PatientForm.payload form editingPatient) "stroke" = form.stroke.toNumber) ∧
    (∀ v : Val, v.isFiniteNumber = true →
      (form.age = .str v.toStr →
        Props.get (PatientForm.payload form editingPatient) "age" = v) ∧
      (form.hypertension = .str v.toStr →
        Props.get (PatientForm.payload form editingPatient) "hypertension" = v) ∧
      (form.avg_glucose_level = .str v.toStr →
        Props.get (PatientForm.payload form editingPatient) "avg_glucose_level" = v) ∧
      (form.bmi = .str v.toStr →
        Props.get (PatientForm.payload form editingPatient) "bmi" = v) ∧
      (form.stroke = .str v.toStr →
        Props.get (PatientForm.payload form editingPatient) "stroke" = v)) ∧
    ((∃ v ∈ ["Male", "Female", "Other"],
       Props.get (PatientForm.payload
         (events.foldl (fun st e => (PatientForm.onChange e.1 e.2 st).2) s).patientForm.form
         editingPatient) "gender" = .str v) ∧
     (∃ v ∈ ["Yes", "No"],
       Props.get (PatientForm.payload
         (events.foldl (fun st e => (PatientForm.onChange e.1 e.2 st).2) s).patientForm.form
         editingPatient) "ever_married" = .str v) ∧
     (∃ v ∈ ["Private", "Self-employed", "Govt_job", "children", "Never_worked"],
       Props.get (PatientForm.payload
         (events.foldl (fun st e => (PatientForm.onChange e.1 e.2 st).2) s).patientForm.form
         editingPatient) "work_type" = .str v) ∧
     (∃ v ∈ ["Urban", "Rural"],
       Props.get (PatientForm.payload
         (events.foldl (fun st e => (PatientForm.onChange e.1 e.2 st).2) s).patientForm.form
         editingPatient) "Residence_type" = .str v) ∧
     (∃ v ∈ ["formerly smoked", "never smoked", "smokes", "Unknown"],
       Props.get (PatientForm.payload
         (events.foldl (fun st e => (PatientForm.onChange e.1 e.2 st).2) s).patientForm.form
         editingPatient) "smoking_status" = .str v)) ∧
    ((Props.get (PatientForm.payload
         (events.foldl (fun st e => (PatientForm.onChange e.1 e.2 st).2) s).patientForm.form
         editingPatient) "hypertension" = .num 0 ∨
      Props.get (PatientForm.payload
         (events.foldl (fun st e => (PatientForm.onChange e.1 e.2 st).2) s).patientForm.form
         editingPatient) "hypertension" = .num 1) ∧
     (Props.get (PatientForm.payload
         (events.foldl (fun st e => (PatientForm.onChange e.1 e.2 st).2) s).patientForm.form
         editingPatient) "stroke" = .num 0 ∨
      Props.get (PatientForm.payload
         (events.foldl (fun st e => (PatientForm.onChange e.1 e.2 st).2) s).patientForm.form
         editingPatient) "stroke" = .num 1) ∧
     (Props.get (PatientForm.payload
         (events.foldl (fun st e => (PatientForm.onChange e.1 e.2 st).2) s).patientForm.form
         editingPatient) "age").isFiniteNumber = true ∧
     (Props.get (PatientForm.payload
         (events.foldl (fun st e => (PatientForm.onChange e.1 e.2 st).2) s).patientForm.form
         editingPatient) "avg_glucose_level").isFiniteNumber = true ∧
     (Props.get (PatientForm.payload
         (events.foldl (fun st e => (PatientForm.onChange e.1 e.2 st).2) s).patientForm.form
         editingPatient) "bmi").isFiniteNumber = true) := by
  have hinv := PatientForm.control_invariant
    (fun f v => (∀ opts, PatientForm.options f = some opts → v ∈ opts) ∧
      (PatientForm.options f = none → ∃ n : Val, n.isFiniteNumber = true ∧ v = n.toStr))
    events
    (by
      intro e he
      by_cases h0 : e.2 = ""
      · exact Or.inl h0
      · refine Or.inr ⟨fun opts hopts => ?_, fun hnone => ?_⟩
        · exact (hevents e he opts hopts).resolve_left h0
        · exact (hinputs e he hnone).resolve_left h0)
    s
    (by
      intro f
      rw [hnew]
      exact ⟨"", by cases f <;> rfl, Or.inl rfl⟩)
  have hgood : ∀ f, ∃ v,
      (events.foldl (fun st e => (PatientForm.onChange e.1 e.2 st).2) s).patientForm.form.get f
        = .str v ∧ (∀ opts, PatientForm.options f = some opts → v ∈ opts) ∧
        (PatientForm.options f = none → ∃ n : Val, n.isFiniteNumber = true ∧ v = n.toStr) := by
    intro f
    obtain ⟨v, hv, hmem⟩ := hinv f
    rcases hmem with h0 | hmem
    · exact absurd ⟨f, Or.inl (by rw [hv, h0])⟩ hvalid
    · exact ⟨v, hv, hmem⟩
  have hsel : ∀ f opts, PatientForm.options f = some opts →
      ∃ v ∈ opts,
        (events.foldl (fun st e => (PatientForm.onChange e.1 e.2 st).2) s).patientForm.form.get f
          = .str v := by
    intro f opts hf
    obtain ⟨v, hv, hopts, -⟩ := hgood f
    exact ⟨v, hopts opts hf, hv⟩
  have hnum : ∀ f, PatientForm.options f = none →
      ((events.foldl (fun st e => (PatientForm.onChange e.1 e.2 st).2) s).patientForm.form.get
        f).toNumber.isFiniteNumber = true := by
    intro f hf
    obtain ⟨v, hv, -, hn⟩ := hgood f
    obtain ⟨n, hfin, rfl⟩ := hn hf
    rw [hv, (toNumber_toStr_finite n hfin).1]
    exact hfin
  have hbit : ∀ f, PatientForm.options f = some ["0", "1"] →
      ((events.foldl (fun st e => (PatientForm.onChange e.1 e.2 st).2) s).patientForm.form.get
        f).toNumber = .num 0 ∨
      ((events.foldl (fun st e => (PatientForm.onChange e.1 e.2 st).2) s).patientForm.form.get
        f).toNumber = .num 1 := by
    intro f hf
    obtain ⟨v, hmem, hv⟩ := hsel f _ hf
    simp only [List.mem_cons, List.mem_singleton, List.not_mem_nil, or_false] at hmem
    rw [hv]
    rcases hmem with h | h <;> subst h
    · exact Or.inl (toNumber_toStr_num 0)
    · exact Or.inr (toNumber_toStr_num 1)
  refine ⟨?_, ?_, ?_, ⟨?_, ?_, ?_, ?_, ?_⟩, ?_, ?_, ?_, ?_, ?_⟩
  · simp [PatientForm.payload, Props.get, Props.lookup]
  · simp [PatientForm.payload, Props.get, Props.lookup]
  · intro v hv
    have h := (toNumber_toStr_finite v hv).1
    refine ⟨?_, ?_, ?_, ?_, ?_⟩ <;> intro hf <;>
      simp [PatientForm.payload, Props.get, Props.lookup, hf, h]
  · obtain ⟨v, hmem, hv⟩ := hsel .gender _ rfl
    refine ⟨v, by simpa using hmem, ?_⟩
    simpa [PatientForm.payload, Props.get, Props.lookup, Form.get] using hv
  · obtain ⟨v, hmem, hv⟩ := hsel .ever_married _ rfl
    refine ⟨v, by simpa using hmem, ?_⟩
    simpa [PatientForm.payload, Props.get, Props.lookup, Form.get] using hv
  · obtain ⟨v, hmem, hv⟩ := hsel .work_type _ rfl
    refine ⟨v, ?_, ?_⟩
    · simp only [List.mem_cons, List.mem_singleton, List.not_mem_nil, or_false] at hmem ⊢
      tauto
    · simpa [PatientForm.payload, Props.get, Props.lookup, Form.get] using hv
  · obtain ⟨v, hmem, hv⟩ := hsel .residence_type _ rfl
    refine ⟨v, ?_, ?_⟩
    · simp only [List.mem_cons, List.mem_singleton, List.not_mem_nil, or_false] at hmem ⊢
      tauto
    · simpa [PatientForm.payload, Props.get, Props.lookup, Form.get] using hv
  · obtain ⟨v, hmem, hv⟩ := hsel .smoking_status _ rfl
    refine ⟨v, by simpa using hmem, ?_⟩
    simpa [PatientForm.payload, Props.get, Props.lookup, Form.get] using hv
  · simpa [PatientForm.payload, Props.get, Props.lookup, Form.get] using hbit .hypertension rfl
  · simpa [PatientForm.payload, Props.get, Props.lookup, Form.get] using hbit .stroke rfl
  · simpa [PatientForm.payload, Props.get, Props.lookup, Form.get] using hnum .age rfl
  · simpa [PatientForm.payload, Props.get, Props.lookup, Form.get]
      using hnum .avg_glucose_level rfl
  · simpa [PatientForm.payload, Props.get, Props.lookup, Form.get] using hnum .bmi rfl

/-- C14 at a new-patient form filled through its controls: the payload carries the age as a
finite number. -/
theorem payload_fields_witness :
    (Props.get (PatientForm.payload
         (([(Field.gender, "Female"), (.age, "61"), (.hypertension, "1"),
            (.ever_married, "Yes"), (.work_type, "Govt_job"), (.residence_type, "Rural"),
            (.avg_glucose_level, "120.5"), (.bmi, "27.1"), (.smoking_status, "Unknown"),
            (.stroke, "0")] : List (Field × String)).foldl
            (fun st e => (PatientForm.onChange e.1 e.2 st).2) {}).patientForm.form
         .null) "age").isFiniteNumber = true :=
  (payload_fields {} .null
    [(Field.gender, "Female"), (.age, "61"), (.hypertension, "1"),
      (.ever_married, "Yes"), (.work_type, "Govt_job"), (.residence_type, "Rural"),
      (.avg_glucose_level, "120.5"), (.bmi, "27.1"), (.smoking_status, "Unknown"),
      (.stroke, "0")] {} rfl
    (by
      intro e he opts hopts
      simp only [List.mem_cons, List.mem_singleton, List.not_mem_nil, or_false] at he
      rcases he with h | h | h | h | h | h | h | h | h | h <;> subst h <;>
        simp [PatientForm.options] at hopts <;> subst hopts <;> simp)
    (by
      intro e he hnone
      simp only [List.mem_cons, List.mem_singleton, List.not_mem_nil, or_false] at he
      rcases he with h | h | h | h | h | h | h | h | h | h <;> subst h <;>
        simp [PatientForm.options] at hnone
      · exact Or.inr ⟨.num 61, rfl, rfl⟩
      · exact Or.inr ⟨.dec false 120 [5], rfl, rfl⟩
      · exact Or.inr ⟨.dec false 27 [1], rfl, rfl⟩)
    (by
      rintro ⟨f, h⟩
      cases f <;>
        simp [PatientForm.onChange_run, Form.set, Form.get] at h)).2.2.2.2.2.2.2.1

/-! ## Editing without a change -/

/-- C20: a record whose five choice fields are present and not empty, whose five numeric
fields are finite numbers and whose `heart_disease` is present is opened in the form and
submitted untouched: the form passes the required-field test, the request is a `PUT` whose
body is the JSON text of the payload, and each of the eleven fields of the payload equals
that field of the record. For every record, the `residence_type` of the form is the
`Residence_type` of the record, and its `residence_type` only when `Residence_type` is
`null` or `undefined`. -/
theorem noop_edit (props : Props) (writeResult listResult : FetchResult) (s : Client)
    (hchoice : ∀ key ∈ ["gender", "ever_married", "work_type", "Residence_type",
        "smoking_status"],
      Props.get props key ≠ .str "" ∧ Props.get props key ≠ .null ∧
        Props.get props key ≠ .undefined)
    (hnumeric : ∀ key ∈ ["age", "hypertension", "avg_glucose_level", "bmi", "stroke"],
      (Props.get props key).isFiniteNumber = true)
    (hheart : (Props.get props "heart_disease").nullish = false) :
    (∀ key ∈ ["gender", "age", "hypertension", "heart_disease", "ever_married", "work_type",
        "Residence_type", "avg_glucose_level", "bmi", "smoking_status", "stroke"],
      Props.get (PatientForm.payload (PatientForm.populate (.obj props)) (.obj props)) key
        = Props.get props key) ∧
    (¬ ∃ f : Field, (PatientForm.populate (.obj props)).get f = .str "" ∨
      (PatientForm.populate (.obj props)).get f = .null ∨
      (PatientForm.populate (.obj props)).get f = .undefined) ∧
    (∃ (write : Request) (rest : List Request),
      (PatientManager.submitForm writeResult listResult
        (PatientManager.openForm (.obj props) s).2).2.requests = s.requests ++ write :: rest ∧
      Props.get write.init "method" = .str "PUT" ∧
      Props.get write.init "body" = JSON.stringify
        (.obj (PatientForm.payload (PatientForm.populate (.obj props)) (.obj props)))) ∧
    (∀ record : Props,
      (PatientForm.populate (.obj record)).residence_type
        = if (Props.get record "Residence_type").nullish
          then (Props.get record "residence_type").coalesce (.str "")
          else Props.get record "Residence_type") := by
  have hnn : ∀ v : Val, v ≠ .null → v ≠ .undefined → v.nullish = false := by
    intro v h1 h2
    cases v <;> simp_all [Val.nullish]
  have hg := hchoice "gender" (by simp)
  have hm := hchoice "ever_married" (by simp)
  have hw := hchoice "work_type" (by simp)
  have hr := hchoice "Residence_type" (by simp)
  have hs := hchoice "smoking_status" (by simp)
  have ha := toNumber_toStr_finite _ (hnumeric "age" (by simp))
  have hh := toNumber_toStr_finite _ (hnumeric "hypertension" (by simp))
  have hgl := toNumber_toStr_finite _ (hnumeric "avg_glucose_level" (by simp))
  have hb := toNumber_toStr_finite _ (hnumeric "bmi" (by simp))
  have hst := toNumber_toStr_finite _ (hnumeric "stroke" (by simp))
  have hpop : PatientForm.populate (.obj props)
      = { gender := Props.get props "gender"
          age := .str (Props.get props "age").toStr
          hypertension := .str (Props.get props "hypertension").toStr
          ever_married := Props.get props "ever_married"
          work_type := Props.get props "work_type"
          residence_type := Props.get props "Residence_type"
          avg_glucose_level := .str (Props.get props "avg_glucose_level").toStr
          bmi := .str (Props.get props "bmi").toStr
          smoking_status := Props.get props "smoking_status"
          stroke := .str (Props.get props "stroke").toStr } := by
    simp [PatientForm.populate, Val.truthy, Val.getPropOpt, Val.coalesce,
      hnn _ hg.2.1 hg.2.2, hnn _ hm.2.1 hm.2.2, hnn _ hw.2.1 hw.2.2, hnn _ hr.2.1 hr.2.2,
      hnn _ hs.2.1 hs.2.2, ha.2.2, hh.2.2, hgl.2.2, hb.2.2, hst.2.2]
  have hvalid : ¬ ∃ f : Field, (PatientForm.populate (.obj props)).get f = .str "" ∨
      (PatientForm.populate (.obj props)).get f = .null ∨
      (PatientForm.populate (.obj props)).get f = .undefined := by
    rw [hpop]
    rintro ⟨f, hf⟩
    cases f <;> simp only [Form.get] at hf
    · exact hf.elim hg.1 (fun h => h.elim hg.2.1 hg.2.2)
    · simpa using hf.elim (fun h => ha.2.1 (by simpa using h)) (by simp)
    · simpa using hf.elim (fun h => hh.2.1 (by simpa using h)) (by simp)
    · exact hf.elim hm.1 (fun h => h.elim hm.2.1 hm.2.2)
    · exact hf.elim hw.1 (fun h => h.elim hw.2.1 hw.2.2)
    · exact hf.elim hr.1 (fun h => h.elim hr.2.1 hr.2.2)
    · simpa using hf.elim (fun h => hgl.2.1 (by simpa using h)) (by simp)
    · simpa using hf.elim (fun h => hb.2.1 (by simpa using h)) (by simp)
    · exact hf.elim hs.1 (fun h => h.elim hs.2.1 hs.2.2)
    · simpa using hf.elim (fun h => hst.2.1 (by simpa using h)) (by simp)
  refine ⟨?_, hvalid, ?_, ?_⟩
  · intro key hkey
    rw [hpop]
    simp only [List.mem_cons, List.mem_singleton, List.not_mem_nil, or_false] at hkey
    rcases hkey with h | h | h | h | h | h | h | h | h | h | h <;> subst h <;>
      simp [PatientForm.payload, Props.get, Props.lookup, ha.1, hh.1, hgl.1, hb.1, hst.1,
        Val.getPropOpt, Val.coalesce, hheart] <;>
      simp_all [Props.get]
  · have hstate : (PatientManager.openForm (.obj props) s).2
        = { s with
            manager := { s.manager with editingPatient := .obj props, showForm := true }
            patientForm := { form := PatientForm.populate (.obj props) } } := by
      simp [PatientManager.openForm, PatientManager.setEditingPatient,
        PatientManager.setShowForm, PatientForm.onEditingPatient, PatientForm.setForm]
    have h2 : (PatientForm.required.any fun f => PatientForm.isMissing
        ((PatientManager.openForm (.obj props) s).2.patientForm.form.get f)) = false := by
      rw [hstate]
      have := (PatientForm.any_missing_iff (PatientForm.populate (.obj props))).not.mpr hvalid
      simpa using this
    obtain ⟨rest, hrest⟩ := PatientManager.submitForm_requests writeResult listResult _ h2
    rw [hstate] at hrest
    exact ⟨_, rest, hrest, by simp [Props.get, Props.lookup, Val.truthy],
      by simp [Props.get, Props.lookup]⟩
  · intro record
    cases hn : (Props.get record "Residence_type").nullish <;>
      simp [PatientForm.populate, Val.truthy, Val.getPropOpt, Val.coalesce, hn]

/-- C20 at a record with a fractional glucose level and body-mass index. -/
theorem noop_edit_witness :
    Props.get (PatientForm.payload
      (PatientForm.populate (.obj
        [("_id", .str "p1"), ("gender", .str "Female"), ("age", .num 61),
         ("hypertension", .num 0), ("heart_disease", .num 0), ("ever_married", .str "Yes"),
         ("work_type", .str "Self-employed"), ("Residence_type", .str "Rural"),
         ("avg_glucose_level", .dec false 202 [2, 1]), ("bmi", .dec false 28 [9]),
         ("smoking_status", .str "never smoked"), ("stroke", .num 1)]))
      (.obj
        [("_id", .str "p1"), ("gender", .str "Female"), ("age", .num 61),
         ("hypertension", .num 0), ("heart_disease", .num 0), ("ever_married", .str "Yes"),
         ("work_type", .str "Self-employed"), ("Residence_type", .str "Rural"),
         ("avg_glucose_level", .dec false 202 [2, 1]), ("bmi", .dec false 28 [9]),
         ("smoking_status", .str "never smoked"), ("stroke", .num 1)])) "avg_glucose_level"
      = Props.get
        [("_id", .str "p1"), ("gender", .str "Female"), ("age", .num 61),
         ("hypertension", .num 0), ("heart_disease", .num 0), ("ever_married", .str "Yes"),
         ("work_type", .str "Self-employed"), ("Residence_type", .str "Rural"),
         ("avg_glucose_level", .dec false 202 [2, 1]), ("bmi", .dec false 28 [9]),
         ("smoking_status", .str "never smoked"), ("stroke", .num 1)] "avg_glucose_level" :=
  (noop_edit
    [("_id", .str "p1"), ("gender", .str "Female"), ("age", .num 61),
     ("hypertension", .num 0), ("heart_disease", .num 0), ("ever_married", .str "Yes"),
     ("work_type", .str "Self-employed"), ("Residence_type", .str "Rural"),
     ("avg_glucose_level", .dec false 202 [2, 1]), ("bmi", .dec false 28 [9]),
     ("smoking_status", .str "never smoked"), ("stroke", .num 1)]
    (.error "Failed to fetch") (.error "Failed to fetch") {}
    (by
      intro key hkey
      simp only [List.mem_cons, List.mem_singleton, List.not_mem_nil, or_false] at hkey
      rcases hkey with h | h | h | h | h <;> subst h <;>
        simp [Props.get, Props.lookup])
    (by
      intro key hkey
      simp only [List.mem_cons, List.mem_singleton, List.not_mem_nil, or_false] at hkey
      rcases hkey with h | h | h | h | h <;> subst h <;>
        simp [Props.get, Props.lookup, Val.isFiniteNumber])
    rfl).1 "avg_glucose_level" (by simp)

/-! ## The statistics and prediction modals -/

/-- The stroke-subgroup rows are shown exactly when the average age of the statistics is
truthy. -/
theorem PatientManager.subgroupView_rows_iff (statistics : Val) :
    (∃ a b c d, PatientManager.subgroupView statistics = .rows a b c d) ↔
      (statistics.getPropOpt "stroke_patient_avg_age").truthy = true := by
  simp only [PatientManager.subgroupView]
  cases h : (statistics.getPropOpt "stroke_patient_avg_age").truthy
  · simp only [Bool.false_eq_true, if_false, iff_false]
    rintro ⟨a, b, c, d, habcd⟩
    split at habcd <;> simp at habcd
  · simp

/-- C17: statistics with one stroke case whose age is 0, so that the subgroup fields are
present and the average age is 0: the modal shows the text `0` instead of the four rows. -/
theorem statistics_average_age_zero :
    PatientManager.statisticsModal
      (PatientManager.loadStatistics
        (.ok { status := 200, json := .ok (.obj
          [("total_patients", .num 4), ("stroke_cases", .num 1), ("stroke_rate", .num 25),
           ("stroke_patient_avg_age", .num 0),
           ("stroke_patient_avg_glucose", .dec false 85 [5]),
           ("stroke_with_hypertension", .num 0), ("stroke_with_heart_disease", .num 0)]) })
        {}).2
      = some (.text "0") ∧
    PatientManager.statisticsModal
      (PatientManager.loadStatistics
        (.ok { status := 200, json := .ok (.obj
          [("total_patients", .num 4), ("stroke_cases", .num 1), ("stroke_rate", .num 25),
           ("stroke_patient_avg_age", .num 67),
           ("stroke_patient_avg_glucose", .dec false 85 [5]),
           ("stroke_with_hypertension", .num 0), ("stroke_with_heart_disease", .num 0)]) })
        {}).2
      = some (.rows (.num 67) (.dec false 85 [5]) (.num 0) (.num 0)) ∧
    PatientManager.statisticsModal
      (PatientManager.loadStatistics
        (.ok { status := 200, json := .ok (.obj
          [("total_patients", .num 4), ("stroke_cases", .num 0), ("stroke_rate", .num 0)]) })
        {}).2
      = some .nothing :=
  ⟨rfl, rfl, rfl⟩

/-! ## Two list requests in flight -/

/-- A `fetch` is the issue of its request followed by the settlement of its promise. -/
theorem fetch_split (url : String) (init : Props) (result : FetchResult) (s : Client) :
    fetch url init result s = fetchSettled result (fetchStart url init s).2 := by
  cases result <;> rfl

/-- The function `loadPatients` is its start followed by the part that runs once the
request has settled. -/
theorem PatientManager.loadPatients_split (result : FetchResult) (s : Client) :
    PatientManager.loadPatients result s
      = PatientManager.loadPatientsSettled result (PatientManager.loadPatientsStart s).2 := by
  simp only [PatientManager.loadPatients, PatientManager.loadPatientsSettled,
    PatientManager.loadPatientsStart, PatientManager.apiCall, PatientManager.apiCallSettled,
    Eff.pure_def, Eff.bind_def, Eff.run_bind, Eff.run_get, Eff.run_tryFinally,
    Eff.run_tryCatch, PatientManager.setLoading, Eff.run_modify, fetch_split, fetchStart]

/-- A settled list request with a success status and a body that is not `null` puts the
`patients` and `total` of that body on the screen, whatever the state was. -/
theorem PatientManager.loadPatientsSettled_success (resp : Response) (data : Val) (s : Client)
    (hok : resp.ok = true) (hjson : resp.json = .ok data) (hdata : data.nullish = false) :
    (PatientManager.loadPatientsSettled (.ok resp) s).2.manager.patients
      = data.getPropOpt "patients" ∧
    (PatientManager.loadPatientsSettled (.ok resp) s).2.manager.total
      = data.getPropOpt "total" := by
  have h401 := Response.status_ne_401_of_ok resp hok
  simp [PatientManager.loadPatientsSettled, PatientManager.apiCallSettled, fetchSettled, h401,
    hok, hjson, Response.parse, Val.getProp_run, hdata, PatientManager.setPatients,
    PatientManager.setTotal, PatientManager.setLoading]

/-- A settled list response changes neither the page nor the sort state. -/
theorem PatientManager.loadPatientsSettled_query (result : FetchResult) (s : Client) :
    (PatientManager.loadPatientsSettled result s).2.manager.page = s.manager.page ∧
    (PatientManager.loadPatientsSettled result s).2.manager.sortField = s.manager.sortField ∧
    (PatientManager.loadPatientsSettled result s).2.manager.sortOrder
      = s.manager.sortOrder := by
  rcases result with m | resp
  · simp [PatientManager.loadPatientsSettled, PatientManager.apiCallSettled, fetchSettled,
      PatientManager.setError, PatientManager.setLoading]
  · by_cases h401 : resp.status = 401
    · simp [PatientManager.loadPatientsSettled, PatientManager.apiCallSettled, fetchSettled,
        PatientManager.setError, PatientManager.setLoading, h401, navigate]
    · cases hok : resp.ok
      · cases hj : resp.json with
        | error m =>
          simp [PatientManager.loadPatientsSettled, PatientManager.apiCallSettled,
            fetchSettled, PatientManager.setError, PatientManager.setLoading, h401, hok, hj,
            Response.parse, Val.getProp_run, Val.nullish]
        | ok data =>
          cases hn : data.nullish <;>
            simp [PatientManager.loadPatientsSettled, PatientManager.apiCallSettled,
              fetchSettled, PatientManager.setError, PatientManager.setLoading, h401, hok, hj,
              Response.parse, Val.getProp_run, hn]
      · cases hj : resp.json with
        | error m =>
          simp [PatientManager.loadPatientsSettled, PatientManager.apiCallSettled,
            fetchSettled, PatientManager.setError, PatientManager.setLoading, h401, hok, hj,
            Response.parse]
        | ok data =>
          cases hn : data.nullish <;>
            simp [PatientManager.loadPatientsSettled, PatientManager.apiCallSettled,
              fetchSettled, PatientManager.setError, PatientManager.setLoading,
              PatientManager.setPatients, PatientManager.setTotal, h401, hok, hj,
              Response.parse, Val.getProp_run, hn]

/-- C18, as stated, fails. The list is loaded with 41 patients on three pages. A click on
`Next` moves to page 2 and requests it; before the response, a second click on `Next` moves
to page 3 and requests that. The response for page 3 arrives first and is shown; the
response for page 2 arrives after it and replaces it: the screen shows the patients and the
total of page 2 while the page is 3. -/
theorem loadPatients_stale_response :
    ((PatientManager.loadPatientsSettled
        (.ok { status := 200, json := .ok (.obj
          [("patients", .arr [.obj [("_id", .str "second-page")]]), ("total", .num 41)]) })
        (PatientManager.loadPatientsSettled
          (.ok { status := 200, json := .ok (.obj
            [("patients", .arr [.obj [("_id", .str "third-page")]]), ("total", .num 42)]) })
          (PatientManager.loadPatientsStart
            (PatientManager.clickNext
              (PatientManager.loadPatientsStart
                (PatientManager.clickNext
                  (PatientManager.loadPatients
                    (.ok { status := 200, json := .ok (.obj
                      [("patients", .arr [.obj [("_id", .str "first-page")]]),
                        ("total", .num 41)]) })
                    {}).2).2).2).2).2).2).2.manager.patients
      = .arr [.obj [("_id", .str "second-page")]]) ∧
    ((PatientManager.loadPatientsSettled
        (.ok { status := 200, json := .ok (.obj
          [("patients", .arr [.obj [("_id", .str "second-page")]]), ("total", .num 41)]) })
        (PatientManager.loadPatientsSettled
          (.ok { status := 200, json := .ok (.obj
            [("patients", .arr [.obj [("_id", .str "third-page")]]), ("total", .num 42)]) })
          (PatientManager.loadPatientsStart
            (PatientManager.clickNext
              (PatientManager.loadPatientsStart
                (PatientManager.clickNext
                  (PatientManager.loadPatients
                    (.ok { status := 200, json := .ok (.obj
                      [("patients", .arr [.obj [("_id", .str "first-page")]]),
                        ("total", .num 41)]) })
                    {}).2).2).2).2).2).2).2.manager.total = .num 41) ∧
    ((PatientManager.loadPatientsSettled
        (.ok { status := 200, json := .ok (.obj
          [("patients", .arr [.obj [("_id", .str "second-page")]]), ("total", .num 41)]) })
        (PatientManager.loadPatientsSettled
          (.ok { status := 200, json := .ok (.obj
            [("patients", .arr [.obj [("_id", .str "third-page")]]), ("total", .num 42)]) })
          (PatientManager.loadPatientsStart
            (PatientManager.clickNext
              (PatientManager.loadPatientsStart
                (PatientManager.clickNext
                  (PatientManager.loadPatients
                    (.ok { status := 200, json := .ok (.obj
                      [("patients", .arr [.obj [("_id", .str "first-page")]]),
                        ("total", .num 41)]) })
                    {}).2).2).2).2).2).2).2.manager.page = 3) ∧
    ((PatientManager.loadPatientsSettled
        (.ok { status := 200, json := .ok (.obj
          [("patients", .arr [.obj [("_id", .str "third-page")]]), ("total", .num 42)]) })
        (PatientManager.loadPatientsStart
          (PatientManager.clickNext
            (PatientManager.loadPatientsStart
              (PatientManager.clickNext
                (PatientManager.loadPatients
                  (.ok { status := 200, json := .ok (.obj
                    [("patients", .arr [.obj [("_id", .str "first-page")]]),
                      ("total", .num 41)]) })
                  {}).2).2).2).2).2).2.manager.patients
      = .arr [.obj [("_id", .str "third-page")]]) ∧
    ((PatientManager.loadPatientsStart
        (PatientManager.clickNext
          (PatientManager.loadPatientsStart
            (PatientManager.clickNext
              (PatientManager.loadPatients
                (.ok { status := 200, json := .ok (.obj
                  [("patients", .arr [.obj [("_id", .str "first-page")]]),
                    ("total", .num 41)]) })
                {}).2).2).2).2).2.requests.map fun r => r.url)
      = ["http://localhost:8000/api/patients?page=1&per_page=20&sort_field=age&sort_order=1",
         "http://localhost:8000/api/patients?page=2&per_page=20&sort_field=age&sort_order=1",
         "http://localhost:8000/api/patients?page=3&per_page=20&sort_field=age&sort_order=1"] :=
  ⟨rfl, rfl, rfl, rfl, rfl⟩

/-- C18, as the code has it: the responses of two list requests in flight are applied in
the order in which they arrive, and nothing checks which request a response answers. Once
both have arrived, `patients` and `total` are those of the response that arrived last,
whichever request it answers, while the page and the sort state stay those of the newer
request: the responses do not change them. The function `loadPatients` is its start, which
issues the request, followed by the arrival of the response. -/
theorem loadPatients_last_response (first : FetchResult) (resp : Response) (data : Val)
    (s : Client) (hok : resp.ok = true) (hjson : resp.json = .ok data)
    (hdata : data.nullish = false) :
    (PatientManager.loadPatientsSettled (.ok resp)
        (PatientManager.loadPatientsSettled first s).2).2.manager.patients
      = data.getPropOpt "patients" ∧
    (PatientManager.loadPatientsSettled (.ok resp)
        (PatientManager.loadPatientsSettled first s).2).2.manager.total
      = data.getPropOpt "total" ∧
    (PatientManager.loadPatientsSettled (.ok resp)
        (PatientManager.loadPatientsSettled first s).2).2.manager.page = s.manager.page ∧
    (PatientManager.loadPatientsSettled (.ok resp)
        (PatientManager.loadPatientsSettled first s).2).2.manager.sortField
      = s.manager.sortField ∧
    (PatientManager.loadPatientsSettled (.ok resp)
        (PatientManager.loadPatientsSettled first s).2).2.manager.sortOrder
      = s.manager.sortOrder ∧
    (∀ (result : FetchResult) (t : Client),
      PatientManager.loadPatients result t
        = PatientManager.loadPatientsSettled result (PatientManager.loadPatientsStart t).2) :=
  ⟨(PatientManager.loadPatientsSettled_success resp data _ hok hjson hdata).1,
   (PatientManager.loadPatientsSettled_success resp data _ hok hjson hdata).2,
   ((PatientManager.loadPatientsSettled_query (.ok resp) _).1.trans
     (PatientManager.loadPatientsSettled_query first s).1),
   ((PatientManager.loadPatientsSettled_query (.ok resp) _).2.1.trans
     (PatientManager.loadPatientsSettled_query first s).2.1),
   ((PatientManager.loadPatientsSettled_query (.ok resp) _).2.2.trans
     (PatientManager.loadPatientsSettled_query first s).2.2),
   PatientManager.loadPatients_split⟩

/-- C18 with the requests for page 2 and page 3 in flight: the response for page 3 arrives
first and the response for page 2 after it, and the total shown is that of page 2. -/
theorem loadPatients_last_response_witness :
    Response.ok { status := 200, json := .ok (.obj
      [("patients", .arr [.obj [("_id", .str "second-page")]]), ("total", .num 41)]) }
      = true ∧
    (PatientManager.loadPatientsSettled
        (.ok { status := 200, json := .ok (.obj
          [("patients", .arr [.obj [("_id", .str "second-page")]]), ("total", .num 41)]) })
        (PatientManager.loadPatientsSettled
          (.ok { status := 200, json := .ok (.obj
            [("patients", .arr [.obj [("_id", .str "third-page")]]), ("total", .num 42)]) })
          (PatientManager.loadPatientsStart
            (PatientManager.clickNext
              (PatientManager.loadPatientsStart
                (PatientManager.clickNext
                  (PatientManager.loadPatients
                    (.ok { status := 200, json := .ok (.obj
                      [("patients", .arr [.obj [("_id", .str "first-page")]]),
                        ("total", .num 41)]) })
                    {}).2).2).2).2).2).2).2.manager.total
      = Val.getPropOpt (.obj
          [("patients", .arr [.obj [("_id", .str "second-page")]]), ("total", .num 41)])
          "total" :=
  ⟨rfl, (loadPatients_last_response
    (.ok { status := 200, json := .ok (.obj
      [("patients", .arr [.obj [("_id", .str "third-page")]]), ("total", .num 42)]) })
    { status := 200, json := .ok (.obj
      [("patients", .arr [.obj [("_id", .str "second-page")]]), ("total", .num 41)]) }
    (.obj [("patients", .arr [.obj [("_id", .str "second-page")]]), ("total", .num 41)])
    (PatientManager.loadPatientsStart
      (PatientManager.clickNext
        (PatientManager.loadPatientsStart
          (PatientManager.clickNext
            (PatientManager.loadPatients
              (.ok { status := 200, json := .ok (.obj
                [("patients", .arr [.obj [("_id", .str "first-page")]]),
                  ("total", .num 41)]) })
              {}).2).2).2).2).2
    rfl rfl rfl).2.1⟩

/-! ## The risk score -/

/-- A property found by a lookup is one of the definitions. -/
theorem Props.lookup_mem (props : Props) (key : String) (v : Val)
    (h : Props.lookup props key = some v) : ∃ e ∈ props, e.2 = v := by
  induction props with
  | nil => simp [Props.lookup] at h
  | cons head rest ih =>
    obtain ⟨k, w⟩ := head
    simp only [Props.lookup] at h
    cases hrest : Props.lookup rest key with
    | some u =>
      rw [hrest] at h
      obtain ⟨e, he, hv⟩ := ih (by rw [hrest]; exact h)
      exact ⟨e, List.mem_cons_of_mem _ he, hv⟩
    | none =>
      rw [hrest] at h
      by_cases hk : k = key
      · simp only [hk, if_true, Option.some.injEq] at h
        exact ⟨(k, w), List.mem_cons_self _ _, h⟩
      · simp [hk] at h

/-- A number is rendered as its text. -/
theorem renderChild_number (v : Val) (h : v.isNumber = true) :
    renderChild v = .ok [v.toStr] := by
  cases v <;> simp [Val.isNumber] at h <;> simp [renderChild]

/-- The analysis rows render when every value does. -/
theorem PatientManager.analysisRows_ok (rows : List (String × Val))
    (h : ∀ e ∈ rows, ∃ nodes, renderChild e.2 = .ok nodes) :
    ∃ shown, PatientManager.analysisRows rows = .ok shown := by
  induction rows with
  | nil => exact ⟨[], rfl⟩
  | cons head rest ih =>
    obtain ⟨label, value⟩ := head
    obtain ⟨nodes, hnodes⟩ := h (label, value) (List.mem_cons_self _ _)
    obtain ⟨shown, hshown⟩ := ih fun e he => h e (List.mem_cons_of_mem _ he)
    simp only at hnodes
    exact ⟨(label, nodes ++ [" pts"]) :: shown, by
      simp [PatientManager.analysisRows, hnodes, hshown]⟩

/-- The risk factors render when every factor does. -/
theorem PatientManager.factorItems_ok (factors : List Val)
    (h : ∀ f ∈ factors, ∃ nodes, renderChild f = .ok nodes) :
    ∃ shown, PatientManager.factorItems factors = .ok shown := by
  induction factors with
  | nil => exact ⟨[], rfl⟩
  | cons head rest ih =>
    obtain ⟨nodes, hnodes⟩ := h head (List.mem_cons_self _ _)
    obtain ⟨shown, hshown⟩ := ih fun f hf => h f (List.mem_cons_of_mem _ hf)
    exact ⟨nodes :: shown, by simp [PatientManager.factorItems, hnodes, hshown]⟩

/-- C19: for every point table and record, `assess` returns a score from 0 to 100 and the
level of that score, and the levels split the integers without gap or overlap: a score is
high exactly from the high threshold on, moderate exactly from the moderate threshold up to
the high one, low exactly from the low threshold up to the other two, very low exactly
below all three. The client shows the score and level of a prediction response as received:
after a successful prediction request whose body carries a risk assessment (a score that is
an integer below 10 to the power 21 in size, which prints as its digits, a level that is a
string, an analysis object of numbers, a sequence of risk factors that are strings and a
recommendation string) the modal is rendered, and it shows the digits of
`prediction.risk_score` and the text of `prediction.risk_level`, followed by ` RISK`, in the
class of that level. -/
theorem assess_score_and_level (table : RiskScorer.PointTable)
    (record : RiskScorer.PatientRecord) (patient data : Val) (resp : Response) (s : Client)
    (inner points : Props) (factors : List Val) (score : Int) (level recommendation : String)
    (hpatient : patient.nullish = false) (hok : resp.ok = true) (hjson : resp.json = .ok data)
    (hbody : data.getPropOpt "prediction" = .obj inner)
    (hscore : Props.get inner "risk_score" = .num score)
    (_hsize : score.natAbs < 10 ^ 21)
    (hlevel : Props.get inner "risk_level" = .str level)
    (hanalysis : Props.get inner "analysis" = .obj points)
    (hpoints : ∀ e ∈ points, e.2.isNumber = true)
    (hfactors : Props.get inner "risk_factors" = .arr factors)
    (hstrings : ∀ f ∈ factors, ∃ text, f = .str text)
    (hrecommendation : Props.get inner "recommendation" = .str recommendation) :
    0 ≤ (RiskScorer.assess table record).risk_score ∧
    (RiskScorer.assess table record).risk_score ≤ 100 ∧
    (RiskScorer.assess table record).risk_level
      = RiskScorer.levelOf table (RiskScorer.assess table record).risk_score ∧
    (∀ n : Int,
      (RiskScorer.levelOf table n = .high ↔ table.highThreshold ≤ n) ∧
      (RiskScorer.levelOf table n = .moderate ↔
        n < table.highThreshold ∧ table.moderateThreshold ≤ n) ∧
      (RiskScorer.levelOf table n = .low ↔
        n < table.highThreshold ∧ n < table.moderateThreshold ∧ table.lowThreshold ≤ n) ∧
      (RiskScorer.levelOf table n = .veryLow ↔
        n < table.highThreshold ∧ n < table.moderateThreshold ∧ n < table.lowThreshold)) ∧
    ∃ view : PatientManager.PredictionView,
      PatientManager.predictionModal (PatientManager.handlePredict patient (.ok resp) s).2
        = some (.ok view) ∧
      view.score = [toString score] ∧
      view.level = (if level = "" then [] else [level]) ++ [" RISK"] ∧
      view.levelClass = PatientManager.getRiskColor (.str level) := by
  refine ⟨?_, ?_, rfl, fun n => ?_, ?_⟩
  · simp only [RiskScorer.assess, RiskScorer.clamp]
    split_ifs <;> omega
  · simp only [RiskScorer.assess, RiskScorer.clamp]
    split_ifs <;> omega
  · simp only [RiskScorer.levelOf]
    split_ifs <;> simp <;> omega
  · have h401 := Response.status_ne_401_of_ok resp hok
    have hdata : ∃ props, data = .obj props := by
      cases data <;> simp [Val.getPropOpt] at hbody
      exact ⟨_, rfl⟩
    obtain ⟨props, rfl⟩ := hdata
    obtain ⟨rows, hrows⟩ := PatientManager.analysisRows_ok
      (((Props.ownKeys points).map fun key => (key, Props.get points key)).map fun entry =>
        (String.mk (entry.1.toList.map fun c => if c.toNat = 95 then Char.ofNat 32 else c),
          entry.2))
      (by
        intro e he
        simp only [List.mem_map, exists_exists_and_eq_and] at he
        obtain ⟨key, -, rfl⟩ := he
        cases hlookup : Props.lookup points key with
        | none => exact ⟨[], by simp [Props.get, hlookup, renderChild]⟩
        | some v =>
          obtain ⟨e, he, hv⟩ := Props.lookup_mem points key v hlookup
          have hnum := hpoints e he
          rw [hv] at hnum
          exact ⟨[v.toStr], by simp [Props.get, hlookup, renderChild_number v hnum]⟩)
    obtain ⟨items, hitems⟩ := PatientManager.factorItems_ok factors (by
      intro f hf
      obtain ⟨text, rfl⟩ := hstrings f hf
      exact ⟨if text = "" then [] else [text], by simp [renderChild]⟩)
    refine ⟨{ score := [toString score]
              levelClass := PatientManager.getRiskColor (.str level)
              level := (if level = "" then [] else [level]) ++ [" RISK"]
              analysis := rows
              riskFactors := items
              recommendation := if recommendation = "" then [] else [recommendation] },
      ?_, rfl, rfl, rfl⟩
    have hparts : PatientManager.predictionParts (.obj props)
        = .ok { score := .num score
                levelClass := PatientManager.getRiskColor (.str level)
                level := .str level
                analysis := ((Props.ownKeys points).map fun key =>
                  (key, Props.get points key)).map fun entry =>
                    (String.mk (entry.1.toList.map fun c =>
                      if c.toNat = 95 then Char.ofNat 32 else c), entry.2)
                riskFactors := factors
                recommendation := .str recommendation } := by
      simp [PatientManager.predictionParts, hbody, Val.read, hscore, hlevel, hanalysis, hfactors,
        hrecommendation, Val.entries, Val.mapReceiver, Val.ownProps, bind, Except.bind, pure,
        Except.pure]
    have hshown : (PatientManager.handlePredict patient (.ok resp) s).2.manager.showPrediction
        = true ∧
        (PatientManager.handlePredict patient (.ok resp) s).2.manager.prediction
          = .obj props := by
      simp [PatientManager.handlePredict, PatientManager.apiCall, fetch, h401, hok, hjson,
        Response.parse, Val.getProp_run, hpatient, PatientManager.setPrediction,
        PatientManager.setShowPrediction, PatientManager.setPredictionLoading]
    generalize ((Props.ownKeys points).map fun key => (key, Props.get points key)).map
      (fun entry =>
        (String.mk (entry.1.toList.map fun c => if c.toNat = 95 then Char.ofNat 32 else c),
          entry.2)) = entries at hrows hparts
    simp [PatientManager.predictionModal, hshown.1, hshown.2, Val.truthy, hparts,
      PatientManager.predictionChildren, hrows, hitems, renderChild, Val.toStr, bind,
      Except.bind, pure, Except.pure]

/-- C19 at a prediction response with score 45 and level MODERATE. -/
theorem assess_score_and_level_witness :
    ∃ view : PatientManager.PredictionView,
      PatientManager.predictionModal
        (PatientManager.handlePredict (.obj [("_id", .str "p1")])
          (.ok { status := 200, json := .ok (.obj [("prediction",
            .obj [("risk_score", .num 45), ("risk_level", .str "MODERATE"),
              ("analysis", .obj [("age", .num 25), ("hypertension", .num 20),
                ("heart_disease", .num 0)]),
              ("risk_factors", .arr [.str "Age over 60", .str "Hypertension"]),
              ("recommendation", .str "Consult a physician")])]) }) {}).2
        = some (.ok view) ∧
      view.score = ["45"] ∧ view.level = ["MODERATE", " RISK"] ∧
      view.levelClass = "text-orange-600 bg-orange-100" :=
  (assess_score_and_level
    { age := fun _ => 0, hypertension := 20, heart_disease := 20, glucose := fun _ => 0,
      bmi := fun _ => 0, smoking := fun _ => 0, adjustment := fun _ => 0,
      lowThreshold := 20, moderateThreshold := 40, highThreshold := 70 }
    { gender := "Male", age := 67, hypertension := true, heart_disease := false,
      ever_married := "Yes", work_type := "Private", residence_type := "Urban",
      avg_glucose_level := 105, bmi := 28, smoking_status := "formerly smoked",
      stroke := false }
    (.obj [("_id", .str "p1")])
    (.obj [("prediction",
      .obj [("risk_score", .num 45), ("risk_level", .str "MODERATE"),
        ("analysis", .obj [("age", .num 25), ("hypertension", .num 20),
          ("heart_disease", .num 0)]),
        ("risk_factors", .arr [.str "Age over 60", .str "Hypertension"]),
        ("recommendation", .str "Consult a physician")])])
    { status := 200, json := .ok (.obj [("prediction",
        .obj [("risk_score", .num 45), ("risk_level", .str "MODERATE"),
          ("analysis", .obj [("age", .num 25), ("hypertension", .num 20),
            ("heart_disease", .num 0)]),
          ("risk_factors", .arr [.str "Age over 60", .str "Hypertension"]),
          ("recommendation", .str "Consult a physician")])]) }
    {}
    [("risk_score", .num 45), ("risk_level", .str "MODERATE"),
      ("analysis", .obj [("age", .num 25), ("hypertension", .num 20),
        ("heart_disease", .num 0)]),
      ("risk_factors", .arr [.str "Age over 60", .str "Hypertension"]),
      ("recommendation", .str "Consult a physician")]
    [("age", .num 25), ("hypertension", .num 20), ("heart_disease", .num 0)]
    [.str "Age over 60", .str "Hypertension"] 45 "MODERATE" "Consult a physician"
    rfl rfl rfl rfl rfl (by decide) rfl rfl
    (by
      intro e he
      simp only [List.mem_cons, List.mem_singleton, List.not_mem_nil, or_false] at he
      rcases he with h | h | h <;> subst h <;> rfl)
    rfl
    (by
      intro f hf
      simp only [List.mem_cons, List.mem_singleton, List.not_mem_nil, or_false] at hf
      rcases hf with h | h <;> subst h <;> exact ⟨_, rfl⟩)
    rfl).2.2.2.2

/-! ## Sorting -/

/-- One `toggleSort` as a change of the sort state: the field becomes the field clicked, and
the order is flipped when the field was the sort field already and 1 otherwise. -/
theorem PatientManager.toggleSort_run (field : String) (s : Client) :
    (PatientManager.toggleSort field s).2
      = { s with manager := { s.manager with
            sortField := field
            sortOrder :=
              if s.manager.sortField = field
              then (if s.manager.sortOrder = 1 then -1 else 1) else 1 } } := by
  by_cases h : s.manager.sortField = field
  · simp [PatientManager.toggleSort, PatientManager.setSortOrder, h]
  · simp [PatientManager.toggleSort, PatientManager.setSortOrder,
      PatientManager.setSortField, h]

/-- Any number of `toggleSort` calls keeps the order in the set of 1 and -1 and leaves the
page alone. -/
theorem PatientManager.toggleSort_invariant (fields : List String) (s : Client)
    (horder : s.manager.sortOrder = 1 ∨ s.manager.sortOrder = -1) :
    ((fields.foldl (fun st f => (PatientManager.toggleSort f st).2) s).manager.sortOrder = 1 ∨
      (fields.foldl (fun st f => (PatientManager.toggleSort f st).2) s).manager.sortOrder = -1) ∧
    (fields.foldl (fun st f => (PatientManager.toggleSort f st).2) s).manager.page
      = s.manager.page := by
  induction fields generalizing s with
  | nil => exact ⟨horder, rfl⟩
  | cons f rest ih =>
    simp only [List.foldl_cons]
    have hstep : (PatientManager.toggleSort f s).2.manager.sortOrder = 1 ∨
        (PatientManager.toggleSort f s).2.manager.sortOrder = -1 := by
      rw [PatientManager.toggleSort_run]
      simp only
      split_ifs <;> simp
    have hpage : (PatientManager.toggleSort f s).2.manager.page = s.manager.page := by
      rw [PatientManager.toggleSort_run]
    obtain ⟨h1, h2⟩ := ih (PatientManager.toggleSort f s).2 hstep
    exact ⟨h1, h2.trans hpage⟩

/-- C21, as stated, fails for a field other than the sort field. The list is loaded, sorted
by `age` with order 1; a click on the column `bmi` sorts it by `bmi` with order 1 and
reloads it; a second click on `bmi` leaves it sorted by `bmi` with order -1, which is not
the state before the two clicks. -/
theorem toggleSort_other_field_twice :
    ((PatientManager.loadPatients
        (.ok { status := 200, json := .ok (.obj
          [("patients", .arr [.obj [("_id", .str "p1")]]), ("total", .num 1)]) })
        {}).2.manager.sortField,
      (PatientManager.loadPatients
        (.ok { status := 200, json := .ok (.obj
          [("patients", .arr [.obj [("_id", .str "p1")]]), ("total", .num 1)]) })
        {}).2.manager.sortOrder) = ("age", 1) ∧
    ((PatientManager.toggleSort "bmi"
        (PatientManager.loadPatients
          (.ok { status := 200, json := .ok (.obj
            [("patients", .arr [.obj [("_id", .str "p1")]]), ("total", .num 1)]) })
          {}).2).2.manager.sortField,
      (PatientManager.toggleSort "bmi"
        (PatientManager.loadPatients
          (.ok { status := 200, json := .ok (.obj
            [("patients", .arr [.obj [("_id", .str "p1")]]), ("total", .num 1)]) })
          {}).2).2.manager.sortOrder) = ("bmi", 1) ∧
    ((PatientManager.toggleSort "bmi"
        (PatientManager.loadPatients
          (.ok { status := 200, json := .ok (.obj
            [("patients", .arr [.obj [("_id", .str "p1")]]), ("total", .num 1)]) })
          (PatientManager.toggleSort "bmi"
            (PatientManager.loadPatients
              (.ok { status := 200, json := .ok (.obj
                [("patients", .arr [.obj [("_id", .str "p1")]]), ("total", .num 1)]) })
              {}).2).2).2).2.manager.sortField,
      (PatientManager.toggleSort "bmi"
        (PatientManager.loadPatients
          (.ok { status := 200, json := .ok (.obj
            [("patients", .arr [.obj [("_id", .str "p1")]]), ("total", .num 1)]) })
          (PatientManager.toggleSort "bmi"
            (PatientManager.loadPatients
              (.ok { status := 200, json := .ok (.obj
                [("patients", .arr [.obj [("_id", .str "p1")]]), ("total", .num 1)]) })
              {}).2).2).2).2.manager.sortOrder) = ("bmi", -1) :=
  ⟨rfl, rfl, rfl⟩

/-- C21, as the code has it: `toggleSort(field)` keeps the field and flips the order
between 1 and -1 when the field is the sort field, and otherwise sets the sort field to the
field and the order to 1. From the initial state, sorted by `age` with order 1, the order
stays 1 or -1 whatever fields are toggled. Toggling the sort field twice restores the state;
toggling any other field twice ends sorted by that field with order -1. `toggleSort` never
changes the page, nor does the reload that follows it. -/
theorem toggleSort_spec (field : String) (fields : List String) (result : FetchResult)
    (s : Client) (horder : s.manager.sortOrder = 1 ∨ s.manager.sortOrder = -1) :
    (({} : Client).manager.sortField = "age" ∧ ({} : Client).manager.sortOrder = 1) ∧
    (s.manager.sortField = field →
      (PatientManager.toggleSort field s).2.manager.sortField = s.manager.sortField ∧
      (PatientManager.toggleSort field s).2.manager.sortOrder = -s.manager.sortOrder) ∧
    (s.manager.sortField ≠ field →
      (PatientManager.toggleSort field s).2.manager.sortField = field ∧
      (PatientManager.toggleSort field s).2.manager.sortOrder = 1) ∧
    ((fields.foldl (fun st f => (PatientManager.toggleSort f st).2) s).manager.sortOrder = 1 ∨
      (fields.foldl (fun st f => (PatientManager.toggleSort f st).2) s).manager.sortOrder = -1) ∧
    (PatientManager.toggleSort s.manager.sortField
        (PatientManager.toggleSort s.manager.sortField s).2).2 = s ∧
    (s.manager.sortField ≠ field →
      (PatientManager.toggleSort field
          (PatientManager.toggleSort field s).2).2.manager.sortField = field ∧
      (PatientManager.toggleSort field
          (PatientManager.toggleSort field s).2).2.manager.sortOrder = -1) ∧
    (PatientManager.toggleSort field s).2.manager.page = s.manager.page ∧
    (PatientManager.loadPatients result
        (PatientManager.toggleSort field s).2).2.manager.page = s.manager.page ∧
    (fields.foldl (fun st f => (PatientManager.toggleSort f st).2) s).manager.page
      = s.manager.page := by
  refine ⟨⟨rfl, rfl⟩, ?_, ?_, (PatientManager.toggleSort_invariant fields s horder).1, ?_, ?_,
    ?_, ?_, (PatientManager.toggleSort_invariant fields s horder).2⟩
  · intro h
    rw [PatientManager.toggleSort_run]
    refine ⟨h.symm, ?_⟩
    rcases horder with h1 | h1 <;> simp [h, h1]
  · intro h
    rw [PatientManager.toggleSort_run]
    simp [h]
  · rw [PatientManager.toggleSort_run, PatientManager.toggleSort_run]
    obtain ⟨requests, navigations, app, authPage, manager, auth, loginRegister, patientForm⟩ := s
    obtain ⟨patients, loading, showForm, editingPatient, viewPatient, success, error, page,
      total, sortField, sortOrder, prediction, showPrediction, predictionLoading, statistics,
      showStats⟩ := manager
    simp only at horder
    rcases horder with h1 | h1 <;> subst h1 <;> simp
  · intro h
    rw [PatientManager.toggleSort_run, PatientManager.toggleSort_run]
    simp [h]
  · rw [PatientManager.toggleSort_run]
  · obtain ⟨out, r, -, h⟩ := PatientManager.apiCall_run_navigate
      ("/api/patients?page=" ++ toString s.manager.page
          ++ "&per_page=" ++ toString PatientManager.perPage
          ++ "&sort_field=" ++ field
          ++ "&sort_order=" ++ toString (if s.manager.sortField = field
              then (if s.manager.sortOrder = 1 then (-1 : Int) else 1) else 1)) [] result
    rw [PatientManager.toggleSort_run]
    simp only [PatientManager.loadPatients, Eff.pure_def, Eff.bind_def, Eff.run_bind,
      Eff.run_get, Eff.run_tryFinally, Eff.run_tryCatch, PatientManager.setLoading,
      PatientManager.setPatients, PatientManager.setTotal, PatientManager.setError,
      Eff.run_modify, h, Val.getProp_run]
    rcases out with e | data
    · simp
    · cases hn : data.nullish <;> simp [hn]


/-- C21 at the initial state: two clicks on the `age` column restore it. -/
theorem toggleSort_spec_witness :
    (({} : Client).manager.sortOrder = 1 ∨ ({} : Client).manager.sortOrder = -1) ∧
    (PatientManager.toggleSort ({} : Client).manager.sortField
        (PatientManager.toggleSort ({} : Client).manager.sortField {}).2).2 = {} :=
  ⟨Or.inl rfl, (toggleSort_spec "age" ["bmi", "bmi", "age"] (.error "Failed to fetch") {}
    (Or.inl rfl)).2.2.2.2.1⟩

/-! ## Paging -/

/-- The number of pages of a total that is a natural number. -/
theorem PatientManager.totalPages_nat (n : Nat) :
    PatientManager.totalPages (.num n) = .num (((n + 19) / 20 : Nat) : Int) := by
  simp only [PatientManager.totalPages, Val.toNumber, PatientManager.perPage, Val.num.injEq]
  omega

/-- With a total that is a natural number, `Next` is disabled exactly when the total is 0
or the page is the last page. -/
theorem PatientManager.nextDisabled_iff (s : Client) (n : Nat)
    (htotal : s.manager.total = .num n) :
    PatientManager.nextDisabled s = true ↔
      n = 0 ∨ s.manager.page = (((n + 19) / 20 : Nat) : Int) := by
  simp only [PatientManager.nextDisabled, htotal, PatientManager.totalPages_nat,
    Bool.or_eq_true, beq_iff_eq]
  constructor
  · rintro (h | h)
    · exact Or.inr h
    · exact Or.inl (by exact_mod_cast h)
  · rintro (h | h)
    · exact Or.inr (by exact_mod_cast h)
    · exact Or.inl h

/-- A click on `Previous` or `Next` keeps the total, and keeps the page between 1 and the
last page (or at 1 when there is no page). -/
theorem PatientManager.click_invariant (n : Nat) (next : Bool) (s : Client)
    (htotal : s.manager.total = .num n)
    (hpage : 1 ≤ s.manager.page ∧ s.manager.page ≤ ((max 1 ((n + 19) / 20) : Nat) : Int)) :
    (if next then (PatientManager.clickNext s).2
      else (PatientManager.clickPrevious s).2).manager.total = .num n ∧
    1 ≤ (if next then (PatientManager.clickNext s).2
      else (PatientManager.clickPrevious s).2).manager.page ∧
    (if next then (PatientManager.clickNext s).2
      else (PatientManager.clickPrevious s).2).manager.page
        ≤ ((max 1 ((n + 19) / 20) : Nat) : Int) := by
  cases next
  · simp only [Bool.false_eq_true, if_false, PatientManager.clickPrevious, Eff.pure_def,
      Eff.bind_def, Eff.run_bind, Eff.run_get]
    by_cases h1 : s.manager.page = 1
    · simp [PatientManager.previousDisabled, h1, htotal]
    · simp only [PatientManager.previousDisabled, beq_iff_eq, h1, if_false,
        PatientManager.setPage, Eff.run_modify, htotal, true_and]
      omega
  · simp only [if_true, PatientManager.clickNext, Eff.pure_def, Eff.bind_def, Eff.run_bind,
      Eff.run_get]
    cases hd : PatientManager.nextDisabled s
    · have hnot := (PatientManager.nextDisabled_iff s n htotal).not.mp (by simp [hd])
      simp only [Bool.false_eq_true, if_false, PatientManager.setPage, Eff.run_modify, htotal,
        true_and]
      push_neg at hnot
      omega
    · simp only [if_true, Eff.run_pure, htotal, true_and]
      exact hpage

/-- C22: with the total a fixed natural number, every page reached from page 1 by clicks on
`Previous` and `Next` (a disabled button does nothing) is at least 1 and at most the larger
of 1 and the number of pages, the total divided by 20 and rounded up. `Previous` is disabled
exactly when the page is 1, and `Next` exactly when the total is 0 or the page is the number
of pages. -/
theorem pagination_bounds (n : Nat) (clicks : List Bool) (s : Client)
    (hpage : s.manager.page = 1) (htotal : s.manager.total = .num n) :
    1 ≤ (clicks.foldl (fun st next =>
        if next then (PatientManager.clickNext st).2
        else (PatientManager.clickPrevious st).2) s).manager.page ∧
    (clicks.foldl (fun st next =>
        if next then (PatientManager.clickNext st).2
        else (PatientManager.clickPrevious st).2) s).manager.page
      ≤ ((max 1 ((n + 19) / 20) : Nat) : Int) ∧
    (∀ t : Client, PatientManager.previousDisabled t = true ↔ t.manager.page = 1) ∧
    (∀ (t : Client) (m : Nat), t.manager.total = .num m →
      (PatientManager.nextDisabled t = true ↔
        m = 0 ∨ t.manager.page = (((m + 19) / 20 : Nat) : Int))) := by
  have hinv : ∀ (clicks : List Bool) (st : Client), st.manager.total = .num n →
      (1 ≤ st.manager.page ∧ st.manager.page ≤ ((max 1 ((n + 19) / 20) : Nat) : Int)) →
      1 ≤ (clicks.foldl (fun st next =>
          if next then (PatientManager.clickNext st).2
          else (PatientManager.clickPrevious st).2) st).manager.page ∧
      (clicks.foldl (fun st next =>
          if next then (PatientManager.clickNext st).2
          else (PatientManager.clickPrevious st).2) st).manager.page
        ≤ ((max 1 ((n + 19) / 20) : Nat) : Int) := by
    intro clicks
    induction clicks with
    | nil => intro st _ h; exact h
    | cons next rest ih =>
      intro st ht hp
      simp only [List.foldl_cons]
      obtain ⟨h1, h2, h3⟩ := PatientManager.click_invariant n next st ht hp
      exact ih _ h1 ⟨h2, h3⟩
  have hstart : 1 ≤ s.manager.page ∧ s.manager.page ≤ ((max 1 ((n + 19) / 20) : Nat) : Int) := by
    rw [hpage]
    constructor
    · exact le_refl _
    · have : 1 ≤ max 1 ((n + 19) / 20) := le_max_left _ _
      exact_mod_cast this
  refine ⟨(hinv clicks s htotal hstart).1, (hinv clicks s htotal hstart).2, ?_, ?_⟩
  · intro t
    simp [PatientManager.previousDisabled]
  · intro t m hm
    exact PatientManager.nextDisabled_iff t m hm

/-- C22 at 41 patients: three clicks on `Next` from page 1 stop at page 3. -/
theorem pagination_bounds_witness :
    ({ manager := { total := .num 41 } } : Client).manager.page = 1 ∧
    ([true, true, true].foldl (fun st next =>
        if next then (PatientManager.clickNext st).2
        else (PatientManager.clickPrevious st).2)
        ({ manager := { total := .num 41 } } : Client)).manager.page
      ≤ ((max 1 ((41 + 19) / 20) : Nat) : Int) :=
  ⟨rfl, (pagination_bounds 41 [true, true, true] { manager := { total := .num 41 } }
    rfl rfl).2.1⟩

/-- C23: the user is on page 3 of 41 patients and deletes the only patient of that page; the
reload gives a total of 40, that is 2 pages. The page is still 3, beyond the last page, the
`Next` button is enabled, and a click on it moves to page 4. -/
theorem next_enabled_beyond_last_page :
    (PatientManager.handleDelete (.str "p41") true
        (.ok { status := 200, json := .ok (.obj [("message", .str "deleted")]) })
        (.ok { status := 200, json := .ok (.obj [("patients", .arr []), ("total", .num 40)]) })
        { manager :=
            { page := 3, total := .num 41,
              patients := .arr [.obj [("_id", .str "p41")]] } }).2.manager.total = .num 40 ∧
    PatientManager.totalPages (.num 40) = .num 2 ∧
    (PatientManager.handleDelete (.str "p41") true
        (.ok { status := 200, json := .ok (.obj [("message", .str "deleted")]) })
        (.ok { status := 200, json := .ok (.obj [("patients", .arr []), ("total", .num 40)]) })
        { manager :=
            { page := 3, total := .num 41,
              patients := .arr [.obj [("_id", .str "p41")]] } }).2.manager.page = 3 ∧
    PatientManager.nextDisabled
      (PatientManager.handleDelete (.str "p41") true
        (.ok { status := 200, json := .ok (.obj [("message", .str "deleted")]) })
        (.ok { status := 200, json := .ok (.obj [("patients", .arr []), ("total", .num 40)]) })
        { manager :=
            { page := 3, total := .num 41,
              patients := .arr [.obj [("_id", .str "p41")]] } }).2 = false ∧
    (PatientManager.clickNext
      (PatientManager.handleDelete (.str "p41") true
        (.ok { status := 200, json := .ok (.obj [("message", .str "deleted")]) })
        (.ok { status := 200, json := .ok (.obj [("patients", .arr []), ("total", .num 40)]) })
        { manager :=
            { page := 3, total := .num 41,
              patients := .arr [.obj [("_id", .str "p41")]] } }).2).2.manager.page = 4 :=
  ⟨rfl, rfl, rfl, rfl, rfl⟩

/-! ## The route guard -/

/-- The path match in terms of the characters: the pathname, in small letters, is the route
path, in small letters, followed by slashes. -/
theorem App.matchPath_iff (pattern pathname : String) :
    App.matchPath pattern pathname = true ↔
      ∃ k, pathname.toList.map Char.toLower
        = pattern.toList.map Char.toLower ++ List.replicate k (Char.ofNat 47) := by
  simp only [App.matchPath, Bool.and_eq_true, List.isPrefixOf_iff_prefix, List.all_eq_true,
    beq_iff_eq]
  constructor
  · rintro ⟨⟨rest, hrest⟩, hall⟩
    refine ⟨rest.length, ?_⟩
    rw [← hrest] at hall ⊢
    have hdrop : (pattern.toList.map Char.toLower ++ rest).drop pattern.toList.length = rest := by
      rw [List.drop_append_of_le_length (by simp)]
      simp
    rw [hdrop] at hall
    congr 1
    refine List.eq_replicate_iff.mpr ⟨rfl, fun c hc => ?_⟩
    have h := hall c hc
    rw [← Char.ofNat_toNat c, h]
  · rintro ⟨k, hk⟩
    rw [hk]
    refine ⟨⟨_, rfl⟩, ?_⟩
    rw [List.drop_append_of_le_length (by simp)]
    intro c hc
    have hdrop : (List.map Char.toLower pattern.toList).drop pattern.toList.length = [] := by
      simp
    rw [hdrop, List.nil_append] at hc
    rw [List.eq_of_mem_replicate hc]
    rfl

/-- The route paths `/` and `/dashboard` exclude one another, and no route matches the empty
pathname as it stands. -/
theorem App.matchPath_dashboard (pathname : String)
    (h : App.matchPath "/dashboard" pathname = true) :
    App.matchPath "/" pathname = false ∧ pathname ≠ "" := by
  constructor
  · cases hroot : App.matchPath "/" pathname
    · rfl
    · obtain ⟨k, hk⟩ := (App.matchPath_iff _ _).mp h
      obtain ⟨j, hj⟩ := (App.matchPath_iff _ _).mp hroot
      rw [hk] at hj
      have h1 : "/dashboard".toList.map Char.toLower
          = [Char.ofNat 47, Char.ofNat 100] ++ "ashboard".toList := by decide
      have h2 : "/".toList.map Char.toLower = [Char.ofNat 47] := by decide
      rw [h1, h2] at hj
      cases j with
      | zero => simp at hj
      | succ j =>
        simp only [List.replicate_succ, List.cons_append, List.nil_append, List.cons.injEq,
          true_and] at hj
        exact absurd hj.1 (by decide)
  · rintro rfl
    exact absurd h (by decide)

/-- The startup probe ends with `loading` reset. -/
theorem App.onMount_loading (result : FetchResult) (s : Client) :
    (App.onMount result s).2.app.loading = false := by
  obtain ⟨out, r, -, h⟩ := App.apiCall_run "/api/auth/current_user" [] result
  simp [App.onMount, h, App.setLoading]

/-- C24, as stated, fails on both of its conditions. A user that is not `null` and is falsy
is treated as logged out: with the user 0 or the empty string the location `/` shows the
login page and does not redirect to `/dashboard`, and the probe reaches such states (an
answer `user: 0` leaves the user 0, an answer without a `user` field leaves the user
`undefined`). And the dashboard is rendered at locations other than `/dashboard`: the router
matches `/Dashboard` and `/dashboard/` with the route `/dashboard`. -/
theorem render_falsy_user :
    App.render { app := { user := .num 0, loading := false } } "/" = .authPage ∧
    App.render { app := { user := .str "", loading := false } } "/" = .authPage ∧
    (App.onMount (.ok { status := 200, json := .ok (.obj [("user", .num 0)]) }) {}).2.app
      = { user := .num 0, loading := false } ∧
    App.render (App.onMount (.ok { status := 200, json := .ok (.obj [("user", .num 0)]) })
      {}).2 "/" = .authPage ∧
    (App.onMount (.ok { status := 200, json := .ok (.obj []) }) {}).2.app
      = { user := .undefined, loading := false } ∧
    App.render (App.onMount (.ok { status := 200, json := .ok (.obj []) }) {}).2 "/"
      = .authPage ∧
    App.render { app := { user := .obj [("username", .str "alice")], loading := false } }
      "/Dashboard" = .dashboard ∧
    App.render { app := { user := .obj [("username", .str "alice")], loading := false } }
      "/dashboard/" = .dashboard ∧
    "/Dashboard" ≠ "/dashboard" ∧ "/dashboard/" ≠ "/dashboard" :=
  ⟨rfl, rfl, rfl, rfl, rfl, rfl, by decide, by decide, by decide, by decide⟩

/-- C24, as the code has it: once the probe has finished, the dashboard is rendered exactly
when the location matches the route `/dashboard`, that is when its pathname is `/dashboard`
in any case of the letters followed by any number of slashes, and the user is truthy, so
never for a user that is `null` or `undefined`. At a location that matches `/dashboard` a
falsy user (`null` among them) is redirected to `/`; at a location that matches `/` a
truthy user is redirected to `/dashboard` and a falsy user gets the login page. After the
startup probe, whatever its result, this is the state of the routes. -/
theorem route_guard (s : Client) (path : String) (hloaded : s.app.loading = false) :
    (App.render s path = .dashboard ↔
      App.matchPath "/dashboard" path = true ∧ s.app.user.truthy = true) ∧
    (App.matchPath "/dashboard" path = true ↔
      ∃ k, path.toList.map Char.toLower
        = "/dashboard".toList ++ List.replicate k (Char.ofNat 47)) ∧
    (App.render s path = .dashboard → s.app.user ≠ .null ∧ s.app.user ≠ .undefined) ∧
    (App.matchPath "/dashboard" path = true → s.app.user.truthy = false →
      App.render s path = .redirect "/") ∧
    (App.matchPath "/" path = true → s.app.user.truthy = true →
      App.render s path = .redirect "/dashboard") ∧
    (App.matchPath "/" path = true → s.app.user.truthy = false →
      App.render s path = .authPage) ∧
    (s.app.user = .null →
      App.render s "/dashboard" = .redirect "/" ∧ App.render s "/" = .authPage) ∧
    (∀ (result : FetchResult) (t : Client),
      App.render (App.onMount result t).2 path = .dashboard →
        App.matchPath "/dashboard" path = true ∧
        (App.onMount result t).2.app.user.truthy = true) := by
  have hroot : App.matchPath "/" path = true → path ≠ "" := by
    rintro h rfl
    exact absurd h (by decide)
  have hempty : App.matchPath "/dashboard" "/" = false := by decide
  have hdash : ∀ t : Client, t.app.loading = false →
      (App.render t path = .dashboard ↔
        App.matchPath "/dashboard" path = true ∧ t.app.user.truthy = true) := by
    intro t ht
    by_cases hp : path = ""
    · subst hp
      have h0 : App.matchPath "/dashboard" "" = false := by decide
      have h1 : App.matchPath "/" "/" = true := by decide
      simp only [App.render, ht, h0, h1, Bool.false_eq_true, if_false, if_true, false_and,
        iff_false]
      cases t.app.user.truthy <;> simp
    · simp only [App.render, ht, hp, Bool.false_eq_true, if_false]
      cases h1 : App.matchPath "/" path
      · cases h2 : App.matchPath "/dashboard" path
        · cases h3 : App.matchPath "/session-expired" path <;> simp
        · cases t.app.user.truthy <;> simp
      · have h2 : App.matchPath "/dashboard" path = false := by
          cases h2 : App.matchPath "/dashboard" path
          · rfl
          · rw [(App.matchPath_dashboard path h2).1] at h1
            exact absurd h1 (by decide)
        cases t.app.user.truthy <;> simp [h2]
  refine ⟨hdash s hloaded, ?_, ?_, ?_, ?_, ?_, ?_, ?_⟩
  · rw [App.matchPath_iff]
    have h1 : "/dashboard".toList.map Char.toLower = "/dashboard".toList := by decide
    rw [h1]
  · intro h
    have ht := ((hdash s hloaded).mp h).2
    constructor <;> intro hu <;> simp [hu, Val.truthy] at ht
  · intro hm hu
    obtain ⟨h1, h2⟩ := App.matchPath_dashboard path hm
    simp [App.render, hloaded, h1, h2, hm, hu]
  · intro hm hu
    simp [App.render, hloaded, hroot hm, hm, hu]
  · intro hm hu
    simp [App.render, hloaded, hroot hm, hm, hu]
  · intro h
    have h1 : App.matchPath "/" "/dashboard" = false := by decide
    have h2 : App.matchPath "/dashboard" "/dashboard" = true := by decide
    have h3 : App.matchPath "/" "/" = true := by decide
    simp [App.render, hloaded, h, h1, h2, h3, Val.truthy]
  · intro result t h
    exact (hdash _ (App.onMount_loading result t)).mp h

/-- C24 after a probe that found the user `alice`, at the location `/Dashboard/`. -/
theorem route_guard_witness :
    (App.onMount (.ok { status := 200, json := .ok (.obj
        [("user", .obj [("username", .str "alice")])]) }) {}).2.app.loading = false ∧
    (App.render (App.onMount (.ok { status := 200, json := .ok (.obj
        [("user", .obj [("username", .str "alice")])]) }) {}).2 "/Dashboard/" = .dashboard ↔
      App.matchPath "/dashboard" "/Dashboard/" = true ∧
      (App.onMount (.ok { status := 200, json := .ok (.obj
        [("user", .obj [("username", .str "alice")])]) }) {}).2.app.user.truthy = true) :=
  ⟨rfl, (route_guard
    (App.onMount (.ok { status := 200, json := .ok (.obj
        [("user", .obj [("username", .str "alice")])]) }) {}).2 "/Dashboard/" rfl).1⟩

/-! ## The two wrappers -/

/-- Off the 401 path the two wrappers are the same function: for every endpoint, options and
`navigate` argument, and every result of the request that is not a response with status
401, they issue the same request, end with the same outcome and leave the same state, so
that `navigate` is not called. -/
theorem apiCall_agree (endpoint : String) (options : Props)
    (go : Option (String → Eff Client Unit)) (result : FetchResult) (s : Client)
    (h : ∀ resp, result = .ok resp → resp.status ≠ 401) :
    PatientManager.apiCall endpoint options go result s
      = App.apiCall endpoint options result s := by
  rcases result with m | resp
  · simp [PatientManager.apiCall, App.apiCall, fetch, PatientManager.API_URL, App.API_URL]
  · have h401 := h resp rfl
    simp [PatientManager.apiCall, App.apiCall, fetch, PatientManager.API_URL, App.API_URL,
      h401]

/-- C25: a 401 response whose body is the JSON text `null`: the wrapper of `App.jsx` raises
the `TypeError` of reading `error.error` on `null`, neither the error message of the body
nor `Request failed`; the wrapper of `PatientManager.jsx` raises the session-expired
error. -/
theorem apiCall_unauthorized_null_body :
    (App.apiCall "/api/auth/current_user" [] (.ok { status := 401, json := .ok .null }) {}).1
      = .error { name := "TypeError"
                 message := "Cannot read properties of null (reading \x27error\x27)" } ∧
    (PatientManager.apiCall "/api/auth/current_user" [] (some navigate)
        (.ok { status := 401, json := .ok .null }) {}).1
      = .error { name := "Error", message := "Session expired. Please login again." } :=
  ⟨rfl, rfl⟩

end PatientClient
